import Mathlib

/-!
# VibeInvaders: gameplay simulation core of `invaders.c`

A shallow embedding of the simulation core of `src/invaders.c` and the
properties of its specification.

Modelling conventions
* C `float` values are rationals (`ℚ`); infinities and NaN are not modelled.  The
  arithmetic of positions, sizes, timers and of the texture transform is exact.
* The distance test of `DamageShield`, `sqrtf (dx * dx + dy * dy) <= 5.0f`, decides which
  pixels lie on the rim of the damage disc, so it is evaluated in IEEE 754 binary32:
  every subtraction, product and sum is rounded to nearest, ties to even (`roundF32`), as
  under `FLT_EVAL_METHOD` 0 without contraction, and `sqrtf` returns the correctly rounded
  root (`sqrtfWithinRadius`, lemma `roundF32_sqrt_le_five_iff`).
* C `int` values are `Int` without wrap-around (signed overflow is undefined).
* Fixed-size global arrays are total functions on `Fin n`.
* The pixel content of a texture travels with its handle (`Texture2D.pixels`),
  so that `LoadImageFromTexture` and `UpdateTexture` are a read and a write.
* Collaborators (keyboard, pointer, frame clock, random generator, loaded
  textures) are explicit arguments; sound playback has no effect on the state.
-/

namespace Invaders

/-! ## Constants -/

def SCREEN_WIDTH : Int := 800
def SCREEN_HEIGHT : Int := 600
def PLAYER_SPEED : ℚ := 5
def PLAYER_BULLET_SPEED : ℚ := 7
def ALIEN_BULLET_SPEED : ℚ := 4
def ALIENS_ROWS : Nat := 5
def ALIENS_COLS : Nat := 11
def NUM_ALIENS : Nat := ALIENS_ROWS * ALIENS_COLS
def MAX_ALIEN_BULLETS : Nat := 10
def NUM_SHIELDS : Nat := 4
def ALIEN_MOVE_WAIT_TIME_START : ℚ := 8 / 10
def ALIEN_MOVE_SPEEDUP_FACTOR : ℚ := 97 / 100
def ALIEN_SHOOT_INTERVAL_MIN : ℚ := 1 / 2
def ALIEN_SHOOT_INTERVAL_MAX : ℚ := 2
def UFO_SPEED : ℚ := 55
def UFO_POINTS : Int := 200
def UFO_SPAWN_INTERVAL_MIN : ℚ := 30
def UFO_SPAWN_INTERVAL_MAX : ℚ := 240
def MAX_EXPLOSIONS : Nat := 10

instance : NeZero NUM_ALIENS := ⟨by decide⟩
instance : NeZero MAX_ALIEN_BULLETS := ⟨by decide⟩
instance : NeZero NUM_SHIELDS := ⟨by decide⟩
instance : NeZero MAX_EXPLOSIONS := ⟨by decide⟩

/-- The global `alienHorizontalMove`; it is initialised to `3.0f` and never assigned. -/
def alienHorizontalMove : ℚ := 3
/-- The global `alienVerticalMove`; it is initialised to `2.0f` and never assigned. -/
def alienVerticalMove : ℚ := 2

/-! ## Types -/

structure Vector2 where
  x : ℚ
  y : ℚ
deriving DecidableEq

structure Rectangle where
  x : ℚ
  y : ℚ
  width : ℚ
  height : ℚ
deriving DecidableEq

/-- An RGBA colour; each channel is an `unsigned char`. -/
structure Color where
  r : Nat
  g : Nat
  b : Nat
  a : Nat
deriving DecidableEq

/-- CPU-side pixel buffer: `data` is row-major, pixel `(x, y)` at `y * width + x`. -/
structure Image where
  data : List Color
  width : Int
  height : Int

/-- A texture handle together with its pixel content. -/
structure Texture2D where
  width : Int
  height : Int
  pixels : List Color

structure RenderTexture2D where
  texture : Texture2D

inductive GameScreen where
  | LOGO
  | TITLE
  | GAMEPLAY
  | GAME_OVER
deriving DecidableEq

inductive AlienType where
  | ALIEN_TYPE_1
  | ALIEN_TYPE_2
  | ALIEN_TYPE_3
deriving DecidableEq

structure Player where
  position : Vector2
  texture : Texture2D
  textureRect : Rectangle
  size : Vector2
  lives : Int
  shotActive : Bool
  shotPosition : Vector2
  shotTexture : Texture2D
  shotTextureRect : Rectangle
  shotSize : Vector2
  explosionTimer : ℚ

structure Alien where
  position : Vector2
  basePosition : Vector2
  type : AlienType
  texture1 : Texture2D
  texture2 : Texture2D
  textureRect : Rectangle
  size : Vector2
  active : Bool
  currentFrame : Bool
  color : Color
  points : Int

structure Bullet where
  position : Vector2
  active : Bool
  speed : ℚ
  texture : Texture2D
  textureRect : Rectangle
  size : Vector2

structure Shield where
  position : Vector2
  renderTexture : RenderTexture2D
  baseTexture : Texture2D
  active : Bool
  bounds : Rectangle

structure UFO where
  position : Vector2
  texture : Texture2D
  textureRect : Rectangle
  size : Vector2
  active : Bool
  speed : ℚ
  spawnTimer : ℚ
  timeActive : ℚ
  exploding : Bool
  explosionTimer : ℚ
  explosionTexture : Texture2D
  explosionTextureRect : Rectangle

structure Explosion where
  position : Vector2
  texture : Texture2D
  textureRect : Rectangle
  size : Vector2
  timer : ℚ
  active : Bool

/-- The textures loaded by `LoadResources`. -/
structure Resources where
  alienTexture1_1 : Texture2D
  alienTexture1_2 : Texture2D
  alienTexture2_1 : Texture2D
  alienTexture2_2 : Texture2D
  alienTexture3_1 : Texture2D
  alienTexture3_2 : Texture2D
  playerTexture : Texture2D
  playerShotTexture : Texture2D
  rollingTexture1 : Texture2D
  rollingTexture2 : Texture2D
  rollingTexture3 : Texture2D
  rollingTexture4 : Texture2D
  shieldTexture : Texture2D
  ufoTexture : Texture2D
  alienExplosionTexture : Texture2D
  shotExplosionTexture : Texture2D
  ufoExplosionTexture : Texture2D

/-- The module-level variables of the gameplay simulation.  `randCalls` counts the
draws taken from the random generator so far. -/
structure GameState where
  currentScreen : GameScreen
  framesCounter : Int
  gameOver : Bool
  gamePaused : Bool
  score : Int
  hiScore : Int
  player : Player
  aliens : Fin NUM_ALIENS → Alien
  alienBullets : Fin MAX_ALIEN_BULLETS → Bullet
  shields : Fin NUM_SHIELDS → Shield
  ufo : UFO
  explosions : Fin MAX_EXPLOSIONS → Explosion
  aliensAlive : Int
  alienMoveTimer : ℚ
  alienMoveWaitTime : ℚ
  alienDirection : Int
  moveDown : Bool
  alienShootTimer : ℚ
  alienMoveSoundIndex : Int
  currentWave : Int
  randCalls : Nat

/-- The collaborators that stay fixed during a run: the loaded textures, the
raw outputs of the random generator (`rand k` is what the k-th call of the C
library generator returns) and the renderer (`drawOnBlank t` is the pixel content
read back from a render target of the size of `t` after it is cleared to `BLANK`
and `t` is drawn onto it at the origin). -/
structure Env where
  res : Resources
  rand : Nat → Nat
  drawOnBlank : Texture2D → List Color

/-- The collaborator queries of one frame. -/
structure Input where
  keyEnterPressed : Bool
  gestureTap : Bool
  keyPPressed : Bool
  keyLeftDown : Bool
  keyADown : Bool
  keyRightDown : Bool
  keyDDown : Bool
  mouseLeftDown : Bool
  mousePosition : Vector2
  keySpacePressed : Bool
  frameTime : ℚ
  time : ℚ

/-! ## Collaborator functions (raylib) -/

def WHITE : Color := ⟨255, 255, 255, 255⟩
def BLANK : Color := ⟨0, 0, 0, 0⟩

/-- The C conversion of a `float` to `int`: truncation toward zero. -/
def truncToInt (q : ℚ) : Int := if 0 ≤ q then ⌊q⌋ else ⌈q⌉

/-- raylib `CheckCollisionRecs`: the open overlap test of two rectangles. -/
def CheckCollisionRecs (rec1 rec2 : Rectangle) : Bool :=
  decide ((rec1.x < rec2.x + rec2.width ∧ rec1.x + rec1.width > rec2.x) ∧
    (rec1.y < rec2.y + rec2.height ∧ rec1.y + rec1.height > rec2.y))

/-- raylib `LoadImageFromTexture`: read the pixel content of a texture. -/
def LoadImageFromTexture (t : Texture2D) : Image := ⟨t.pixels, t.width, t.height⟩

/-- raylib `UpdateTexture`: replace the pixel content of a texture. -/
def UpdateTexture (t : Texture2D) (data : List Color) : Texture2D := { t with pixels := data }

/-- raylib `GetImageColor`: the pixel at `(x, y)`, the zero colour outside the image. -/
def GetImageColor (image : Image) (x y : Int) : Color :=
  if 0 ≤ x ∧ x < image.width ∧ 0 ≤ y ∧ y < image.height then
    image.data.getD (y * image.width + x).toNat BLANK
  else BLANK

/-- raylib `GetRandomValue (min, max)`: the bounds are swapped when `min > max`, and
the value is `rand () % (abs (max - min) + 1) + min`. -/
def GetRandomValue (env : Env) (min max : Int) (s : GameState) : Int × GameState :=
  let lo := if min > max then max else min
  let hi := if min > max then min else max
  ((env.rand s.randCalls : Int) % (((hi - lo).natAbs : Int) + 1) + lo,
    { s with randCalls := s.randCalls + 1 })

/-! ## Shield raster -/

def WorldToShieldTexCoords (s : GameState) (shieldIndex : Fin NUM_SHIELDS) (worldPos : Vector2) :
    Vector2 :=
  let sh := s.shields shieldIndex
  let scaleX : ℚ := (sh.renderTexture.texture.width : ℚ) / sh.bounds.width
  let scaleY : ℚ := (sh.renderTexture.texture.height : ℚ) / sh.bounds.height
  let localX : ℚ := (worldPos.x - sh.position.x) * scaleX
  let localY : ℚ := (worldPos.y - sh.position.y) * scaleY
  let localY : ℚ := (sh.renderTexture.texture.height : ℚ) - localY
  let localX : ℚ := if localX < 0 then 0 else localX
  let localY : ℚ := if localY < 0 then 0 else localY
  let localX : ℚ :=
    if localX > ((sh.renderTexture.texture.width - 1 : Int) : ℚ) then
      ((sh.renderTexture.texture.width - 1 : Int) : ℚ) else localX
  let localY : ℚ :=
    if localY > ((sh.renderTexture.texture.height - 1 : Int) : ℚ) then
      ((sh.renderTexture.texture.height - 1 : Int) : ℚ) else localY
  ⟨localX, localY⟩

/-- Nearest integer, ties to the even one. -/
def roundHalfEven {K : Type} [LinearOrderedField K] [FloorRing K] (q : K) : Int :=
  if q - ⌊q⌋ < 1 / 2 then ⌊q⌋
  else if 1 / 2 < q - ⌊q⌋ then ⌊q⌋ + 1
  else if ⌊q⌋ % 2 = 0 then ⌊q⌋ else ⌊q⌋ + 1

/-- The binary exponent of the binary32 values next to `q`: `⌊log₂ |q|⌋`, and `-126` below
the normal range, where the subnormal numbers share the least exponent. -/
def f32Exponent {K : Type} [LinearOrderedField K] [FloorRing K] (q : K) : Int :=
  max (Int.log 2 |q|) (-126)

/-- Rounding to IEEE 754 binary32: the nearest number with 24 significant bits at the
exponent of `q`, ties to the even significand.  Overflow to infinity, from `2 ^ 128` on,
is not modelled. -/
def roundF32 {K : Type} [LinearOrderedField K] [FloorRing K] (q : K) : K :=
  (roundHalfEven (q / 2 ^ (f32Exponent q - 23)) : K) * 2 ^ (f32Exponent q - 23)

def damageRadius : ℚ := 5

/-- The comparison `sqrtf (d) <= damageRadius` for the binary32 value `d` and
`damageRadius = 5.0f`.  `sqrtf` returns the binary32 value nearest to the exact root, and
that value is at most 5 exactly when the exact root is at most `5 + 2⁻²²`, the midpoint
of 5 and the next binary32 value `5 + 2⁻²¹` (lemmas `roundF32_le_five_iff` and
`roundF32_sqrt_le_five_iff`). -/
def sqrtfWithinRadius (d : ℚ) : Bool :=
  decide (d ≤ (damageRadius + 1 / 2 ^ 22) * (damageRadius + 1 / 2 ^ 22))

/-- The test
`sqrtf ((x - localHit.x) * (x - localHit.x) + (y - localHit.y) * (y - localHit.y)) <= damageRadius`
of `DamageShield` in binary32: the two differences, the two products and the sum are each
rounded.  The conversion of the pixel index to `float` is exact (indices below `2 ^ 24`). -/
def withinDamageRadius (localHit : Vector2) (x y : Nat) : Bool :=
  let dx : ℚ := roundF32 ((x : ℚ) - localHit.x)
  let dy : ℚ := roundF32 ((y : ℚ) - localHit.y)
  sqrtfWithinRadius (roundF32 (roundF32 (dx * dx) + roundF32 (dy * dy)))

/-- The write `pixel->a = 0`. -/
def clearAlpha (c : Color) : Color := { c with a := 0 }

/-- The body of the inner loop of `DamageShield` at pixel `(x, y)`. -/
def damagePixel (localHit : Vector2) (width : Int) (y : Nat) (data : List Color) (x : Nat) :
    List Color :=
  if withinDamageRadius localHit x y then
    data.modify clearAlpha ((y : Int) * width + (x : Int)).toNat
  else data

/-- The inner loop of `DamageShield`: `for (x = 0; x < width; x++)`. -/
def damageRow (localHit : Vector2) (width : Int) (data : List Color) (y : Nat) : List Color :=
  (List.range width.toNat).foldl (damagePixel localHit width y) data

/-- The two loops of `DamageShield` over the image. -/
def damageImage (localHit : Vector2) (image : Image) : Image :=
  { image with
    data := (List.range image.height.toNat).foldl (damageRow localHit image.width) image.data }

def DamageShield (shieldIndex : Fin NUM_SHIELDS) (hitPosition : Vector2) (s : GameState) :
    GameState :=
  if !(s.shields shieldIndex).active then s
  else
    let localHit := WorldToShieldTexCoords s shieldIndex hitPosition
    let shieldImage := LoadImageFromTexture (s.shields shieldIndex).renderTexture.texture
    let shieldImage := damageImage localHit shieldImage
    let sh := s.shields shieldIndex
    { s with
      shields := Function.update s.shields shieldIndex
        { sh with
          renderTexture :=
            { sh.renderTexture with
              texture := UpdateTexture sh.renderTexture.texture shieldImage.data } } }

/-- The pixel sample of the shield collision tests:
`GetImageColor (LoadImageFromTexture (tex), (int) texHit.x, (int) texHit.y)`. -/
def shieldPixelAt (s : GameState) (shieldIndex : Fin NUM_SHIELDS) (worldHit : Vector2) : Color :=
  let texHit := WorldToShieldTexCoords s shieldIndex worldHit
  let texImg := LoadImageFromTexture (s.shields shieldIndex).renderTexture.texture
  GetImageColor texImg (truncToInt texHit.x) (truncToInt texHit.y)

/-! ## Slot pools -/

/-- The scan of `SpawnExplosion` over the slots still to visit. -/
def spawnExplosionFrom (position : Vector2) (tex : Texture2D) (texRect : Rectangle)
    (size : Vector2) (explosions : Fin MAX_EXPLOSIONS → Explosion) :
    List (Fin MAX_EXPLOSIONS) → Fin MAX_EXPLOSIONS → Explosion
  | [] => explosions
  | i :: rest =>
    if !(explosions i).active then
      Function.update explosions i
        { explosions i with
          active := true
          position := ⟨position.x - size.x / 2, position.y - size.y / 2⟩
          texture := tex
          textureRect := texRect
          size := size
          timer := 3 / 10 }
    else spawnExplosionFrom position tex texRect size explosions rest

def SpawnExplosion (position : Vector2) (tex : Texture2D) (texRect : Rectangle) (size : Vector2)
    (s : GameState) : GameState :=
  { s with
    explosions :=
      spawnExplosionFrom position tex texRect size s.explosions (List.finRange MAX_EXPLOSIONS) }

/-- The scan of `SpawnAlienShot` over the slots still to visit. -/
def spawnAlienShotFrom (position : Vector2) (bullets : Fin MAX_ALIEN_BULLETS → Bullet) :
    List (Fin MAX_ALIEN_BULLETS) → Fin MAX_ALIEN_BULLETS → Bullet
  | [] => bullets
  | i :: rest =>
    if !(bullets i).active then
      Function.update bullets i { bullets i with active := true, position := position }
    else spawnAlienShotFrom position bullets rest

def SpawnAlienShot (position : Vector2) (s : GameState) : GameState :=
  { s with alienBullets := spawnAlienShotFrom position s.alienBullets (List.finRange MAX_ALIEN_BULLETS) }

def SpawnPlayerShot (s : GameState) : GameState :=
  if !s.player.shotActive ∧ s.player.explosionTimer ≤ 0 then
    { s with
      player :=
        { s.player with
          shotActive := true
          shotPosition :=
            ⟨s.player.position.x + s.player.size.x / 2 - s.player.shotSize.x / 2,
              s.player.position.y - s.player.shotSize.y⟩ } }
  else s

/-! ## Initialisation -/

/-- The array index `r * ALIENS_COLS + c` of grid cell `(r, c)`. -/
def alienIndex (r : Fin ALIENS_ROWS) (c : Fin ALIENS_COLS) : Fin NUM_ALIENS :=
  ⟨r.val * ALIENS_COLS + c.val, by
    have hr := r.isLt
    have hc := c.isLt
    simp only [ALIENS_ROWS, ALIENS_COLS, NUM_ALIENS] at *
    omega⟩

/-- The alien that the body of the loops of `InitAliens` writes into cell `(r, c)`. -/
def initAlien (env : Env) (r : Fin ALIENS_ROWS) (c : Fin ALIENS_COLS) (old : Alien) : Alien :=
  let basePosition : Vector2 := ⟨80 + (c.val : ℚ) * 45, 80 + (r.val : ℚ) * 35⟩
  let a : Alien :=
    { old with
      basePosition := basePosition
      position := basePosition
      active := true
      currentFrame := false }
  let a : Alien :=
    if r.val = 0 then
      { a with
        type := AlienType.ALIEN_TYPE_3
        texture1 := env.res.alienTexture3_1
        texture2 := env.res.alienTexture3_2
        points := 30
        color := WHITE }
    else if r.val < 3 then
      { a with
        type := AlienType.ALIEN_TYPE_2
        texture1 := env.res.alienTexture2_1
        texture2 := env.res.alienTexture2_2
        points := 20
        color := WHITE }
    else
      { a with
        type := AlienType.ALIEN_TYPE_1
        texture1 := env.res.alienTexture1_1
        texture2 := env.res.alienTexture1_2
        points := 10
        color := WHITE }
  let a : Alien := { a with textureRect := ⟨0, 0, (a.texture1.width : ℚ), (a.texture1.height : ℚ)⟩ }
  { a with size := ⟨a.textureRect.width * (3 / 2), a.textureRect.height * (3 / 2)⟩ }

/-- The body of the inner loop of `InitAliens`. -/
def initAlienCell (env : Env) (r : Fin ALIENS_ROWS) (s : GameState) (c : Fin ALIENS_COLS) :
    GameState :=
  { s with
    aliens := Function.update s.aliens (alienIndex r c) (initAlien env r c (s.aliens (alienIndex r c)))
    aliensAlive := s.aliensAlive + 1 }

/-- The inner loop of `InitAliens`: one row of the grid. -/
def initAlienRow (env : Env) (s : GameState) (r : Fin ALIENS_ROWS) : GameState :=
  (List.finRange ALIENS_COLS).foldl (initAlienCell env r) s

def InitAliens (env : Env) (s : GameState) : GameState :=
  let s := { s with aliensAlive := 0 }
  let s := (List.finRange ALIENS_ROWS).foldl (initAlienRow env) s
  let s :=
    { s with
      alienMoveWaitTime :=
        ALIEN_MOVE_WAIT_TIME_START / (1 + ((s.currentWave - 1 : Int) : ℚ) * (2 / 10)) }
  let s :=
    { s with
      alienMoveTimer := s.alienMoveWaitTime
      alienDirection := 1
      moveDown := false
      alienMoveSoundIndex := 0 }
  let draw := GetRandomValue env (truncToInt (ALIEN_SHOOT_INTERVAL_MIN * 100))
    (truncToInt (ALIEN_SHOOT_INTERVAL_MAX * 100)) s
  { draw.2 with alienShootTimer := (draw.1 : ℚ) / 100 }

/-- raylib `LoadRenderTexture`: a new render target; no content is drawn yet. -/
def LoadRenderTexture (width height : Int) : RenderTexture2D := ⟨⟨width, height, []⟩⟩

/-- The body of the loop of `InitShields`. -/
def initShield (env : Env) (shieldSpacing shieldY : ℚ) (shields : Fin NUM_SHIELDS → Shield)
    (i : Fin NUM_SHIELDS) : Fin NUM_SHIELDS → Shield :=
  let sh := shields i
  let sh : Shield := { sh with baseTexture := env.res.shieldTexture }
  let sh : Shield :=
    { sh with renderTexture := LoadRenderTexture sh.baseTexture.width sh.baseTexture.height }
  let sh : Shield :=
    { sh with
      position :=
        ⟨shieldSpacing + (i.val : ℚ) * ((sh.baseTexture.width : ℚ) * 2 + shieldSpacing), shieldY⟩ }
  let sh : Shield := { sh with active := true }
  let sh : Shield :=
    { sh with
      bounds :=
        ⟨sh.position.x, sh.position.y, (sh.baseTexture.width : ℚ) * 2,
          (sh.baseTexture.height : ℚ) * 2⟩ }
  let sh : Shield :=
    { sh with
      renderTexture :=
        { sh.renderTexture with
          texture := UpdateTexture sh.renderTexture.texture (env.drawOnBlank sh.baseTexture) } }
  Function.update shields i sh

def InitShields (env : Env) (s : GameState) : GameState :=
  let shieldSpacing : ℚ :=
    ((SCREEN_WIDTH : ℚ) - (((NUM_SHIELDS : Int) * env.res.shieldTexture.width : Int) : ℚ) * 2) /
      (((NUM_SHIELDS : Int) + 1 : Int) : ℚ)
  let shieldY : ℚ := (SCREEN_HEIGHT : ℚ) - 120
  { s with
    shields := (List.finRange NUM_SHIELDS).foldl (initShield env shieldSpacing shieldY) s.shields }

/-- The respawn position `{ SCREEN_WIDTH / 2.0f - size.x / 2.0f, SCREEN_HEIGHT - size.y - 20.0f }`. -/
def playerStartPosition (size : Vector2) : Vector2 :=
  ⟨(SCREEN_WIDTH : ℚ) / 2 - size.x / 2, (SCREEN_HEIGHT : ℚ) - size.y - 20⟩

/-- The body of the bullet loop of `InitGame`. -/
def initBullet (env : Env) (bullets : Fin MAX_ALIEN_BULLETS → Bullet) (i : Fin MAX_ALIEN_BULLETS) :
    Fin MAX_ALIEN_BULLETS → Bullet :=
  let b := bullets i
  let b : Bullet := { b with active := false, texture := env.res.rollingTexture1 }
  let b : Bullet :=
    { b with
      textureRect := ⟨0, 0, (env.res.rollingTexture1.width : ℚ), (env.res.rollingTexture1.height : ℚ)⟩ }
  let b : Bullet :=
    { b with size := ⟨b.textureRect.width * (3 / 2), b.textureRect.height * (3 / 2)⟩ }
  Function.update bullets i { b with speed := ALIEN_BULLET_SPEED }

def InitGame (env : Env) (s : GameState) : GameState :=
  let s := { s with framesCounter := 0, gameOver := false, gamePaused := false, score := 0,
                    currentWave := 1 }
  let p := s.player
  let p : Player := { p with texture := env.res.playerTexture }
  let p : Player := { p with textureRect := ⟨0, 0, (p.texture.width : ℚ), (p.texture.height : ℚ)⟩ }
  let p : Player := { p with size := ⟨p.textureRect.width * (3 / 2), p.textureRect.height * (3 / 2)⟩ }
  let p : Player := { p with position := playerStartPosition p.size }
  let p : Player := { p with lives := 3, shotActive := false, shotTexture := env.res.playerShotTexture }
  let p : Player :=
    { p with shotTextureRect := ⟨0, 0, (p.shotTexture.width : ℚ), (p.shotTexture.height : ℚ)⟩ }
  let p : Player :=
    { p with
      shotSize := ⟨p.shotTextureRect.width * (3 / 2), p.shotTextureRect.height * (3 / 2)⟩ }
  let p : Player := { p with explosionTimer := 0 }
  let s := { s with player := p }
  let s :=
    { s with alienBullets := (List.finRange MAX_ALIEN_BULLETS).foldl (initBullet env) s.alienBullets }
  let u := s.ufo
  let u : UFO := { u with texture := env.res.ufoTexture }
  let u : UFO := { u with textureRect := ⟨0, 0, (u.texture.width : ℚ), (u.texture.height : ℚ)⟩ }
  let u : UFO := { u with size := ⟨u.textureRect.width * (3 / 2), u.textureRect.height * (3 / 2)⟩ }
  let u : UFO := { u with active := false }
  let s := { s with ufo := u }
  let draw := GetRandomValue env (truncToInt (UFO_SPAWN_INTERVAL_MIN * 100))
    (truncToInt (UFO_SPAWN_INTERVAL_MAX * 100)) s
  let s := draw.2
  let u := s.ufo
  let u : UFO := { u with spawnTimer := (draw.1 : ℚ) / 100 }
  let u : UFO := { u with explosionTexture := env.res.ufoExplosionTexture }
  let u : UFO :=
    { u with
      explosionTextureRect :=
        ⟨0, 0, (u.explosionTexture.width : ℚ), (u.explosionTexture.height : ℚ)⟩ }
  let s := { s with ufo := u }
  let s :=
    { s with
      explosions :=
        (List.finRange MAX_EXPLOSIONS).foldl
          (fun ex i => Function.update ex i { ex i with active := false }) s.explosions }
  let s := InitAliens env s
  let s := InitShields env s
  { s with currentScreen := GameScreen.TITLE }

/-! ## Per-frame update -/

/-- The body of the edge-finding loop of `UpdateAliens` on `(leftmost, rightmost)`. -/
def edgeStep (aliens : Fin NUM_ALIENS → Alien) (lr : ℚ × ℚ) (i : Fin NUM_ALIENS) : ℚ × ℚ :=
  if (aliens i).active then
    let leftmost := if (aliens i).position.x < lr.1 then (aliens i).position.x else lr.1
    let rightmost :=
      if (aliens i).position.x + (aliens i).size.x > lr.2 then
        (aliens i).position.x + (aliens i).size.x
      else lr.2
    (leftmost, rightmost)
  else lr

/-- The edge-finding loop of `UpdateAliens`, from `leftmost = SCREEN_WIDTH`, `rightmost = 0`. -/
def findEdges (aliens : Fin NUM_ALIENS → Alien) : ℚ × ℚ :=
  (List.finRange NUM_ALIENS).foldl (edgeStep aliens) ((SCREEN_WIDTH : ℚ), 0)

/-- The body of the move loop of `UpdateAliens`. -/
def moveAlien (moveDown : Bool) (alienDirection : Int) (aliens : Fin NUM_ALIENS → Alien)
    (i : Fin NUM_ALIENS) : Fin NUM_ALIENS → Alien :=
  if (aliens i).active then
    let a := aliens i
    let a : Alien :=
      if moveDown then
        { a with position := ⟨a.position.x, a.position.y + alienVerticalMove⟩ }
      else
        { a with position := ⟨a.position.x + alienHorizontalMove * (alienDirection : ℚ), a.position.y⟩ }
    Function.update aliens i { a with currentFrame := !a.currentFrame }
  else aliens

/-- The timer-gated swarm step of `UpdateAliens`. -/
def alienStep (s : GameState) : GameState :=
  let s := { s with moveDown := false }
  let lr := findEdges s.aliens
  let leftmost := lr.1
  let rightmost := lr.2
  let s :=
    if (rightmost + alienHorizontalMove * (s.alienDirection : ℚ) > (SCREEN_WIDTH : ℚ) ∧
          s.alienDirection > 0) ∨
        (leftmost + alienHorizontalMove * (s.alienDirection : ℚ) < 0 ∧ s.alienDirection < 0) then
      { s with alienDirection := s.alienDirection * -1, moveDown := true }
    else s
  let s :=
    { s with
      aliens := (List.finRange NUM_ALIENS).foldl (moveAlien s.moveDown s.alienDirection) s.aliens }
  let s := { s with alienMoveSoundIndex := Int.tmod (s.alienMoveSoundIndex + 1) 4 }
  { s with alienMoveTimer := s.alienMoveWaitTime }

/-- The index of `aliens[k]` for a drawn `k`; `GetRandomValue (0, NUM_ALIENS - 1)` stays
below `NUM_ALIENS`. -/
def alienSlot (k : Int) : Fin NUM_ALIENS :=
  ⟨k.toNat % NUM_ALIENS, Nat.mod_lt _ (by decide)⟩

/-- The shooter-selection loop of `UpdateAliens`, with `tries` iterations left. -/
def shooterLoop (env : Env) : Nat → GameState → GameState
  | 0, s => s
  | tries + 1, s =>
    let draw := GetRandomValue env 0 ((NUM_ALIENS : Int) - 1) s
    let shooterIndex := alienSlot draw.1
    let s := draw.2
    if (s.aliens shooterIndex).active then
      let shotPos : Vector2 :=
        ⟨(s.aliens shooterIndex).position.x + (s.aliens shooterIndex).size.x / 2 -
            (s.alienBullets ⟨0, by decide⟩).size.x / 2,
          (s.aliens shooterIndex).position.y + (s.aliens shooterIndex).size.y⟩
      SpawnAlienShot shotPos s
    else shooterLoop env tries s

/-- The shooting scheduler of `UpdateAliens`. -/
def alienShoot (env : Env) (delta : ℚ) (s : GameState) : GameState :=
  let s := { s with alienShootTimer := s.alienShootTimer - delta }
  if s.alienShootTimer ≤ 0 ∧ s.aliensAlive > 0 then
    let s := shooterLoop env NUM_ALIENS s
    let shootIntervalMultiplier : ℚ := ((s.aliensAlive : ℚ) / (NUM_ALIENS : ℚ)) * (1 / 2) + 1 / 2
    let draw := GetRandomValue env (truncToInt (ALIEN_SHOOT_INTERVAL_MIN * 100))
      (truncToInt (ALIEN_SHOOT_INTERVAL_MAX * 100)) s
    let s : GameState :=
      { draw.2 with alienShootTimer := ((draw.1 : ℚ) / 100) * shootIntervalMultiplier }
    if s.alienShootTimer < 1 / 10 then { s with alienShootTimer := 1 / 10 } else s
  else s

def UpdateAliens (env : Env) (delta : ℚ) (s : GameState) : GameState :=
  let s := { s with alienMoveTimer := s.alienMoveTimer - delta }
  let s := if s.alienMoveTimer ≤ 0 then alienStep s else s
  alienShoot env delta s

def bulletRect (b : Bullet) : Rectangle := ⟨b.position.x, b.position.y, b.size.x, b.size.y⟩

def alienRect (a : Alien) : Rectangle := ⟨a.position.x, a.position.y, a.size.x, a.size.y⟩

/-- The bottom-centre contact point of an enemy projectile. -/
def bulletBottom (r : Rectangle) : Vector2 := ⟨r.x + r.width * (1 / 2), r.y + r.height⟩

/-- The shield loop of the projectile pass inside `UpdateBullets`: it stops at the first
active shield whose bounds the projectile overlaps, opaque or not. -/
def bulletShieldScan (env : Env) (i : Fin MAX_ALIEN_BULLETS) (rect : Rectangle) :
    List (Fin NUM_SHIELDS) → GameState → GameState
  | [], s => s
  | sh :: rest, s =>
    if (s.shields sh).active ∧ CheckCollisionRecs rect (s.shields sh).bounds then
      let worldHit := bulletBottom rect
      if (shieldPixelAt s sh worldHit).a > 10 then
        let s :=
          { s with
            alienBullets := Function.update s.alienBullets i { s.alienBullets i with active := false } }
        let s := DamageShield sh worldHit s
        SpawnExplosion ⟨rect.x + rect.width * (1 / 2), rect.y + rect.height⟩
          env.res.shotExplosionTexture
          ⟨0, 0, (env.res.shotExplosionTexture.width : ℚ), (env.res.shotExplosionTexture.height : ℚ)⟩
          ⟨(env.res.shotExplosionTexture.width : ℚ), (env.res.shotExplosionTexture.height : ℚ)⟩ s
      else s
    else bulletShieldScan env i rect rest s

/-- The texture that the animation `switch` of `UpdateBullets` selects. -/
def rollingFrame (env : Env) (time : ℚ) (old : Texture2D) : Texture2D :=
  let frame := Int.tmod (truncToInt (time * 10)) 4
  if frame = 0 then env.res.rollingTexture1
  else if frame = 1 then env.res.rollingTexture2
  else if frame = 2 then env.res.rollingTexture3
  else if frame = 3 then env.res.rollingTexture4
  else old

/-- The body of the movement loop of `UpdateBullets`. -/
def moveBullet (env : Env) (time : ℚ) (bullets : Fin MAX_ALIEN_BULLETS → Bullet)
    (i : Fin MAX_ALIEN_BULLETS) : Fin MAX_ALIEN_BULLETS → Bullet :=
  if (bullets i).active then
    let b := bullets i
    let b : Bullet := { b with position := ⟨b.position.x, b.position.y + b.speed⟩ }
    let b : Bullet := { b with texture := rollingFrame env time b.texture }
    let b : Bullet := { b with textureRect := ⟨0, 0, (b.texture.width : ℚ), (b.texture.height : ℚ)⟩ }
    let b : Bullet := if b.position.y > (SCREEN_HEIGHT : ℚ) then { b with active := false } else b
    Function.update bullets i b
  else bullets

def UpdateBullets (env : Env) (inp : Input) (s : GameState) : GameState :=
  let s :=
    if s.player.shotActive then
      let p : Player :=
        { s.player with
          shotPosition := ⟨s.player.shotPosition.x, s.player.shotPosition.y - PLAYER_BULLET_SPEED⟩ }
      let p : Player := if p.shotPosition.y + p.shotSize.y < 0 then { p with shotActive := false } else p
      { s with player := p }
    else s
  let s :=
    (List.finRange MAX_ALIEN_BULLETS).foldl
      (fun s i =>
        if !(s.alienBullets i).active then s
        else bulletShieldScan env i (bulletRect (s.alienBullets i)) (List.finRange NUM_SHIELDS) s)
      s
  { s with alienBullets := (List.finRange MAX_ALIEN_BULLETS).foldl (moveBullet env inp.time) s.alienBullets }

def SpawnUFO (env : Env) (s : GameState) : GameState :=
  let s :=
    { s with ufo := { s.ufo with active := true, exploding := false, explosionTimer := 0, timeActive := 0 } }
  let draw := GetRandomValue env 0 1 s
  let s := draw.2
  if draw.1 = 0 then
    { s with ufo := { s.ufo with position := ⟨-s.ufo.size.x, 50⟩, speed := UFO_SPEED } }
  else
    { s with ufo := { s.ufo with position := ⟨(SCREEN_WIDTH : ℚ), 50⟩, speed := -UFO_SPEED } }

/-- The exit branch of `UpdateUFO`: deactivate and reschedule with
`GetRandomValue (600, 1800) * delta`. -/
def ufoLeave (env : Env) (delta : ℚ) (s : GameState) : GameState :=
  let s := { s with ufo := { s.ufo with active := false } }
  let draw := GetRandomValue env 600 1800 s
  { draw.2 with ufo := { draw.2.ufo with spawnTimer := (draw.1 : ℚ) * delta } }

def UpdateUFO (env : Env) (delta : ℚ) (s : GameState) : GameState :=
  if !s.ufo.active then
    let s := { s with ufo := { s.ufo with spawnTimer := s.ufo.spawnTimer - delta } }
    if s.ufo.spawnTimer ≤ 0 then SpawnUFO env s else s
  else
    let s :=
      { s with
        ufo :=
          { s.ufo with
            position := ⟨s.ufo.position.x + s.ufo.speed * delta, s.ufo.position.y⟩
            timeActive := s.ufo.timeActive + delta } }
    let s :=
      if s.ufo.speed > 0 ∧ s.ufo.position.x > (SCREEN_WIDTH : ℚ) then ufoLeave env delta s
      else if s.ufo.speed < 0 ∧ s.ufo.position.x + s.ufo.size.x < 0 then ufoLeave env delta s
      else s
    if s.ufo.exploding then
      let s := { s with ufo := { s.ufo with explosionTimer := s.ufo.explosionTimer - delta } }
      if s.ufo.explosionTimer ≤ 0 then
        let s := { s with ufo := { s.ufo with exploding := false, active := false } }
        let draw := GetRandomValue env (truncToInt (UFO_SPAWN_INTERVAL_MIN * 100))
          (truncToInt (UFO_SPAWN_INTERVAL_MAX * 100)) s
        { draw.2 with ufo := { draw.2.ufo with spawnTimer := (draw.1 : ℚ) / 100 } }
      else s
    else s

/-- The body of the loop of `UpdateExplosions`. -/
def updateExplosion (delta : ℚ) (explosions : Fin MAX_EXPLOSIONS → Explosion)
    (i : Fin MAX_EXPLOSIONS) : Fin MAX_EXPLOSIONS → Explosion :=
  if (explosions i).active then
    let e : Explosion := { explosions i with timer := (explosions i).timer - delta }
    let e : Explosion := if e.timer ≤ 0 then { e with active := false } else e
    Function.update explosions i e
  else explosions

def UpdateExplosions (delta : ℚ) (s : GameState) : GameState :=
  { s with explosions := (List.finRange MAX_EXPLOSIONS).foldl (updateExplosion delta) s.explosions }

/-! ## Collision resolution -/

/-- The statement `if (score > hiScore) hiScore = score;`. -/
def raiseHiScore (s : GameState) : GameState :=
  if s.score > s.hiScore then { s with hiScore := s.score } else s

/-- The statements `alienMoveWaitTime *= ALIEN_MOVE_SPEEDUP_FACTOR;` and
`if (alienMoveWaitTime < 0.05f) alienMoveWaitTime = 0.05f;`. -/
def speedUpSwarm (s : GameState) : GameState :=
  let s := { s with alienMoveWaitTime := s.alienMoveWaitTime * ALIEN_MOVE_SPEEDUP_FACTOR }
  if s.alienMoveWaitTime < 5 / 100 then { s with alienMoveWaitTime := 5 / 100 } else s

/-- The first statements of the hit branch of step 1: the shot and the alien are
deactivated, `aliensAlive` is decremented and the points are added to `score`. -/
def scoreAlien (i : Fin NUM_ALIENS) (s : GameState) : GameState :=
  { s with
    player := { s.player with shotActive := false }
    aliens := Function.update s.aliens i { s.aliens i with active := false }
    aliensAlive := s.aliensAlive - 1
    score := s.score + (s.aliens i).points }

/-- The body of step 1 of `CheckCollisions` once the shot overlaps alien `i`. -/
def killAlien (env : Env) (i : Fin NUM_ALIENS) (s : GameState) : GameState :=
  speedUpSwarm
    (SpawnExplosion
      ⟨(s.aliens i).position.x + (s.aliens i).size.x / 2,
        (s.aliens i).position.y + (s.aliens i).size.y / 2⟩
      env.res.alienExplosionTexture
      ⟨0, 0, (env.res.alienExplosionTexture.width : ℚ), (env.res.alienExplosionTexture.height : ℚ)⟩
      ⟨(env.res.alienExplosionTexture.width : ℚ) * (3 / 2),
        (env.res.alienExplosionTexture.height : ℚ) * (3 / 2)⟩
      (raiseHiScore (scoreAlien i s)))

/-- Step 1 of `CheckCollisions`; `some` is the jump to `next_collision_check`. -/
def shotVsAliens (env : Env) (playerShotRect : Rectangle) :
    List (Fin NUM_ALIENS) → GameState → Option GameState
  | [], _ => none
  | i :: rest, s =>
    if (s.aliens i).active ∧ CheckCollisionRecs playerShotRect (alienRect (s.aliens i)) then
      some (killAlien env i s)
    else shotVsAliens env playerShotRect rest s

/-- Step 2 of `CheckCollisions`; `some` is the jump to `next_collision_check`. -/
def shotVsUFO (playerShotRect : Rectangle) (s : GameState) : Option GameState :=
  if s.ufo.active ∧ !s.ufo.exploding then
    if CheckCollisionRecs playerShotRect ⟨s.ufo.position.x, s.ufo.position.y, s.ufo.size.x, s.ufo.size.y⟩ then
      some (raiseHiScore
        { s with
          player := { s.player with shotActive := false }
          ufo := { s.ufo with exploding := true, explosionTimer := 1 / 2 }
          score := s.score + UFO_POINTS })
    else none
  else none

/-- Step 3 of `CheckCollisions`; `some` is the jump to `next_collision_check`. -/
def shotVsShields (env : Env) (playerShotRect : Rectangle) :
    List (Fin NUM_SHIELDS) → GameState → Option GameState
  | [], _ => none
  | i :: rest, s =>
    if (s.shields i).active ∧ CheckCollisionRecs playerShotRect (s.shields i).bounds then
      let worldHit : Vector2 := ⟨playerShotRect.x + playerShotRect.width * (1 / 2), playerShotRect.y⟩
      if (shieldPixelAt s i worldHit).a > 10 then
        let s := { s with player := { s.player with shotActive := false } }
        let s := DamageShield i worldHit s
        some (SpawnExplosion worldHit env.res.shotExplosionTexture
          ⟨0, 0, (env.res.shotExplosionTexture.width : ℚ), (env.res.shotExplosionTexture.height : ℚ)⟩
          ⟨(env.res.shotExplosionTexture.width : ℚ) * (3 / 2),
            (env.res.shotExplosionTexture.height : ℚ) * (3 / 2)⟩ s)
      else shotVsShields env playerShotRect rest s
    else shotVsShields env playerShotRect rest s

/-- The rectangle `playerShotRect` of `CheckCollisions`. -/
def shotRect (p : Player) : Rectangle :=
  ⟨p.shotPosition.x, p.shotPosition.y, p.shotSize.x, p.shotSize.y⟩

/-- The player-shot chain of `CheckCollisions` (steps 1 to 3). -/
def playerShotCollisions (env : Env) (s : GameState) : GameState :=
  if s.player.shotActive then
    let playerShotRect : Rectangle := shotRect s.player
    match shotVsAliens env playerShotRect (List.finRange NUM_ALIENS) s with
    | some s1 => s1
    | none =>
      match shotVsUFO playerShotRect s with
      | some s2 => s2
      | none =>
        match shotVsShields env playerShotRect (List.finRange NUM_SHIELDS) s with
        | some s3 => s3
        | none => s
  else s

/-- The projectile loop of step 4 of `CheckCollisions`; it stops at the first hit. -/
def bulletsVsPlayer (playerRect : Rectangle) : List (Fin MAX_ALIEN_BULLETS) → GameState → GameState
  | [], s => s
  | i :: rest, s =>
    if (s.alienBullets i).active ∧ CheckCollisionRecs (bulletRect (s.alienBullets i)) playerRect then
      let s :=
        { s with
          alienBullets := Function.update s.alienBullets i { s.alienBullets i with active := false } }
      { s with player := { s.player with explosionTimer := 1 } }
    else bulletsVsPlayer playerRect rest s

/-- Step 4 of `CheckCollisions`. -/
def alienShotsVsPlayer (s : GameState) : GameState :=
  if s.player.explosionTimer ≤ 0 then
    bulletsVsPlayer ⟨s.player.position.x, s.player.position.y, s.player.size.x, s.player.size.y⟩
      (List.finRange MAX_ALIEN_BULLETS) s
  else s

/-- The shield loop of step 5 of `CheckCollisions` for projectile `i`; it stops at the
first opaque hit. -/
def bulletVsShields (env : Env) (i : Fin MAX_ALIEN_BULLETS) (rect : Rectangle) :
    List (Fin NUM_SHIELDS) → GameState → GameState
  | [], s => s
  | sh :: rest, s =>
    if (s.shields sh).active ∧ CheckCollisionRecs rect (s.shields sh).bounds then
      let worldHit := bulletBottom rect
      if (shieldPixelAt s sh worldHit).a > 10 then
        let s :=
          { s with
            alienBullets := Function.update s.alienBullets i { s.alienBullets i with active := false } }
        let s := DamageShield sh worldHit s
        SpawnExplosion worldHit env.res.shotExplosionTexture
          ⟨0, 0, (env.res.shotExplosionTexture.width : ℚ), (env.res.shotExplosionTexture.height : ℚ)⟩
          ⟨(env.res.shotExplosionTexture.width : ℚ), (env.res.shotExplosionTexture.height : ℚ)⟩ s
      else bulletVsShields env i rect rest s
    else bulletVsShields env i rect rest s

/-- Step 5 of `CheckCollisions`. -/
def alienShotsVsShields (env : Env) (s : GameState) : GameState :=
  (List.finRange MAX_ALIEN_BULLETS).foldl
    (fun s i =>
      if !(s.alienBullets i).active then s
      else bulletVsShields env i (bulletRect (s.alienBullets i)) (List.finRange NUM_SHIELDS) s)
    s

def CheckCollisions (env : Env) (s : GameState) : GameState :=
  let s := playerShotCollisions env s
  let s := alienShotsVsPlayer s
  alienShotsVsShields env s

/-! ## Wave transition and the frame update -/

def NextLevel (env : Env) (s : GameState) : GameState :=
  let s := { s with currentWave := s.currentWave + 1 }
  let s := InitAliens env s
  let s := { s with player := { s.player with position := playerStartPosition s.player.size } }
  let s := { s with player := { s.player with shotActive := false } }
  let s :=
    { s with
      alienBullets :=
        (List.finRange MAX_ALIEN_BULLETS).foldl
          (fun bs i => Function.update bs i { bs i with active := false }) s.alienBullets }
  let draw := GetRandomValue env (truncToInt (UFO_SPAWN_INTERVAL_MIN * 100))
    (truncToInt (UFO_SPAWN_INTERVAL_MAX * 100)) s
  let s : GameState := { draw.2 with ufo := { draw.2.ufo with spawnTimer := (draw.1 : ℚ) / 100 } }
  InitShields env s

/-- The x coordinate of the player after the movement keys, the pointer zones and the
screen clamp of `UpdateGame`. -/
def controlledX (inp : Input) (s : GameState) : ℚ :=
  let x := s.player.position.x
  let x := if inp.keyLeftDown ∨ inp.keyADown then x - PLAYER_SPEED else x
  let x := if inp.keyRightDown ∨ inp.keyDDown then x + PLAYER_SPEED else x
  let x :=
    if inp.mouseLeftDown then
      if inp.mousePosition.x < ((SCREEN_WIDTH / 2 : Int) : ℚ) then x - PLAYER_SPEED
      else x + PLAYER_SPEED
    else x
  let x := if x < 0 then 0 else x
  if x > (SCREEN_WIDTH : ℚ) - s.player.size.x then (SCREEN_WIDTH : ℚ) - s.player.size.x else x

/-- The player branch of `UpdateGame`: control when not exploding, else the
death-explosion countdown. -/
def updatePlayer (inp : Input) (s : GameState) : GameState :=
  if s.player.explosionTimer ≤ 0 then
    let s := { s with player := { s.player with position := ⟨controlledX inp s, s.player.position.y⟩ } }
    if inp.keySpacePressed ∨ inp.gestureTap then SpawnPlayerShot s else s
  else
    let s := { s with player := { s.player with explosionTimer := s.player.explosionTimer - inp.frameTime } }
    if s.player.explosionTimer ≤ 0 then
      let s := { s with player := { s.player with lives := s.player.lives - 1 } }
      if s.player.lives ≤ 0 then { s with gameOver := true }
      else { s with player := { s.player with position := playerStartPosition s.player.size } }
    else s

/-- The frame of `UpdateGame` up to and including `CheckCollisions`. -/
def updateToCollisions (env : Env) (inp : Input) (s : GameState) : GameState :=
  let delta := inp.frameTime
  let s := updatePlayer inp s
  let s := UpdateAliens env delta s
  let s := UpdateBullets env inp s
  let s := UpdateUFO env delta s
  let s := UpdateExplosions delta s
  CheckCollisions env s

/-- The win check of `UpdateGame`. -/
def checkWin (env : Env) (s : GameState) : GameState :=
  if s.aliensAlive ≤ 0 ∧ !s.ufo.active ∧ s.player.explosionTimer ≤ 0 then NextLevel env s else s

/-- The shield loop inside the lose-condition scan: three damage stamps per overlapped shield. -/
def alienVsShields (i : Fin NUM_ALIENS) (s : GameState) : GameState :=
  (List.finRange NUM_SHIELDS).foldl
    (fun s sh =>
      if (s.shields sh).active ∧ CheckCollisionRecs (alienRect (s.aliens i)) (s.shields sh).bounds then
        let hit : Vector2 :=
          ⟨(s.aliens i).position.x + (s.aliens i).size.x / 2,
            (s.aliens i).position.y + (s.aliens i).size.y⟩
        DamageShield sh hit (DamageShield sh hit (DamageShield sh hit s))
      else s)
    s

/-- The lose-condition scan of `UpdateGame`; it stops at the first alien that reached
the player row. -/
def loseScan : List (Fin NUM_ALIENS) → GameState → GameState
  | [], s => s
  | i :: rest, s =>
    if (s.aliens i).active then
      if (s.aliens i).position.y + (s.aliens i).size.y ≥ s.player.position.y then
        { s with gameOver := true }
      else loseScan rest (alienVsShields i s)
    else loseScan rest s

/-- The pause flag after the pause key of this frame is taken into account. -/
def pauseToggle (inp : Input) (s : GameState) : GameState :=
  if inp.keyPPressed then { s with gamePaused := !s.gamePaused } else s

def UpdateGame (env : Env) (inp : Input) (s : GameState) : GameState :=
  if s.gameOver then
    if inp.keyEnterPressed ∨ inp.gestureTap then InitGame env s else s
  else
    let s := pauseToggle inp s
    if s.gamePaused then
      pauseToggle inp s
    else
      let s := updateToCollisions env inp s
      let s := checkWin env s
      loseScan (List.finRange NUM_ALIENS) s

/-- The `TITLE` case of `UpdateDrawFrame` once `KEY_ENTER` or a tap is detected: the reset
that precedes gameplay (the title-screen restart). -/
def startFromTitle (env : Env) (s : GameState) : GameState :=
  let s := InitAliens env s
  let s := { s with player := { s.player with lives := 3 } }
  let s := { s with score := 0, currentWave := 1 }
  let s := InitShields env s
  { s with currentScreen := GameScreen.GAMEPLAY }

/-- The `GAMEPLAY` case of `UpdateDrawFrame`; `DrawGame` writes no state. -/
def gameplayFrame (env : Env) (inp : Input) (s : GameState) : GameState :=
  let s := UpdateGame env inp s
  if s.gameOver then { s with currentScreen := GameScreen.GAME_OVER, framesCounter := 0 } else s

/-- The `GAME_OVER` case of `UpdateDrawFrame`. -/
def gameOverFrame (env : Env) (inp : Input) (s : GameState) : GameState :=
  let s := { s with framesCounter := s.framesCounter + 1 }
  if inp.keyEnterPressed ∨ inp.gestureTap then
    { InitGame env s with currentScreen := GameScreen.TITLE }
  else s

def UpdateDrawFrame (env : Env) (inp : Input) (s : GameState) : GameState :=
  let s := { s with framesCounter := s.framesCounter + 1 }
  match s.currentScreen with
  | GameScreen.LOGO =>
    if s.framesCounter > 120 then { s with currentScreen := GameScreen.TITLE, framesCounter := 0 }
    else s
  | GameScreen.TITLE =>
    if inp.keyEnterPressed ∨ inp.gestureTap then startFromTitle env s else s
  | GameScreen.GAMEPLAY => gameplayFrame env inp s
  | GameScreen.GAME_OVER => gameOverFrame env inp s

/-! ## Test helpers of the `UNIT_TEST` build -/

/-- The helper `TestPlayerBulletShieldCollision`: the returned flag, and the values written
to `outCollisionPoint` and `outPx` (`none` when the helper returns before writing them). -/
def TestPlayerBulletShieldCollision (s : GameState) (si : Fin NUM_SHIELDS)
    (shotPos shotSize : Vector2) : Bool × Option Vector2 × Option Color :=
  let shotRect : Rectangle := ⟨shotPos.x, shotPos.y, shotSize.x, shotSize.y⟩
  if !(s.shields si).active ∨ !CheckCollisionRecs shotRect (s.shields si).bounds then
    (false, none, none)
  else
    let collisionPoint : Vector2 := ⟨shotRect.x + shotRect.width * (1 / 2), shotRect.y⟩
    let localHit : Vector2 :=
      ⟨collisionPoint.x - (s.shields si).position.x, collisionPoint.y - (s.shields si).position.y⟩
    let localHit : Vector2 :=
      ⟨localHit.x /
          ((s.shields si).bounds.width / ((s.shields si).renderTexture.texture.width : ℚ)),
        localHit.y /
          ((s.shields si).bounds.height / ((s.shields si).renderTexture.texture.height : ℚ))⟩
    let texImg := LoadImageFromTexture (s.shields si).renderTexture.texture
    let px := GetImageColor texImg (truncToInt localHit.x) (truncToInt localHit.y)
    (decide (px.a > 10), some collisionPoint, some px)

/-! ## Derived quantities -/

/-- The number of active enemy projectiles. -/
def activeBulletCount (s : GameState) : Nat :=
  (Finset.univ.filter (fun i => (s.alienBullets i).active = true)).card

/-- The number of active explosions. -/
def activeExplosionCount (s : GameState) : Nat :=
  (Finset.univ.filter (fun i => (s.explosions i).active = true)).card

/-- The number of aliens whose active flag is set. -/
def activeAlienCount (s : GameState) : Nat :=
  (Finset.univ.filter (fun i => (s.aliens i).active = true)).card

/-- The slot that `SpawnAlienShot` writes. -/
def firedBullet (position : Vector2) (b : Bullet) : Bullet :=
  { b with active := true, position := position }

/-- The slot that `SpawnExplosion` writes. -/
def startedExplosion (position : Vector2) (tex : Texture2D) (texRect : Rectangle) (size : Vector2)
    (e : Explosion) : Explosion :=
  { e with
    active := true
    position := ⟨position.x - size.x / 2, position.y - size.y / 2⟩
    texture := tex
    textureRect := texRect
    size := size
    timer := 3 / 10 }

/-- The alien that the body of the move loop of `UpdateAliens` leaves in a slot. -/
def movedAlien (moveDown : Bool) (alienDirection : Int) (a : Alien) : Alien :=
  if a.active then
    let b : Alien :=
      if moveDown then
        { a with position := ⟨a.position.x, a.position.y + alienVerticalMove⟩ }
      else
        { a with position := ⟨a.position.x + alienHorizontalMove * (alienDirection : ℚ), a.position.y⟩ }
    { b with currentFrame := !b.currentFrame }
  else a

/-- The grid row `i / ALIENS_COLS` of slot `i`. -/
def alienRow (j : Fin NUM_ALIENS) : Fin ALIENS_ROWS :=
  ⟨j.val / ALIENS_COLS, by
    have hj := j.isLt
    simp only [ALIENS_ROWS, ALIENS_COLS, NUM_ALIENS] at *
    omega⟩

/-- The grid column `i % ALIENS_COLS` of slot `i`. -/
def alienCol (j : Fin NUM_ALIENS) : Fin ALIENS_COLS :=
  ⟨j.val % ALIENS_COLS, Nat.mod_lt _ (by decide)⟩

/-- The array part of the body of the inner loop of `InitAliens`. -/
def initCellArray (env : Env) (r : Fin ALIENS_ROWS) (f : Fin NUM_ALIENS → Alien)
    (c : Fin ALIENS_COLS) : Fin NUM_ALIENS → Alien :=
  Function.update f (alienIndex r c) (initAlien env r c (f (alienIndex r c)))

/-- The invariant of the enemy grid: `aliensAlive` is the number of active aliens. -/
def aliveCountCorrect (s : GameState) : Prop := s.aliensAlive = (activeAlienCount s : Int)

instance (s : GameState) : Decidable (aliveCountCorrect s) := by
  unfold aliveCountCorrect
  infer_instance

/-- The state on which the lose-condition scan of `UpdateGame` runs. -/
def stateAtLoseScan (env : Env) (inp : Input) (s : GameState) : GameState :=
  checkWin env (updateToCollisions env inp (pauseToggle inp s))

/-- The rectangle `playerRect` of step 4 of `CheckCollisions`. -/
def playerRect (p : Player) : Rectangle := ⟨p.position.x, p.position.y, p.size.x, p.size.y⟩

/-- The rectangle `ufoRect` of step 2 of `CheckCollisions`. -/
def ufoRect (u : UFO) : Rectangle := ⟨u.position.x, u.position.y, u.size.x, u.size.y⟩

/-- The body of the projectile loop of step 5 of `CheckCollisions`. -/
def shieldPassStep (env : Env) (s : GameState) (i : Fin MAX_ALIEN_BULLETS) : GameState :=
  if !(s.alienBullets i).active then s
  else bulletVsShields env i (bulletRect (s.alienBullets i)) (List.finRange NUM_SHIELDS) s

/-- The factor `((float) aliensAlive / NUM_ALIENS) * 0.5f + 0.5f` of `UpdateAliens`. -/
def shootIntervalMultiplier (aliensAlive : Int) : ℚ :=
  ((aliensAlive : ℚ) / (NUM_ALIENS : ℚ)) * (1 / 2) + 1 / 2

/-- The explosion countdown at the end of `UpdateUFO`, on the state `t` that the travel
part leaves. -/
def ufoBurst (env : Env) (delta : ℚ) (t : GameState) : GameState :=
  if t.ufo.exploding then
    let t := { t with ufo := { t.ufo with explosionTimer := t.ufo.explosionTimer - delta } }
    if t.ufo.explosionTimer ≤ 0 then
      let t := { t with ufo := { t.ufo with exploding := false, active := false } }
      let draw := GetRandomValue env (truncToInt (UFO_SPAWN_INTERVAL_MIN * 100))
        (truncToInt (UFO_SPAWN_INTERVAL_MAX * 100)) t
      { draw.2 with ufo := { draw.2.ufo with spawnTimer := (draw.1 : ℚ) / 100 } }
    else t
  else t

/-- The move of the active branch of `UpdateUFO`. -/
def ufoMove (delta : ℚ) (s : GameState) : GameState :=
  { s with
    ufo :=
      { s.ufo with
        position := ⟨s.ufo.position.x + s.ufo.speed * delta, s.ufo.position.y⟩
        timeActive := s.ufo.timeActive + delta } }

/-- The off-screen check of the active branch of `UpdateUFO`. -/
def ufoExitCheck (env : Env) (delta : ℚ) (s : GameState) : GameState :=
  if s.ufo.speed > 0 ∧ s.ufo.position.x > (SCREEN_WIDTH : ℚ) then ufoLeave env delta s
  else if s.ufo.speed < 0 ∧ s.ufo.position.x + s.ufo.size.x < 0 then ufoLeave env delta s
  else s

/-- The local `shieldSpacing` of `InitShields`. -/
def shieldSpacing (env : Env) : ℚ :=
  ((SCREEN_WIDTH : ℚ) - (((NUM_SHIELDS : Int) * env.res.shieldTexture.width : Int) : ℚ) * 2) /
    (((NUM_SHIELDS : Int) + 1 : Int) : ℚ)

/-- The shield that the body of the loop of `InitShields` leaves in slot `i`. -/
def freshShield (env : Env) (i : Fin NUM_SHIELDS) (old : Shield) : Shield :=
  { old with
    baseTexture := env.res.shieldTexture
    renderTexture :=
      ⟨⟨env.res.shieldTexture.width, env.res.shieldTexture.height,
        env.drawOnBlank env.res.shieldTexture⟩⟩
    position :=
      ⟨shieldSpacing env + (i.val : ℚ) * ((env.res.shieldTexture.width : ℚ) * 2 + shieldSpacing env),
        (SCREEN_HEIGHT : ℚ) - 120⟩
    active := true
    bounds :=
      ⟨shieldSpacing env + (i.val : ℚ) * ((env.res.shieldTexture.width : ℚ) * 2 + shieldSpacing env),
        (SCREEN_HEIGHT : ℚ) - 120, (env.res.shieldTexture.width : ℚ) * 2,
        (env.res.shieldTexture.height : ℚ) * 2⟩ }

/-- The value of `local.x` in `WorldToShieldTexCoords` before the clamp. -/
def texLocalX (s : GameState) (shieldIndex : Fin NUM_SHIELDS) (worldPos : Vector2) : ℚ :=
  (worldPos.x - (s.shields shieldIndex).position.x) *
    (((s.shields shieldIndex).renderTexture.texture.width : ℚ) / (s.shields shieldIndex).bounds.width)

/-- The value of `local.y` in `WorldToShieldTexCoords` after the flip and before the clamp. -/
def texLocalY (s : GameState) (shieldIndex : Fin NUM_SHIELDS) (worldPos : Vector2) : ℚ :=
  ((s.shields shieldIndex).renderTexture.texture.height : ℚ) -
    (worldPos.y - (s.shields shieldIndex).position.y) *
      (((s.shields shieldIndex).renderTexture.texture.height : ℚ) /
        (s.shields shieldIndex).bounds.height)

/-- The pixel indices that the loops of `DamageShield` select for the hit point `localHit`
in an image of the given size. -/
def damagedIndex (localHit : Vector2) (width height : Int) (j : Nat) : Prop :=
  ∃ y ∈ List.range height.toNat, ∃ x ∈ List.range width.toNat,
    withinDamageRadius localHit x y = true ∧ ((y : Int) * width + (x : Int)).toNat = j

/-- The edge test of `UpdateAliens`: the next horizontal step would cross a field edge. -/
def edgeHit (s : GameState) : Prop :=
  ((findEdges s.aliens).2 + alienHorizontalMove * (s.alienDirection : ℚ) > (SCREEN_WIDTH : ℚ) ∧
      s.alienDirection > 0) ∨
    ((findEdges s.aliens).1 + alienHorizontalMove * (s.alienDirection : ℚ) < 0 ∧
      s.alienDirection < 0)

instance (s : GameState) : Decidable (edgeHit s) := by
  unfold edgeHit
  infer_instance

/-- The score invariant: the high score is at least the score and not negative. -/
def scoreInv (s : GameState) : Prop := s.score ≤ s.hiScore ∧ 0 ≤ s.hiScore

instance (s : GameState) : Decidable (scoreInv s) := by
  unfold scoreInv
  infer_instance

/-- The state on which `UpdateUFO` runs in a frame of `UpdateGame`. -/
def stateAtUFO (env : Env) (inp : Input) (s : GameState) : GameState :=
  UpdateBullets env inp (UpdateAliens env inp.frameTime (updatePlayer inp s))

/-- The state on which `CheckCollisions` runs in a frame of `UpdateGame`. -/
def stateAtCollisions (env : Env) (inp : Input) (s : GameState) : GameState :=
  UpdateExplosions inp.frameTime (UpdateUFO env inp.frameTime (stateAtUFO env inp s))

/-- The top-centre contact point `worldHit` of the player shot in step 3 of
`CheckCollisions`. -/
def shotTop (r : Rectangle) : Vector2 := ⟨r.x + r.width * (1 / 2), r.y⟩

/-- The test of step 3 of `CheckCollisions` on shield `k`: active, overlapped by the shot
rectangle and opaque (alpha above 10) at the contact point. -/
def shotStopsAt (s : GameState) (r : Rectangle) (k : Fin NUM_SHIELDS) : Bool :=
  (s.shields k).active && CheckCollisionRecs r (s.shields k).bounds &&
    decide ((shieldPixelAt s k (shotTop r)).a > 10)

/-- The test of step 5 of `CheckCollisions` on shield `k` for a projectile rectangle. -/
def bulletStopsAt (s : GameState) (r : Rectangle) (k : Fin NUM_SHIELDS) : Bool :=
  (s.shields k).active && CheckCollisionRecs r (s.shields k).bounds &&
    decide ((shieldPixelAt s k (bulletBottom r)).a > 10)

/-- What step 3 of `CheckCollisions` does at the shield that stops the shot. -/
def shotImpact (env : Env) (r : Rectangle) (k : Fin NUM_SHIELDS) (s : GameState) : GameState :=
  SpawnExplosion (shotTop r) env.res.shotExplosionTexture
    ⟨0, 0, (env.res.shotExplosionTexture.width : ℚ), (env.res.shotExplosionTexture.height : ℚ)⟩
    ⟨(env.res.shotExplosionTexture.width : ℚ) * (3 / 2),
      (env.res.shotExplosionTexture.height : ℚ) * (3 / 2)⟩
    (DamageShield k (shotTop r) { s with player := { s.player with shotActive := false } })

/-- What step 5 of `CheckCollisions` does at the shield that stops projectile `i`. -/
def bulletImpact (env : Env) (i : Fin MAX_ALIEN_BULLETS) (r : Rectangle) (k : Fin NUM_SHIELDS)
    (s : GameState) : GameState :=
  SpawnExplosion (bulletBottom r) env.res.shotExplosionTexture
    ⟨0, 0, (env.res.shotExplosionTexture.width : ℚ), (env.res.shotExplosionTexture.height : ℚ)⟩
    ⟨(env.res.shotExplosionTexture.width : ℚ), (env.res.shotExplosionTexture.height : ℚ)⟩
    (DamageShield k (bulletBottom r)
      { s with
        alienBullets := Function.update s.alienBullets i { s.alienBullets i with active := false } })

/-- The UFO cannot be awarded: it is exploding or inactive. -/
def ufoSpent (u : UFO) : Prop := u.exploding = true ∨ u.active = false

instance (u : UFO) : Decidable (ufoSpent u) := by
  unfold ufoSpent
  infer_instance

/-- Step 2 of `CheckCollisions` fires on `s`: the active shot overlaps no active alien and
overlaps the active, non-exploding UFO.  This is when `UFO_POINTS` is added. -/
def ufoHit (s : GameState) : Prop :=
  s.player.shotActive = true ∧
    (∀ i, ¬ ((s.aliens i).active = true ∧
      CheckCollisionRecs (shotRect s.player) (alienRect (s.aliens i)) = true)) ∧
    (s.ufo.active = true ∧ s.ufo.exploding = false ∧
      CheckCollisionRecs (shotRect s.player) (ufoRect s.ufo) = true)

instance (s : GameState) : Decidable (ufoHit s) := by
  unfold ufoHit
  infer_instance

/-- The frame of `UpdateGame` runs the simulation: the game is not over and not paused. -/
def frameRuns (inp : Input) (s : GameState) : Prop :=
  s.gameOver = false ∧ (pauseToggle inp s).gamePaused = false

instance (inp : Input) (s : GameState) : Decidable (frameRuns inp s) := by
  unfold frameRuns
  infer_instance

/-- The frame calls `SpawnUFO`: it runs, the UFO is inactive and its spawn timer expires. -/
def spawnDue (inp : Input) (s : GameState) : Prop :=
  frameRuns inp s ∧ s.ufo.active = false ∧ s.ufo.spawnTimer - inp.frameTime ≤ 0

instance (inp : Input) (s : GameState) : Decidable (spawnDue inp s) := by
  unfold spawnDue
  infer_instance

/-- The frame awards the UFO bonus: it runs and step 2 of its `CheckCollisions` call fires. -/
def frameAwardsUFO (env : Env) (inp : Input) (s : GameState) : Prop :=
  frameRuns inp s ∧ ufoHit (stateAtCollisions env inp (pauseToggle inp s))

instance (env : Env) (inp : Input) (s : GameState) : Decidable (frameAwardsUFO env inp s) := by
  unfold frameAwardsUFO
  infer_instance

/-- The number of frames of the run of `UpdateGame` over `inps` from `s` that award the UFO
bonus. -/
def ufoAwards (env : Env) : List Input → GameState → Nat
  | [], _ => 0
  | inp :: rest, s =>
    (if frameAwardsUFO env inp s then 1 else 0) + ufoAwards env rest (UpdateGame env inp s)

/-- No frame of the run of `UpdateGame` over `inps` from `s` calls `SpawnUFO`. -/
def noSpawn (env : Env) : List Input → GameState → Prop
  | [], _ => True
  | inp :: rest, s => ¬ spawnDue inp s ∧ noSpawn env rest (UpdateGame env inp s)

/-! ## Sample values -/

/-- A 2 x 2 fully opaque texture. -/
def sampleTexture : Texture2D := ⟨2, 2, [WHITE, WHITE, WHITE, WHITE]⟩

def sampleResources : Resources :=
  { alienTexture1_1 := sampleTexture, alienTexture1_2 := sampleTexture,
    alienTexture2_1 := sampleTexture, alienTexture2_2 := sampleTexture,
    alienTexture3_1 := sampleTexture, alienTexture3_2 := sampleTexture,
    playerTexture := sampleTexture, playerShotTexture := sampleTexture,
    rollingTexture1 := sampleTexture, rollingTexture2 := sampleTexture,
    rollingTexture3 := sampleTexture, rollingTexture4 := sampleTexture,
    shieldTexture := sampleTexture, ufoTexture := sampleTexture,
    alienExplosionTexture := sampleTexture, shotExplosionTexture := sampleTexture,
    ufoExplosionTexture := sampleTexture }

/-- A generator that always returns zero and a renderer that copies the pixels. -/
def sampleEnv : Env := { res := sampleResources, rand := fun _ => 0, drawOnBlank := fun t => t.pixels }

def sampleInput : Input :=
  { keyEnterPressed := false, gestureTap := false, keyPPressed := false, keyLeftDown := false,
    keyADown := false, keyRightDown := false, keyDDown := false, mouseLeftDown := false,
    mousePosition := ⟨0, 0⟩, keySpacePressed := false, frameTime := 1 / 60, time := 0 }

def sampleAlien : Alien :=
  { position := ⟨780, 100⟩, basePosition := ⟨80, 80⟩, type := AlienType.ALIEN_TYPE_1,
    texture1 := sampleTexture, texture2 := sampleTexture, textureRect := ⟨0, 0, 2, 2⟩,
    size := ⟨18, 12⟩, active := true, currentFrame := false, color := WHITE, points := 10 }

def sampleBullet : Bullet :=
  { position := ⟨0, 0⟩, active := false, speed := ALIEN_BULLET_SPEED, texture := sampleTexture,
    textureRect := ⟨0, 0, 2, 2⟩, size := ⟨3, 3⟩ }

def sampleShield : Shield :=
  { position := ⟨100, 480⟩, renderTexture := ⟨sampleTexture⟩, baseTexture := sampleTexture,
    active := true, bounds := ⟨100, 480, 4, 4⟩ }

def sampleExplosion : Explosion :=
  { position := ⟨0, 0⟩, texture := sampleTexture, textureRect := ⟨0, 0, 2, 2⟩, size := ⟨3, 3⟩,
    timer := 0, active := false }

/-- A mid-game state: every alien active at the same place near the right edge, all
pools empty, no shot in flight. -/
def sampleState : GameState :=
  { currentScreen := GameScreen.GAMEPLAY, framesCounter := 0, gameOver := false,
    gamePaused := false, score := 0, hiScore := 0,
    player :=
      { position := ⟨391, 562⟩, texture := sampleTexture, textureRect := ⟨0, 0, 2, 2⟩,
        size := ⟨18, 18⟩, lives := 3, shotActive := false, shotPosition := ⟨0, 0⟩,
        shotTexture := sampleTexture, shotTextureRect := ⟨0, 0, 2, 2⟩, shotSize := ⟨3, 6⟩,
        explosionTimer := 0 },
    aliens := fun _ => sampleAlien,
    alienBullets := fun _ => sampleBullet,
    shields := fun _ => sampleShield,
    ufo :=
      { position := ⟨0, 50⟩, texture := sampleTexture, textureRect := ⟨0, 0, 2, 2⟩,
        size := ⟨24, 12⟩, active := false, speed := 0, spawnTimer := 30, timeActive := 0,
        exploding := false, explosionTimer := 0, explosionTexture := sampleTexture,
        explosionTextureRect := ⟨0, 0, 2, 2⟩ },
    explosions := fun _ => sampleExplosion,
    aliensAlive := 55, alienMoveTimer := 0, alienMoveWaitTime := 8 / 10, alienDirection := 1,
    moveDown := false, alienShootTimer := 1, alienMoveSoundIndex := 0, currentWave := 1,
    randCalls := 0 }

/-- The sample state with a player shot in flight that overlaps the aliens. -/
def sampleHitState : GameState :=
  { sampleState with
    player := { sampleState.player with shotActive := true, shotPosition := ⟨785, 105⟩ } }

/-- The sample state after the last alien was destroyed. -/
def sampleClearedState : GameState :=
  { sampleState with aliens := fun _ => { sampleAlien with active := false }, aliensAlive := 0 }

/-- The sample state with one alien lowered onto the player row. -/
def sampleLandedState : GameState :=
  { sampleState with
    aliens := fun i => if i = 7 then { sampleAlien with position := ⟨300, 555⟩ } else sampleAlien }

/-- The sample state with the death explosion about to end. -/
def sampleDyingState : GameState :=
  { sampleState with player := { sampleState.player with explosionTimer := 1 / 100 } }

/-- The sample state with the first enemy projectile overlapping the player. -/
def sampleShotDownState : GameState :=
  { sampleState with
    alienBullets := fun i =>
      if i = 0 ∨ i = 3 then { sampleBullet with active := true, position := ⟨395, 565⟩ }
      else sampleBullet }

/-- A state in which the only active enemy projectile overlaps both the player and an
active, fully opaque shield. -/
def sampleDoubleHitState : GameState :=
  { sampleState with
    player := { sampleState.player with position := ⟨95, 562⟩ }
    alienBullets := fun i =>
      if i = 0 then { sampleBullet with active := true, position := ⟨101, 470⟩, size := ⟨3, 100⟩ }
      else sampleBullet }

/-- The sample state with the alien in slot 0 destroyed; the sample generator always
selects that slot. -/
def sampleGapState : GameState :=
  { sampleState with
    aliens := fun i => if i = 0 then { sampleAlien with active := false } else sampleAlien
    aliensAlive := 54 }

/-- The sample state with a player shot in flight that overlaps the UFO only. -/
def sampleUfoHitState : GameState :=
  { sampleState with
    player := { sampleState.player with shotActive := true, shotPosition := ⟨10, 55⟩ }
    ufo := { sampleState.ufo with active := true, speed := 2 } }

/-- The sample state with the UFO idle and its spawn timer about to expire. -/
def sampleUfoDueState : GameState :=
  { sampleState with ufo := { sampleState.ufo with spawnTimer := 1 / 100 } }

/-- The sample state with the UFO flying to the right at the right screen edge. -/
def sampleUfoExitState : GameState :=
  { sampleState with
    ufo := { sampleState.ufo with active := true, speed := UFO_SPEED, position := ⟨800, 50⟩ } }

/-- The sample state with the UFO hit and its explosion about to end. -/
def sampleUfoBurstState : GameState :=
  { sampleState with
    ufo :=
      { sampleState.ufo with
        active := true, speed := UFO_SPEED, position := ⟨400, 50⟩, exploding := true,
        explosionTimer := 1 / 100 } }

/-- The sample state with the pause flag set. -/
def samplePausedState : GameState := { sampleState with gamePaused := true }

/-- The sample state with the swarm in the middle of the field. -/
def sampleMidState : GameState :=
  { sampleState with
    aliens := fun i =>
      if i = 3 then { sampleAlien with position := ⟨400, 100⟩, active := false }
      else { sampleAlien with position := ⟨400, 100⟩ } }

/-- The sample frame input with the pause key pressed. -/
def samplePauseInput : Input := { sampleInput with keyPPressed := true }

/-- The sample state with the player shot inside the bounds of the shields. -/
def sampleShieldShotState : GameState :=
  { sampleState with
    player := { sampleState.player with shotActive := true, shotPosition := ⟨100, 961 / 2⟩ } }

/-- The sample state with the player shot inside the bounds of shields whose masks are
fully transparent. -/
def sampleHoleShotState : GameState :=
  { sampleShieldShotState with
    shields := fun _ => { sampleShield with renderTexture := ⟨⟨2, 2, [BLANK, BLANK, BLANK, BLANK]⟩⟩ } }

/-- The sample state with the player shot inside the bounds of shields whose masks are
opaque in image row 0 and transparent in image row 1. -/
def sampleHalfShotState : GameState :=
  { sampleShieldShotState with
    shields := fun _ => { sampleShield with renderTexture := ⟨⟨2, 2, [WHITE, WHITE, BLANK, BLANK]⟩⟩ } }

theorem truncToInt_of_nonneg {q : ℚ} (h : 0 ≤ q) : truncToInt q = ⌊q⌋ := by
  simp [truncToInt, h]

theorem truncToInt_nonneg {q : ℚ} (h : 0 ≤ q) : 0 ≤ truncToInt q := by
  rw [truncToInt_of_nonneg h]
  exact Int.floor_nonneg.mpr h

theorem truncToInt_le {q : ℚ} (h : 0 ≤ q) : ((truncToInt q : Int) : ℚ) ≤ q := by
  rw [truncToInt_of_nonneg h]
  exact Int.floor_le q

theorem sub_truncToInt_lt_one {q : ℚ} (h : 0 ≤ q) : q - ((truncToInt q : Int) : ℚ) < 1 := by
  rw [truncToInt_of_nonneg h]
  have := Int.lt_floor_add_one q
  linarith

theorem truncToInt_lt {q : ℚ} {n : Int} (h : 0 ≤ q) (hn : q ≤ ((n - 1 : Int) : ℚ)) :
    truncToInt q < n := by
  have h1 := truncToInt_le h
  have h2 : ((truncToInt q : Int) : ℚ) ≤ ((n - 1 : Int) : ℚ) := le_trans h1 hn
  have h3 : truncToInt q ≤ n - 1 := by exact_mod_cast h2
  omega

/-- The texture coordinates lie in the clamp range when the mask is at least 1 x 1. -/
theorem texCoords_bounds (s : GameState) (i : Fin NUM_SHIELDS) (p : Vector2)
    (hw : 1 ≤ (s.shields i).renderTexture.texture.width)
    (hh : 1 ≤ (s.shields i).renderTexture.texture.height) :
    (0 ≤ (WorldToShieldTexCoords s i p).x ∧
      (WorldToShieldTexCoords s i p).x ≤ (((s.shields i).renderTexture.texture.width - 1 : Int) : ℚ)) ∧
    (0 ≤ (WorldToShieldTexCoords s i p).y ∧
      (WorldToShieldTexCoords s i p).y ≤ (((s.shields i).renderTexture.texture.height - 1 : Int) : ℚ)) := by
  have hw1 : (0 : ℚ) ≤ (((s.shields i).renderTexture.texture.width - 1 : Int) : ℚ) := by
    exact_mod_cast (by omega : (0 : Int) ≤ (s.shields i).renderTexture.texture.width - 1)
  have hh1 : (0 : ℚ) ≤ (((s.shields i).renderTexture.texture.height - 1 : Int) : ℚ) := by
    exact_mod_cast (by omega : (0 : Int) ≤ (s.shields i).renderTexture.texture.height - 1)
  simp only [WorldToShieldTexCoords]
  refine ⟨⟨?_, ?_⟩, ?_, ?_⟩ <;> split_ifs <;> linarith

/-! ## Auxiliary lemmas: single-precision rounding -/

theorem roundHalfEven_sub_abs_le {K : Type} [LinearOrderedField K] [FloorRing K]
    (x : K) : |((roundHalfEven x : Int) : K) - x| ≤ 1 / 2 := by
  have h1 := Int.floor_le x
  have h2 := Int.lt_floor_add_one x
  unfold roundHalfEven
  rw [abs_le]
  split_ifs with a b c
  · constructor <;> linarith
  · push_cast; constructor <;> linarith
  · constructor <;> linarith
  · push_cast; constructor <;> linarith

theorem roundHalfEven_le_of_le {K : Type} [LinearOrderedField K] [FloorRing K]
    (x : K) (n : Int) (h : x ≤ n) : roundHalfEven x ≤ n := by
  have h1 := (abs_le.mp (roundHalfEven_sub_abs_le x)).2
  have h2 : ((roundHalfEven x : Int) : K) < ((n + 1 : Int) : K) := by push_cast; linarith
  have h3 : roundHalfEven x < n + 1 := by exact_mod_cast h2
  omega

theorem le_roundHalfEven_of_le {K : Type} [LinearOrderedField K] [FloorRing K]
    (x : K) (n : Int) (h : (n : K) ≤ x) : n ≤ roundHalfEven x := by
  have h1 := (abs_le.mp (roundHalfEven_sub_abs_le x)).1
  have h2 : ((n - 1 : Int) : K) < ((roundHalfEven x : Int) : K) := by push_cast; linarith
  have h3 : n - 1 < roundHalfEven x := by exact_mod_cast h2
  omega

theorem roundHalfEven_intCast {K : Type} [LinearOrderedField K] [FloorRing K]
    (n : Int) : roundHalfEven (n : K) = n :=
  le_antisymm (roundHalfEven_le_of_le _ n le_rfl) (le_roundHalfEven_of_le _ n le_rfl)

theorem two_zpow_pos {K : Type} [LinearOrderedField K] [FloorRing K]
    (k : Int) : (0 : K) < 2 ^ k := zpow_pos (by norm_num) k

theorem f32Exponent_ge {K : Type} [LinearOrderedField K] [FloorRing K]
    (q : K) : -126 ≤ f32Exponent q := le_max_right _ _

theorem log_le_f32Exponent {K : Type} [LinearOrderedField K] [FloorRing K]
    (q : K) : Int.log 2 |q| ≤ f32Exponent q := le_max_left _ _

theorem abs_lt_pow_f32Exponent {K : Type} [LinearOrderedField K] [FloorRing K]
    (q : K) : |q| < 2 ^ (f32Exponent q + 1) := by
  have h := Int.lt_zpow_succ_log_self (b := 2) (by norm_num) |q|
  have h2 : ((2 : ℕ) : K) ^ (Int.log 2 |q| + 1) ≤ ((2 : ℕ) : K) ^ (f32Exponent q + 1) :=
    zpow_le_zpow_right₀ (by norm_num) (by have := log_le_f32Exponent q; omega)
  have := lt_of_lt_of_le h h2
  simpa using this


theorem f32Exponent_le {K : Type} [LinearOrderedField K] [FloorRing K]
    (q : K) (k : Int) (hk : -126 ≤ k) (h0 : q ≠ 0) (h : |q| < 2 ^ (k + 1)) :
    f32Exponent q ≤ k := by
  unfold f32Exponent
  apply max_le _ hk
  have hpos : 0 < |q| := abs_pos.mpr h0
  have := (Int.lt_zpow_iff_log_lt (b := 2) (by norm_num) hpos (x := k + 1)).mp (by simpa using h)
  omega

theorem roundF32_zero {K : Type} [LinearOrderedField K] [FloorRing K] : roundF32 (0 : K) = 0 := by
  unfold roundF32
  rw [zero_div]
  have : roundHalfEven (0 : K) = 0 := by
    have := roundHalfEven_intCast (K := K) 0
    simpa using this
  rw [this]
  simp

theorem abs_roundHalfEven_le {K : Type} [LinearOrderedField K] [FloorRing K]
    (x : K) (n : Int) (h : |x| ≤ (n : K)) :
    |((roundHalfEven x : Int) : K)| ≤ (n : K) := by
  obtain ⟨h1, h2⟩ := abs_le.mp h
  rw [abs_le]
  constructor
  · have : -n ≤ roundHalfEven x := le_roundHalfEven_of_le x (-n) (by push_cast; exact h1)
    exact_mod_cast this
  · have : roundHalfEven x ≤ n := roundHalfEven_le_of_le x n h2
    exact_mod_cast this

theorem abs_roundF32 {K : Type} [LinearOrderedField K] [FloorRing K] (t : K) :
    |roundF32 t| =
      |((roundHalfEven (t / 2 ^ (f32Exponent t - 23)) : Int) : K)| * 2 ^ (f32Exponent t - 23) := by
  have hu := two_zpow_pos (K := K) (f32Exponent t - 23)
  unfold roundF32
  rw [abs_mul, abs_of_pos hu]

theorem zpow_eq_intCast {K : Type} [LinearOrderedField K] [FloorRing K]
    (n : Int) (hn : 0 ≤ n) : (2 : K) ^ n = (((2 : Int) ^ n.toNat : Int) : K) := by
  obtain ⟨m, rfl⟩ := Int.eq_ofNat_of_zero_le hn
  simp

/-- A binary32 rounding never crosses a power of two from below. -/
theorem abs_roundF32_le {K : Type} [LinearOrderedField K] [FloorRing K]
    (t : K) (k : Int) (hk : -126 ≤ k) (h : |t| ≤ 2 ^ k) :
    |roundF32 t| ≤ 2 ^ k := by
  by_cases h0 : t = 0
  · rw [h0, roundF32_zero, abs_zero]
    exact (two_zpow_pos _).le
  · have he : f32Exponent t ≤ k :=
      f32Exponent_le t k hk h0 (lt_of_le_of_lt h (zpow_lt_zpow_right₀ (by norm_num) (by omega)))
    rw [abs_roundF32]
    have hu := two_zpow_pos (K := K) (f32Exponent t - 23)
    have hy : |t / 2 ^ (f32Exponent t - 23)| ≤ 2 ^ (k - (f32Exponent t - 23)) := by
      rw [abs_div, abs_of_pos hu, div_le_iff₀ hu, ← zpow_add₀ (by norm_num)]
      simpa using h
    rw [zpow_eq_intCast (k - (f32Exponent t - 23)) (by omega)] at hy
    have := abs_roundHalfEven_le _ _ hy
    rw [← zpow_eq_intCast (k - (f32Exponent t - 23)) (by omega)] at this
    calc _ ≤ (2 : K) ^ (k - (f32Exponent t - 23)) * 2 ^ (f32Exponent t - 23) :=
          mul_le_mul_of_nonneg_right this hu.le
      _ = 2 ^ k := by rw [← zpow_add₀ (by norm_num)]; simp

theorem abs_roundF32_le_nat {K : Type} [LinearOrderedField K] [FloorRing K]
    (t : K) (n : Nat) (h : |t| ≤ 2 ^ n) : |roundF32 t| ≤ 2 ^ n := by
  have := abs_roundF32_le t (n : Int) (by omega) (by rw [zpow_natCast]; exact h)
  rw [zpow_natCast] at this
  exact this

/-- The single-precision evaluation of `dx * dx + dy * dy` from the exact differences. -/
theorem f32DistSq_near {K : Type} [LinearOrderedField K] [FloorRing K]
    (a b : K) (ha : |a| ≤ 1) (hb : |b| ≤ 1) :
    roundF32 (roundF32 (roundF32 a * roundF32 a) + roundF32 (roundF32 b * roundF32 b)) ≤ 2 := by
  have one : (1 : K) = 2 ^ 0 := by norm_num
  have two : (2 : K) = 2 ^ 1 := by norm_num
  have sq : ∀ c : K, |c| ≤ 1 → |roundF32 (roundF32 c * roundF32 c)| ≤ 1 := by
    intro c hc
    have h1 : |roundF32 c| ≤ 1 := by
      rw [one] at hc ⊢; exact abs_roundF32_le_nat c 0 hc
    have h2 : |roundF32 c * roundF32 c| ≤ 1 := by
      rw [abs_mul]
      calc |roundF32 c| * |roundF32 c| ≤ 1 * 1 := mul_le_mul h1 h1 (abs_nonneg _) (by norm_num)
        _ = 1 := by norm_num
    rw [one] at h2 ⊢; exact abs_roundF32_le_nat _ 0 h2
  have h3 : |roundF32 (roundF32 a * roundF32 a) + roundF32 (roundF32 b * roundF32 b)| ≤ 2 ^ 1 := by
    calc _ ≤ |roundF32 (roundF32 a * roundF32 a)| + |roundF32 (roundF32 b * roundF32 b)| :=
          abs_add _ _
      _ ≤ 2 ^ 1 := by have := sq a ha; have := sq b hb; norm_num; linarith
  have h4 := abs_roundF32_le_nat _ 1 h3
  have := le_trans (le_abs_self _) h4
  norm_num at this
  exact this

/-- A pixel within one unit of the hit point in both coordinates passes the test. -/
theorem withinDamageRadius_near (localHit : Vector2) (x y : Nat)
    (hx : |(x : ℚ) - localHit.x| ≤ 1) (hy : |(y : ℚ) - localHit.y| ≤ 1) :
    withinDamageRadius localHit x y = true := by
  simp only [withinDamageRadius, sqrtfWithinRadius, damageRadius, decide_eq_true_eq]
  have := f32DistSq_near _ _ hx hy
  norm_num at this ⊢
  linarith

theorem clearAlpha_idem (c : Color) : clearAlpha (clearAlpha c) = clearAlpha c := rfl

/-- A loop whose every step maps `f` over the entries selected by `C` and keeps the
others maps `f` over the entries selected by some step, for idempotent `f`. -/
theorem foldl_getElem?_of_step {ι : Type} (f : Color → Color) (hf : ∀ c, f (f c) = f c)
    (g : List Color → ι → List Color) (C : ι → Nat → Prop)
    (hg : ∀ d i j, (C i j → (g d i)[j]? = (d[j]?).map f) ∧ (¬ C i j → (g d i)[j]? = d[j]?))
    (l : List ι) (d : List Color) (j : Nat) :
    ((∃ i ∈ l, C i j) → (l.foldl g d)[j]? = (d[j]?).map f) ∧
      ((¬ ∃ i ∈ l, C i j) → (l.foldl g d)[j]? = d[j]?) := by
  induction l generalizing d with
  | nil => simp
  | cons i l ih =>
    simp only [List.foldl_cons]
    obtain ⟨ih1, ih2⟩ := ih (g d i)
    obtain ⟨hg1, hg2⟩ := hg d i j
    constructor
    · intro hex
      by_cases hl : ∃ k ∈ l, C k j
      · rw [ih1 hl]
        by_cases hc : C i j
        · rw [hg1 hc]
          cases d[j]? <;> simp [hf]
        · rw [hg2 hc]
      · rw [ih2 hl]
        obtain ⟨k, hk, hkC⟩ := hex
        rcases List.mem_cons.mp hk with rfl | hk
        · exact hg1 hkC
        · exact absurd ⟨k, hk, hkC⟩ hl
    · intro hne
      have hl : ¬ ∃ k ∈ l, C k j := fun ⟨k, hk, hkC⟩ => hne ⟨k, List.mem_cons_of_mem _ hk, hkC⟩
      have hc : ¬ C i j := fun h => hne ⟨i, List.mem_cons_self _ _, h⟩
      rw [ih2 hl, hg2 hc]

theorem damagePixel_getElem? (localHit : Vector2) (width : Int) (y : Nat) (d : List Color)
    (x j : Nat) :
    ((withinDamageRadius localHit x y = true ∧ ((y : Int) * width + (x : Int)).toNat = j) →
        (damagePixel localHit width y d x)[j]? = (d[j]?).map clearAlpha) ∧
      (¬ (withinDamageRadius localHit x y = true ∧ ((y : Int) * width + (x : Int)).toNat = j) →
        (damagePixel localHit width y d x)[j]? = d[j]?) := by
  unfold damagePixel
  constructor
  · rintro ⟨hw, hj⟩
    rw [if_pos hw, List.getElem?_modify, hj]
    cases d[j]? <;> simp
  · intro hn
    by_cases hw : withinDamageRadius localHit x y = true
    · have hj : ¬ ((y : Int) * width + (x : Int)).toNat = j := fun h => hn ⟨hw, h⟩
      rw [if_pos hw, List.getElem?_modify]
      cases d[j]? <;> simp [hj]
    · rw [if_neg hw]

/-- The pixel set selected by the row loop, then by both loops, of `DamageShield`. -/
theorem damageImage_getElem? (localHit : Vector2) (image : Image) (j : Nat) :
    ((∃ y ∈ List.range image.height.toNat, ∃ x ∈ List.range image.width.toNat,
          withinDamageRadius localHit x y = true ∧ ((y : Int) * image.width + (x : Int)).toNat = j) →
        (damageImage localHit image).data[j]? = (image.data[j]?).map clearAlpha) ∧
      ((¬ ∃ y ∈ List.range image.height.toNat, ∃ x ∈ List.range image.width.toNat,
          withinDamageRadius localHit x y = true ∧ ((y : Int) * image.width + (x : Int)).toNat = j) →
        (damageImage localHit image).data[j]? = image.data[j]?) := by
  unfold damageImage
  exact foldl_getElem?_of_step clearAlpha clearAlpha_idem (damageRow localHit image.width)
    (fun y j => ∃ x ∈ List.range image.width.toNat,
      withinDamageRadius localHit x y = true ∧ ((y : Int) * image.width + (x : Int)).toNat = j)
    (fun d y j => foldl_getElem?_of_step clearAlpha clearAlpha_idem
      (damagePixel localHit image.width y)
      (fun x j => withinDamageRadius localHit x y = true ∧
        ((y : Int) * image.width + (x : Int)).toNat = j)
      (fun d x j => damagePixel_getElem? localHit image.width y d x j)
      (List.range image.width.toNat) d j)
    (List.range image.height.toNat) image.data j

/-- Row-major indices of two pixels inside the image agree only for the same pixel. -/
theorem pixelIndex_inj {w : Int} {x y x0 y0 : Nat} (hx : (x : Int) < w) (hx0 : (x0 : Int) < w)
    (h : ((y : Int) * w + (x : Int)).toNat = ((y0 : Int) * w + (x0 : Int)).toNat) :
    x = x0 ∧ y = y0 := by
  have hw : 0 ≤ w := by omega
  have h1 : 0 ≤ (y : Int) * w := mul_nonneg (by omega) hw
  have h2 : 0 ≤ (y0 : Int) * w := mul_nonneg (by omega) hw
  have h3 : (y : Int) * w + (x : Int) = (y0 : Int) * w + (x0 : Int) := by omega
  have hy : y = y0 := by
    rcases lt_trichotomy y y0 with hlt | heq | hgt
    · exfalso
      have : ((y : Int) + 1) * w ≤ (y0 : Int) * w :=
        mul_le_mul_of_nonneg_right (by omega) hw
      nlinarith
    · exact heq
    · exfalso
      have : ((y0 : Int) + 1) * w ≤ (y : Int) * w :=
        mul_le_mul_of_nonneg_right (by omega) hw
      nlinarith
  subst hy
  exact ⟨by omega, rfl⟩

/-- What `DamageShield` does to the pixel `(x, y)` of the image it edits. -/
theorem damageImage_pixel (localHit : Vector2) (image : Image) (x y : Nat)
    (hx : (x : Int) < image.width) (hy : (y : Int) < image.height) :
    GetImageColor (damageImage localHit image) x y =
      if withinDamageRadius localHit x y = true then clearAlpha (GetImageColor image x y)
      else GetImageColor image x y := by
  have hcond : (0 : Int) ≤ (x : Int) ∧ (x : Int) < image.width ∧ (0 : Int) ≤ (y : Int) ∧
      (y : Int) < image.height := ⟨by omega, hx, by omega, hy⟩
  have hcond2 : (0 : Int) ≤ (x : Int) ∧ (x : Int) < (damageImage localHit image).width ∧
      (0 : Int) ≤ (y : Int) ∧ (y : Int) < (damageImage localHit image).height := hcond
  unfold GetImageColor
  rw [if_pos hcond, if_pos hcond2]
  have hwd : (damageImage localHit image).width = image.width := rfl
  rw [hwd, List.getD_eq_getElem?_getD, List.getD_eq_getElem?_getD]
  obtain ⟨h1, h2⟩ := damageImage_getElem? localHit image ((y : Int) * image.width + (x : Int)).toNat
  by_cases hw : withinDamageRadius localHit x y = true
  · rw [if_pos hw, h1 ⟨y, List.mem_range.mpr (by omega), x, List.mem_range.mpr (by omega), hw, rfl⟩]
    cases image.data[((y : Int) * image.width + (x : Int)).toNat]? <;> rfl
  · rw [if_neg hw]
    rw [h2]
    rintro ⟨y1, -, x1, hx1, hw1, hidx⟩
    have hx1w : (x1 : Int) < image.width := by
      have := List.mem_range.mp hx1
      omega
    obtain ⟨rfl, rfl⟩ := pixelIndex_inj hx1w hx hidx
    exact hw hw1

theorem DamageShield_inactive (s : GameState) (i : Fin NUM_SHIELDS) (p : Vector2)
    (h : (s.shields i).active = false) : DamageShield i p s = s := by
  simp [DamageShield, h]

theorem DamageShield_active (s : GameState) (i : Fin NUM_SHIELDS) (p : Vector2)
    (h : (s.shields i).active = true) :
    DamageShield i p s =
      { s with
        shields := Function.update s.shields i
          { s.shields i with
            renderTexture :=
              ⟨{ (s.shields i).renderTexture.texture with
                  pixels := (damageImage (WorldToShieldTexCoords s i p)
                    (LoadImageFromTexture (s.shields i).renderTexture.texture)).data }⟩ } } := by
  simp [DamageShield, h, UpdateTexture]

/-- The image read back from a damaged shield is the damaged image of the old mask. -/
theorem DamageShield_image (s : GameState) (i : Fin NUM_SHIELDS) (p : Vector2)
    (h : (s.shields i).active = true) :
    LoadImageFromTexture ((DamageShield i p s).shields i).renderTexture.texture =
      damageImage (WorldToShieldTexCoords s i p)
        (LoadImageFromTexture (s.shields i).renderTexture.texture) := by
  rw [DamageShield_active s i p h]
  simp [LoadImageFromTexture, damageImage]

/-- Damage leaves the transform of every shield as it was. -/
theorem DamageShield_texCoords (s : GameState) (i k : Fin NUM_SHIELDS) (p q : Vector2) :
    WorldToShieldTexCoords (DamageShield i p s) k q = WorldToShieldTexCoords s k q := by
  cases h : (s.shields i).active
  · rw [DamageShield_inactive s i p h]
  · rw [DamageShield_active s i p h]
    by_cases hk : k = i
    · subst hk
      simp [WorldToShieldTexCoords]
    · simp [WorldToShieldTexCoords, Function.update_noteq hk]

/-! ## Auxiliary lemmas: first-fit scans -/

/-- In an increasing list the first element satisfying `p` is the least one. -/
theorem find?_lowest {n : Nat} (p : Fin n → Bool) (l : List (Fin n))
    (hl : l.Pairwise (fun a b => a < b)) (i : Fin n) (hi : i ∈ l) (hp : p i = true)
    (hlow : ∀ j, j < i → p j = false) : l.find? p = some i := by
  induction l with
  | nil => cases hi
  | cons a l ih =>
    rcases List.mem_cons.mp hi with rfl | hmem
    · exact List.find?_cons_of_pos _ hp
    · have hlt : a < i := (List.pairwise_cons.mp hl).1 i hmem
      rw [List.find?_cons_of_neg _ (by simp [hlow a hlt])]
      exact ih (List.pairwise_cons.mp hl).2 hmem

theorem find?_finRange_lowest {n : Nat} (p : Fin n → Bool) (i : Fin n) (hp : p i = true)
    (hlow : ∀ j, j < i → p j = false) : (List.finRange n).find? p = some i :=
  find?_lowest p _ (List.pairwise_lt_finRange n) i (List.mem_finRange i) hp hlow

theorem spawnAlienShotFrom_eq (position : Vector2) (bullets : Fin MAX_ALIEN_BULLETS → Bullet)
    (l : List (Fin MAX_ALIEN_BULLETS)) :
    spawnAlienShotFrom position bullets l =
      match l.find? (fun i => !(bullets i).active) with
      | some i => Function.update bullets i (firedBullet position (bullets i))
      | none => bullets := by
  induction l with
  | nil => rfl
  | cons a l ih =>
    cases h : (bullets a).active
    · simp [spawnAlienShotFrom, h, firedBullet]
    · simp [spawnAlienShotFrom, h, ih]

theorem spawnExplosionFrom_eq (position : Vector2) (tex : Texture2D) (texRect : Rectangle)
    (size : Vector2) (explosions : Fin MAX_EXPLOSIONS → Explosion)
    (l : List (Fin MAX_EXPLOSIONS)) :
    spawnExplosionFrom position tex texRect size explosions l =
      match l.find? (fun i => !(explosions i).active) with
      | some i =>
        Function.update explosions i (startedExplosion position tex texRect size (explosions i))
      | none => explosions := by
  induction l with
  | nil => rfl
  | cons a l ih =>
    cases h : (explosions a).active
    · simp [spawnExplosionFrom, h, startedExplosion]
    · simp [spawnExplosionFrom, h, ih]

/-- A full projectile pool: the spawn is dropped and nothing changes. -/
theorem SpawnAlienShot_full (position : Vector2) (s : GameState)
    (h : ∀ i, (s.alienBullets i).active = true) : SpawnAlienShot position s = s := by
  have hf : (List.finRange MAX_ALIEN_BULLETS).find? (fun i => !(s.alienBullets i).active) = none := by
    simp [h]
  simp [SpawnAlienShot, spawnAlienShotFrom_eq, hf]

/-- First fit: the lowest-index inactive projectile slot is the one written. -/
theorem SpawnAlienShot_lowest (position : Vector2) (s : GameState) (i : Fin MAX_ALIEN_BULLETS)
    (hi : (s.alienBullets i).active = false) (hlow : ∀ j, j < i → (s.alienBullets j).active = true) :
    SpawnAlienShot position s =
      { s with alienBullets := Function.update s.alienBullets i (firedBullet position (s.alienBullets i)) } := by
  have hf : (List.finRange MAX_ALIEN_BULLETS).find? (fun i => !(s.alienBullets i).active) = some i :=
    find?_finRange_lowest _ i (by simp [hi]) (fun j hj => by simp [hlow j hj])
  simp [SpawnAlienShot, spawnAlienShotFrom_eq, hf]

theorem SpawnExplosion_full (position : Vector2) (tex : Texture2D) (texRect : Rectangle)
    (size : Vector2) (s : GameState) (h : ∀ i, (s.explosions i).active = true) :
    SpawnExplosion position tex texRect size s = s := by
  have hf : (List.finRange MAX_EXPLOSIONS).find? (fun i => !(s.explosions i).active) = none := by
    simp [h]
  simp [SpawnExplosion, spawnExplosionFrom_eq, hf]

theorem SpawnExplosion_lowest (position : Vector2) (tex : Texture2D) (texRect : Rectangle)
    (size : Vector2) (s : GameState) (i : Fin MAX_EXPLOSIONS)
    (hi : (s.explosions i).active = false) (hlow : ∀ j, j < i → (s.explosions j).active = true) :
    SpawnExplosion position tex texRect size s =
      { s with
        explosions :=
          Function.update s.explosions i (startedExplosion position tex texRect size (s.explosions i)) } := by
  have hf : (List.finRange MAX_EXPLOSIONS).find? (fun i => !(s.explosions i).active) = some i :=
    find?_finRange_lowest _ i (by simp [hi]) (fun j hj => by simp [hlow j hj])
  simp [SpawnExplosion, spawnExplosionFrom_eq, hf]

/-- Every non-full pool has a lowest inactive slot. -/
theorem exists_lowest_inactive {n : Nat} (act : Fin n → Bool) (h : ∃ i, act i = false) :
    ∃ i, act i = false ∧ ∀ j, j < i → act j = true := by
  classical
  obtain ⟨i, hi, hmin⟩ := (Finset.univ.filter (fun i => act i = false)).exists_minimal
    (by obtain ⟨i, hi⟩ := h; exact ⟨i, by simp [hi]⟩)
  refine ⟨i, by simpa using hi, fun j hj => ?_⟩
  by_contra hc
  have : act j = false := by simpa using hc
  exact hmin j (by simp [this]) hj

/-- One spawn attempt either fills one more slot of a non-full pool or is dropped by a
full one. -/
theorem SpawnAlienShot_count (position : Vector2) (s : GameState) :
    (activeBulletCount (SpawnAlienShot position s) = activeBulletCount s + 1 ∧
        activeBulletCount s < MAX_ALIEN_BULLETS) ∨
      (SpawnAlienShot position s = s ∧ activeBulletCount s = MAX_ALIEN_BULLETS) := by
  by_cases hfull : ∀ i, (s.alienBullets i).active = true
  · right
    refine ⟨SpawnAlienShot_full position s hfull, ?_⟩
    simp [activeBulletCount, hfull]
  · left
    have hex : ∃ i, (s.alienBullets i).active = false := by
      by_contra hc
      exact hfull (fun i => by
        cases h : (s.alienBullets i).active
        · exact absurd ⟨i, h⟩ hc
        · rfl)
    obtain ⟨i, hi, hlow⟩ := exists_lowest_inactive (fun i => (s.alienBullets i).active) hex
    rw [SpawnAlienShot_lowest position s i hi hlow]
    have hset : Finset.univ.filter (fun k =>
        ((Function.update s.alienBullets i (firedBullet position (s.alienBullets i))) k).active = true) =
        insert i (Finset.univ.filter (fun k => (s.alienBullets k).active = true)) := by
      ext k
      by_cases hk : k = i
      · subst hk
        simp [firedBullet]
      · simp [Function.update_noteq hk, hk]
    have hnot : i ∉ Finset.univ.filter (fun k => (s.alienBullets k).active = true) := by
      simp [hi]
    have hcard : (insert i (Finset.univ.filter (fun k => (s.alienBullets k).active = true))).card ≤
        MAX_ALIEN_BULLETS := by
      have := Finset.card_le_univ (insert i (Finset.univ.filter (fun k => (s.alienBullets k).active = true)))
      simpa using this
    rw [Finset.card_insert_of_not_mem hnot] at hcard
    refine ⟨?_, by unfold activeBulletCount; omega⟩
    simp only [activeBulletCount]
    rw [hset, Finset.card_insert_of_not_mem hnot]

theorem SpawnExplosion_count (position : Vector2) (tex : Texture2D) (texRect : Rectangle)
    (size : Vector2) (s : GameState) :
    (activeExplosionCount (SpawnExplosion position tex texRect size s) = activeExplosionCount s + 1 ∧
        activeExplosionCount s < MAX_EXPLOSIONS) ∨
      (SpawnExplosion position tex texRect size s = s ∧ activeExplosionCount s = MAX_EXPLOSIONS) := by
  by_cases hfull : ∀ i, (s.explosions i).active = true
  · right
    refine ⟨SpawnExplosion_full position tex texRect size s hfull, ?_⟩
    simp [activeExplosionCount, hfull]
  · left
    have hex : ∃ i, (s.explosions i).active = false := by
      by_contra hc
      exact hfull (fun i => by
        cases h : (s.explosions i).active
        · exact absurd ⟨i, h⟩ hc
        · rfl)
    obtain ⟨i, hi, hlow⟩ := exists_lowest_inactive (fun i => (s.explosions i).active) hex
    rw [SpawnExplosion_lowest position tex texRect size s i hi hlow]
    have hset : Finset.univ.filter (fun k =>
        ((Function.update s.explosions i
          (startedExplosion position tex texRect size (s.explosions i))) k).active = true) =
        insert i (Finset.univ.filter (fun k => (s.explosions k).active = true)) := by
      ext k
      by_cases hk : k = i
      · subst hk
        simp [startedExplosion]
      · simp [Function.update_noteq hk, hk]
    have hnot : i ∉ Finset.univ.filter (fun k => (s.explosions k).active = true) := by
      simp [hi]
    have hcard : (insert i (Finset.univ.filter (fun k => (s.explosions k).active = true))).card ≤
        MAX_EXPLOSIONS := by
      have := Finset.card_le_univ (insert i (Finset.univ.filter (fun k => (s.explosions k).active = true)))
      simpa using this
    rw [Finset.card_insert_of_not_mem hnot] at hcard
    refine ⟨?_, by unfold activeExplosionCount; omega⟩
    simp only [activeExplosionCount]
    rw [hset, Finset.card_insert_of_not_mem hnot]

/-- Consecutive projectile spawns fill the pool one slot per attempt up to its capacity. -/
theorem spawnAlienShots_count (ps : List Vector2) (s : GameState) :
    activeBulletCount (ps.foldl (fun st p => SpawnAlienShot p st) s) =
      min (activeBulletCount s + ps.length) MAX_ALIEN_BULLETS := by
  induction ps generalizing s with
  | nil =>
    have : activeBulletCount s ≤ MAX_ALIEN_BULLETS := by
      have := Finset.card_le_univ (Finset.univ.filter (fun k => (s.alienBullets k).active = true))
      simpa [activeBulletCount] using this
    simp [this]
  | cons p ps ih =>
    simp only [List.foldl_cons, List.length_cons]
    rw [ih]
    rcases SpawnAlienShot_count p s with ⟨h1, h2⟩ | ⟨h1, h2⟩
    · rw [h1]
      congr 1
      omega
    · rw [h1, h2]
      simp

theorem spawnExplosions_count (ps : List (Vector2 × Texture2D × Rectangle × Vector2))
    (s : GameState) :
    activeExplosionCount
        (ps.foldl (fun st a => SpawnExplosion a.1 a.2.1 a.2.2.1 a.2.2.2 st) s) =
      min (activeExplosionCount s + ps.length) MAX_EXPLOSIONS := by
  induction ps generalizing s with
  | nil =>
    have : activeExplosionCount s ≤ MAX_EXPLOSIONS := by
      have := Finset.card_le_univ (Finset.univ.filter (fun k => (s.explosions k).active = true))
      simpa [activeExplosionCount] using this
    simp [this]
  | cons p ps ih =>
    simp only [List.foldl_cons, List.length_cons]
    rw [ih]
    rcases SpawnExplosion_count p.1 p.2.1 p.2.2.1 p.2.2.2 s with ⟨h1, h2⟩ | ⟨h1, h2⟩
    · rw [h1]
      congr 1
      omega
    · rw [h1, h2]
      simp

/-! ## Auxiliary lemmas: loops over a fixed-size array -/

/-- A loop that rewrites slot `i` from its own old content, over distinct indices, rewrites
each visited slot once and leaves the others. -/
theorem foldl_update_apply {n : Nat} {α : Type} (h : Fin n → α → α) (l : List (Fin n))
    (hl : l.Nodup) (f : Fin n → α) (j : Fin n) :
    (l.foldl (fun f i => Function.update f i (h i (f i))) f) j =
      if j ∈ l then h j (f j) else f j := by
  induction l generalizing f with
  | nil => simp
  | cons a l ih =>
    simp only [List.foldl_cons]
    rw [ih (List.nodup_cons.mp hl).2]
    have ha : a ∉ l := (List.nodup_cons.mp hl).1
    by_cases hj : j ∈ l
    · have hne : j ≠ a := fun e => ha (e ▸ hj)
      simp [hj, Function.update_noteq hne]
    · by_cases hja : j = a
      · subst hja
        simp [hj]
      · simp [hj, hja, Function.update_noteq hja]

theorem foldl_update_finRange {n : Nat} {α : Type} (h : Fin n → α → α) (f : Fin n → α)
    (j : Fin n) :
    ((List.finRange n).foldl (fun f i => Function.update f i (h i (f i))) f) j = h j (f j) := by
  rw [foldl_update_apply h _ (List.nodup_finRange n)]
  simp [List.mem_finRange]

theorem moveAlien_eq (moveDown : Bool) (alienDirection : Int) :
    moveAlien moveDown alienDirection =
      fun aliens i => Function.update aliens i (movedAlien moveDown alienDirection (aliens i)) := by
  funext aliens i
  unfold moveAlien movedAlien
  by_cases h : (aliens i).active = true
  · rw [if_pos h, if_pos h]
  · rw [if_neg h, if_neg h, Function.update_eq_self]

/-- The move loop of `UpdateAliens` moves every slot by `movedAlien`. -/
theorem moveAliens_apply (moveDown : Bool) (alienDirection : Int) (aliens : Fin NUM_ALIENS → Alien)
    (j : Fin NUM_ALIENS) :
    ((List.finRange NUM_ALIENS).foldl (moveAlien moveDown alienDirection) aliens) j =
      movedAlien moveDown alienDirection (aliens j) := by
  rw [moveAlien_eq]
  exact foldl_update_finRange (fun _ a => movedAlien moveDown alienDirection a) aliens j

/-- The edge loop only lowers `leftmost` and raises `rightmost`, and covers every active
alien it visits. -/
theorem edges_foldl_bounds (aliens : Fin NUM_ALIENS → Alien) (l : List (Fin NUM_ALIENS))
    (lr : ℚ × ℚ) :
    ((l.foldl (edgeStep aliens) lr).1 ≤ lr.1 ∧ lr.2 ≤ (l.foldl (edgeStep aliens) lr).2) ∧
      ∀ i ∈ l, (aliens i).active = true →
        (l.foldl (edgeStep aliens) lr).1 ≤ (aliens i).position.x ∧
          (aliens i).position.x + (aliens i).size.x ≤ (l.foldl (edgeStep aliens) lr).2 := by
  induction l generalizing lr with
  | nil => simp
  | cons a l ih =>
    simp only [List.foldl_cons]
    obtain ⟨⟨ih1, ih2⟩, ih3⟩ := ih (edgeStep aliens lr a)
    have hstep : (edgeStep aliens lr a).1 ≤ lr.1 ∧ lr.2 ≤ (edgeStep aliens lr a).2 ∧
        ((aliens a).active = true → (edgeStep aliens lr a).1 ≤ (aliens a).position.x ∧
          (aliens a).position.x + (aliens a).size.x ≤ (edgeStep aliens lr a).2) := by
      unfold edgeStep
      cases hact : (aliens a).active
      · simp
      · simp only [if_true]
        refine ⟨?_, ?_, fun _ => ⟨?_, ?_⟩⟩ <;> split_ifs <;> linarith
    refine ⟨⟨le_trans ih1 hstep.1, le_trans hstep.2.1 ih2⟩, ?_⟩
    intro i hi hact
    rcases List.mem_cons.mp hi with rfl | hmem
    · exact ⟨le_trans ih1 (hstep.2.2 hact).1, le_trans (hstep.2.2 hact).2 ih2⟩
    · exact ih3 i hmem hact

theorem findEdges_covers (aliens : Fin NUM_ALIENS → Alien) (i : Fin NUM_ALIENS)
    (hact : (aliens i).active = true) :
    (findEdges aliens).1 ≤ (aliens i).position.x ∧
      (aliens i).position.x + (aliens i).size.x ≤ (findEdges aliens).2 :=
  (edges_foldl_bounds aliens _ _).2 i (List.mem_finRange i) hact

/-! ## Auxiliary lemmas: what each operation leaves alone -/

theorem shooterLoop_shape (env : Env) (tries : Nat) (s : GameState) :
    ∃ rc bs, shooterLoop env tries s = { s with randCalls := rc, alienBullets := bs } := by
  induction tries generalizing s with
  | zero => exact ⟨s.randCalls, s.alienBullets, rfl⟩
  | succ n ih =>
    unfold shooterLoop
    simp only []
    split_ifs
    · exact ⟨_, _, rfl⟩
    · obtain ⟨rc, bs, h⟩ := ih (GetRandomValue env 0 ((NUM_ALIENS : Int) - 1) s).2
      exact ⟨rc, bs, by rw [h]; rfl⟩

theorem alienShoot_shape (env : Env) (delta : ℚ) (s : GameState) :
    ∃ t rc bs, alienShoot env delta s =
      { s with alienShootTimer := t, randCalls := rc, alienBullets := bs } := by
  unfold alienShoot
  simp only []
  split_ifs
  · obtain ⟨rc, bs, h⟩ := shooterLoop_shape env NUM_ALIENS
      { s with alienShootTimer := s.alienShootTimer - delta }
    rw [h]
    exact ⟨_, _, _, rfl⟩
  · obtain ⟨rc, bs, h⟩ := shooterLoop_shape env NUM_ALIENS
      { s with alienShootTimer := s.alienShootTimer - delta }
    rw [h]
    exact ⟨_, _, _, rfl⟩
  · exact ⟨_, _, _, rfl⟩

theorem DamageShield_shape (i : Fin NUM_SHIELDS) (p : Vector2) (s : GameState) :
    ∃ sh, DamageShield i p s = { s with shields := sh } := by
  cases h : (s.shields i).active
  · exact ⟨s.shields, by rw [DamageShield_inactive s i p h]⟩
  · exact ⟨_, DamageShield_active s i p h⟩

theorem bulletShieldScan_shape (env : Env) (i : Fin MAX_ALIEN_BULLETS) (rect : Rectangle)
    (l : List (Fin NUM_SHIELDS)) (s : GameState) :
    ∃ bs sh ex, bulletShieldScan env i rect l s =
      { s with alienBullets := bs, shields := sh, explosions := ex } := by
  induction l with
  | nil => exact ⟨s.alienBullets, s.shields, s.explosions, rfl⟩
  | cons a l ih =>
    unfold bulletShieldScan
    simp only []
    split_ifs
    · obtain ⟨sh, h⟩ := DamageShield_shape a (bulletBottom rect)
        { s with
          alienBullets := Function.update s.alienBullets i { s.alienBullets i with active := false } }
      rw [h]
      exact ⟨_, _, _, rfl⟩
    · exact ⟨s.alienBullets, s.shields, s.explosions, rfl⟩
    · exact ih

theorem bulletVsShields_shape (env : Env) (i : Fin MAX_ALIEN_BULLETS) (rect : Rectangle)
    (l : List (Fin NUM_SHIELDS)) (s : GameState) :
    ∃ bs sh ex, bulletVsShields env i rect l s =
      { s with alienBullets := bs, shields := sh, explosions := ex } := by
  induction l with
  | nil => exact ⟨s.alienBullets, s.shields, s.explosions, rfl⟩
  | cons a l ih =>
    unfold bulletVsShields
    simp only []
    split_ifs
    · obtain ⟨sh, h⟩ := DamageShield_shape a (bulletBottom rect)
        { s with
          alienBullets := Function.update s.alienBullets i { s.alienBullets i with active := false } }
      rw [h]
      exact ⟨_, _, _, rfl⟩
    · exact ih
    · exact ih

/-- A loop whose steps touch only the projectile pool, the shields and the explosion pool
touches only those. -/
theorem foldl_pools_shape {ι : Type} (step : GameState → ι → GameState)
    (hstep : ∀ s i, ∃ bs sh ex, step s i =
      { s with alienBullets := bs, shields := sh, explosions := ex })
    (l : List ι) (s : GameState) :
    ∃ bs sh ex, l.foldl step s = { s with alienBullets := bs, shields := sh, explosions := ex } := by
  induction l generalizing s with
  | nil => exact ⟨s.alienBullets, s.shields, s.explosions, rfl⟩
  | cons a l ih =>
    simp only [List.foldl_cons]
    obtain ⟨bs, sh, ex, h⟩ := hstep s a
    obtain ⟨bs2, sh2, ex2, h2⟩ := ih (step s a)
    rw [h2, h]
    exact ⟨_, _, _, rfl⟩

theorem alienShotsVsShields_shape (env : Env) (s : GameState) :
    ∃ bs sh ex, alienShotsVsShields env s =
      { s with alienBullets := bs, shields := sh, explosions := ex } := by
  unfold alienShotsVsShields
  apply foldl_pools_shape
  intro s i
  split_ifs
  · exact ⟨s.alienBullets, s.shields, s.explosions, rfl⟩
  · exact bulletVsShields_shape env i _ _ s

theorem bulletsVsPlayer_shape (playerRect : Rectangle) (l : List (Fin MAX_ALIEN_BULLETS))
    (s : GameState) :
    ∃ t bs, bulletsVsPlayer playerRect l s =
      { s with player := { s.player with explosionTimer := t }, alienBullets := bs } := by
  induction l with
  | nil => exact ⟨s.player.explosionTimer, s.alienBullets, rfl⟩
  | cons a l ih =>
    unfold bulletsVsPlayer
    simp only []
    split_ifs
    · exact ⟨_, _, rfl⟩
    · exact ih

theorem alienShotsVsPlayer_shape (s : GameState) :
    ∃ t bs, alienShotsVsPlayer s =
      { s with player := { s.player with explosionTimer := t }, alienBullets := bs } := by
  unfold alienShotsVsPlayer
  split_ifs
  · exact bulletsVsPlayer_shape _ _ s
  · exact ⟨s.player.explosionTimer, s.alienBullets, rfl⟩

theorem UpdateBullets_shape (env : Env) (inp : Input) (s : GameState) :
    ∃ a q bs sh ex, UpdateBullets env inp s =
      { s with
        player := { s.player with shotActive := a, shotPosition := q }
        alienBullets := bs, shields := sh, explosions := ex } := by
  unfold UpdateBullets
  simp only []
  have key : ∀ s0 : GameState, ∃ bs sh ex,
      (List.finRange MAX_ALIEN_BULLETS).foldl
        (fun s i =>
          if !(s.alienBullets i).active then s
          else bulletShieldScan env i (bulletRect (s.alienBullets i)) (List.finRange NUM_SHIELDS) s)
        s0 = { s0 with alienBullets := bs, shields := sh, explosions := ex } := by
    intro s0
    apply foldl_pools_shape
    intro s i
    split_ifs
    · exact ⟨s.alienBullets, s.shields, s.explosions, rfl⟩
    · exact bulletShieldScan_shape env i _ _ s
  split_ifs
  · obtain ⟨bs, sh, ex, h⟩ := key
      { s with
        player :=
          { s.player with
            shotPosition := ⟨s.player.shotPosition.x, s.player.shotPosition.y - PLAYER_BULLET_SPEED⟩
            shotActive := false } }
    refine ⟨false, ⟨s.player.shotPosition.x, s.player.shotPosition.y - PLAYER_BULLET_SPEED⟩, ?_⟩
    exact ⟨_, sh, ex, by rw [h]⟩
  · obtain ⟨bs, sh, ex, h⟩ := key
      { s with
        player :=
          { s.player with
            shotPosition := ⟨s.player.shotPosition.x, s.player.shotPosition.y - PLAYER_BULLET_SPEED⟩ } }
    refine ⟨s.player.shotActive, ⟨s.player.shotPosition.x, s.player.shotPosition.y - PLAYER_BULLET_SPEED⟩, ?_⟩
    exact ⟨_, sh, ex, by rw [h]⟩
  · obtain ⟨bs, sh, ex, h⟩ := key s
    exact ⟨s.player.shotActive, s.player.shotPosition, _, sh, ex, by rw [h]⟩

theorem UpdateUFO_shape (env : Env) (delta : ℚ) (s : GameState) :
    ∃ u rc, UpdateUFO env delta s = { s with ufo := u, randCalls := rc } := by
  unfold UpdateUFO SpawnUFO ufoLeave GetRandomValue
  simp only []
  split_ifs <;> exact ⟨_, _, rfl⟩

theorem updatePlayer_shape (inp : Input) (s : GameState) :
    ∃ p g, updatePlayer inp s = { s with player := p, gameOver := g } := by
  unfold updatePlayer SpawnPlayerShot
  simp only []
  split_ifs <;> exact ⟨_, _, rfl⟩

theorem alienVsShields_shape (i : Fin NUM_ALIENS) (s : GameState) :
    ∃ sh, alienVsShields i s = { s with shields := sh } := by
  unfold alienVsShields
  generalize List.finRange NUM_SHIELDS = l
  induction l generalizing s with
  | nil => exact ⟨s.shields, rfl⟩
  | cons a l ih =>
    simp only [List.foldl_cons]
    split_ifs
    · obtain ⟨sh1, h1⟩ := DamageShield_shape a
        ⟨(s.aliens i).position.x + (s.aliens i).size.x / 2,
          (s.aliens i).position.y + (s.aliens i).size.y⟩ s
      obtain ⟨sh2, h2⟩ := DamageShield_shape a
        ⟨(s.aliens i).position.x + (s.aliens i).size.x / 2,
          (s.aliens i).position.y + (s.aliens i).size.y⟩ { s with shields := sh1 }
      obtain ⟨sh3, h3⟩ := DamageShield_shape a
        ⟨(s.aliens i).position.x + (s.aliens i).size.x / 2,
          (s.aliens i).position.y + (s.aliens i).size.y⟩ { s with shields := sh2 }
      rw [h1, h2, h3]
      obtain ⟨sh4, h4⟩ := ih { s with shields := sh3 }
      exact ⟨sh4, by rw [h4]⟩
    · exact ih s

theorem loseScan_shape (l : List (Fin NUM_ALIENS)) (s : GameState) :
    ∃ g sh, loseScan l s = { s with gameOver := g, shields := sh } := by
  induction l generalizing s with
  | nil => exact ⟨s.gameOver, s.shields, rfl⟩
  | cons a l ih =>
    unfold loseScan
    split_ifs
    · exact ⟨true, s.shields, rfl⟩
    · obtain ⟨sh, h⟩ := alienVsShields_shape a s
      rw [h]
      obtain ⟨g, sh2, h2⟩ := ih { s with shields := sh }
      exact ⟨g, sh2, by rw [h2]⟩
    · exact ih s

/-! ## Auxiliary lemmas: collision resolution -/

/-- Every satisfiable predicate on the slots has a lowest slot satisfying it. -/
theorem exists_lowest_true {n : Nat} (p : Fin n → Bool) (h : ∃ i, p i = true) :
    ∃ i, p i = true ∧ ∀ j, j < i → p j = false := by
  obtain ⟨i, hi, hlow⟩ := exists_lowest_inactive (fun i => !p i)
    (by obtain ⟨i, hi⟩ := h; exact ⟨i, by simp [hi]⟩)
  exact ⟨i, by simpa using hi, fun j hj => by simpa using hlow j hj⟩

theorem shotVsAliens_eq (env : Env) (r : Rectangle) (l : List (Fin NUM_ALIENS)) (s : GameState) :
    shotVsAliens env r l s =
      (l.find? (fun i => (s.aliens i).active && CheckCollisionRecs r (alienRect (s.aliens i)))).map
        (fun i => killAlien env i s) := by
  induction l with
  | nil => rfl
  | cons a l ih =>
    unfold shotVsAliens
    by_cases h : (s.aliens a).active = true ∧ CheckCollisionRecs r (alienRect (s.aliens a)) = true
    · rw [if_pos h, List.find?_cons_of_pos _ (by simp [h.1, h.2])]
      rfl
    · rw [if_neg h, List.find?_cons_of_neg _ (by simpa using h), ih]

/-- What the kill of alien `i` writes. -/
theorem killAlien_fields (env : Env) (i : Fin NUM_ALIENS) (s : GameState) :
    (killAlien env i s).aliens = Function.update s.aliens i { s.aliens i with active := false } ∧
    (killAlien env i s).aliensAlive = s.aliensAlive - 1 ∧
    (killAlien env i s).score = s.score + (s.aliens i).points ∧
    (killAlien env i s).player.shotActive = false := by
  unfold killAlien SpawnExplosion speedUpSwarm raiseHiScore scoreAlien
  simp only []
  split_ifs <;> simp

/-- Steps 4 and 5 of `CheckCollisions` leave the swarm, the score and the shot flag alone. -/
theorem alienShotPasses_frame (env : Env) (s : GameState) :
    (alienShotsVsShields env (alienShotsVsPlayer s)).aliens = s.aliens ∧
    (alienShotsVsShields env (alienShotsVsPlayer s)).aliensAlive = s.aliensAlive ∧
    (alienShotsVsShields env (alienShotsVsPlayer s)).score = s.score ∧
    (alienShotsVsShields env (alienShotsVsPlayer s)).player.shotActive = s.player.shotActive := by
  obtain ⟨t, bs, h1⟩ := alienShotsVsPlayer_shape s
  obtain ⟨bs2, sh, ex, h2⟩ := alienShotsVsShields_shape env (alienShotsVsPlayer s)
  rw [h2, h1]
  exact ⟨rfl, rfl, rfl, rfl⟩

/-! ## Auxiliary lemmas: the alien grid -/

theorem alienIndex_row_col (j : Fin NUM_ALIENS) : alienIndex (alienRow j) (alienCol j) = j := by
  apply Fin.ext
  simp only [alienIndex, alienRow, alienCol, ALIENS_COLS]
  omega

theorem alienRow_alienIndex (r : Fin ALIENS_ROWS) (c : Fin ALIENS_COLS) :
    alienRow (alienIndex r c) = r := by
  apply Fin.ext
  have hc := c.isLt
  simp only [alienIndex, alienRow, ALIENS_COLS] at *
  omega

theorem alienCol_alienIndex (r : Fin ALIENS_ROWS) (c : Fin ALIENS_COLS) :
    alienCol (alienIndex r c) = c := by
  apply Fin.ext
  have hc := c.isLt
  simp only [alienIndex, alienCol, ALIENS_COLS] at *
  omega

/-- A loop over distinct keys in which the step of key `k` rewrites by `H` exactly the slots
related to `k`, each slot being related to at most one key. -/
theorem foldl_rel_apply {n : Nat} {α κ : Type} (C : κ → Fin n → Prop) (H : Fin n → α → α)
    (step : (Fin n → α) → κ → (Fin n → α))
    (hstep : ∀ f k j, (C k j → step f k j = H j (f j)) ∧ (¬ C k j → step f k j = f j))
    (l : List κ) (j : Fin n) (huniq : l.Pairwise (fun k k' => ¬ (C k j ∧ C k' j)))
    (f : Fin n → α) :
    ((∃ k ∈ l, C k j) → (l.foldl step f) j = H j (f j)) ∧
      ((¬ ∃ k ∈ l, C k j) → (l.foldl step f) j = f j) := by
  induction l generalizing f with
  | nil => simp
  | cons a l ih =>
    simp only [List.foldl_cons]
    obtain ⟨hu1, hu2⟩ := List.pairwise_cons.mp huniq
    obtain ⟨ih1, ih2⟩ := ih hu2 (step f a)
    obtain ⟨hs1, hs2⟩ := hstep f a j
    constructor
    · intro hex
      by_cases hc : C a j
      · have hl : ¬ ∃ k ∈ l, C k j := fun ⟨k, hk, hkC⟩ => hu1 k hk ⟨hc, hkC⟩
        rw [ih2 hl, hs1 hc]
      · have hl : ∃ k ∈ l, C k j := by
          obtain ⟨k, hk, hkC⟩ := hex
          rcases List.mem_cons.mp hk with rfl | hk
          · exact absurd hkC hc
          · exact ⟨k, hk, hkC⟩
        rw [ih1 hl, hs2 hc]
    · intro hne
      have hl : ¬ ∃ k ∈ l, C k j := fun ⟨k, hk, hkC⟩ => hne ⟨k, List.mem_cons_of_mem _ hk, hkC⟩
      have hc : ¬ C a j := fun h => hne ⟨a, List.mem_cons_self _ _, h⟩
      rw [ih2 hl, hs2 hc]

/-- One row of `InitAliens` rewrites the slots of that row. -/
theorem initRowArray_apply (env : Env) (r : Fin ALIENS_ROWS) (f : Fin NUM_ALIENS → Alien)
    (j : Fin NUM_ALIENS) :
    (alienRow j = r →
        ((List.finRange ALIENS_COLS).foldl (initCellArray env r) f) j =
          initAlien env (alienRow j) (alienCol j) (f j)) ∧
      (¬ alienRow j = r → ((List.finRange ALIENS_COLS).foldl (initCellArray env r) f) j = f j) := by
  have h := foldl_rel_apply (fun c j => j = alienIndex r c)
    (fun j a => initAlien env r (alienCol j) a) (initCellArray env r)
    (fun f c j => by
      constructor
      · intro hj
        simp only [initCellArray]
        rw [hj, Function.update_same, alienCol_alienIndex]
      · intro hj
        simp only [initCellArray]
        rw [Function.update_noteq hj])
    (List.finRange ALIENS_COLS) j
    ((List.nodup_finRange ALIENS_COLS).imp (fun {c c'} hne hcc => hne (by
      have := hcc.1.symm.trans hcc.2
      have h2 := congrArg alienCol this
      rwa [alienCol_alienIndex, alienCol_alienIndex] at h2)))
    f
  constructor
  · intro hr
    have := h.1 ⟨alienCol j, List.mem_finRange _, by rw [← hr, alienIndex_row_col]⟩
    rw [this, hr]
  · intro hr
    exact h.2 (fun ⟨c, _, hc⟩ => hr (by rw [hc, alienRow_alienIndex]))

/-- The two loops of `InitAliens` rewrite every slot from its grid cell. -/
theorem initGridArray_apply (env : Env) (f : Fin NUM_ALIENS → Alien) (j : Fin NUM_ALIENS) :
    ((List.finRange ALIENS_ROWS).foldl
        (fun f r => (List.finRange ALIENS_COLS).foldl (initCellArray env r) f) f) j =
      initAlien env (alienRow j) (alienCol j) (f j) := by
  have h := foldl_rel_apply (fun r j => alienRow j = r)
    (fun j a => initAlien env (alienRow j) (alienCol j) a)
    (fun f r => (List.finRange ALIENS_COLS).foldl (initCellArray env r) f)
    (fun f r j => initRowArray_apply env r f j)
    (List.finRange ALIENS_ROWS) j
    ((List.nodup_finRange ALIENS_ROWS).imp (fun {r r'} hne hrr => hne (hrr.1.symm.trans hrr.2)))
    f
  exact h.1 ⟨alienRow j, List.mem_finRange _, rfl⟩

/-- A loop whose step rewrites the alien array and adds `m` to `aliensAlive`. -/
theorem foldl_aliens_alive {ι : Type} (A : (Fin NUM_ALIENS → Alien) → ι → (Fin NUM_ALIENS → Alien))
    (m : Int) (l : List ι) (s : GameState) :
    l.foldl (fun s i => { s with aliens := A s.aliens i, aliensAlive := s.aliensAlive + m }) s =
      { s with aliens := l.foldl A s.aliens, aliensAlive := s.aliensAlive + m * (l.length : Int) } := by
  induction l generalizing s with
  | nil => simp
  | cons a l ih =>
    simp only [List.foldl_cons, List.length_cons]
    rw [ih]
    simp only [Nat.cast_add, Nat.cast_one]
    congr 1
    ring

theorem initAlienRow_eq (env : Env) (s : GameState) (r : Fin ALIENS_ROWS) :
    initAlienRow env s r =
      { s with
        aliens := (List.finRange ALIENS_COLS).foldl (initCellArray env r) s.aliens
        aliensAlive := s.aliensAlive + 11 } := by
  have h := foldl_aliens_alive (initCellArray env r) 1 (List.finRange ALIENS_COLS) s
  unfold initAlienRow
  have hstep : initAlienCell env r =
      fun s c => { s with aliens := initCellArray env r s.aliens c, aliensAlive := s.aliensAlive + 1 } := rfl
  rw [hstep, h]
  simp [ALIENS_COLS]

/-- The grid loops of `InitAliens` in closed form. -/
theorem initGrid_eq (env : Env) (s : GameState) :
    (List.finRange ALIENS_ROWS).foldl (initAlienRow env) s =
      { s with
        aliens := fun j => initAlien env (alienRow j) (alienCol j) (s.aliens j)
        aliensAlive := s.aliensAlive + 55 } := by
  have hstep : initAlienRow env =
      fun s r => { s with
        aliens := (fun f r => (List.finRange ALIENS_COLS).foldl (initCellArray env r) f) s.aliens r
        aliensAlive := s.aliensAlive + 11 } := by
    funext s r
    exact initAlienRow_eq env s r
  rw [hstep, foldl_aliens_alive
    (fun f r => (List.finRange ALIENS_COLS).foldl (initCellArray env r) f) 11
    (List.finRange ALIENS_ROWS) s]
  have hal : (List.finRange ALIENS_ROWS).foldl
      (fun f r => (List.finRange ALIENS_COLS).foldl (initCellArray env r) f) s.aliens =
      fun j => initAlien env (alienRow j) (alienCol j) (s.aliens j) := by
    funext j
    exact initGridArray_apply env s.aliens j
  rw [hal]
  simp [ALIENS_ROWS]

/-! ## Auxiliary lemmas: the alive count and the wave transition -/

theorem initAlien_fields (env : Env) (r : Fin ALIENS_ROWS) (c : Fin ALIENS_COLS) (a : Alien) :
    (initAlien env r c a).active = true ∧
    (initAlien env r c a).position = (initAlien env r c a).basePosition ∧
    (initAlien env r c a).basePosition = ⟨80 + (c.val : ℚ) * 45, 80 + (r.val : ℚ) * 35⟩ := by
  unfold initAlien
  simp only []
  split_ifs <;> exact ⟨rfl, rfl, rfl⟩

theorem InitAliens_shape (env : Env) (s : GameState) :
    ∃ w t st rc, InitAliens env s =
      { s with
        aliens := fun j => initAlien env (alienRow j) (alienCol j) (s.aliens j)
        aliensAlive := 55
        alienMoveWaitTime := w
        alienMoveTimer := t
        alienDirection := 1
        moveDown := false
        alienMoveSoundIndex := 0
        alienShootTimer := st
        randCalls := rc } := by
  unfold InitAliens
  simp only []
  rw [initGrid_eq]
  exact ⟨_, _, _, _, rfl⟩

theorem activeAlienCount_all (s : GameState) (h : ∀ i, (s.aliens i).active = true) :
    activeAlienCount s = 55 := by
  simp [activeAlienCount, h, NUM_ALIENS, ALIENS_ROWS, ALIENS_COLS]

theorem activeAlienCount_congr (s s' : GameState)
    (h : ∀ i, (s'.aliens i).active = (s.aliens i).active) :
    activeAlienCount s' = activeAlienCount s := by
  simp [activeAlienCount, h]

theorem activeAlienCount_kill (s s' : GameState) (i : Fin NUM_ALIENS)
    (hact : (s.aliens i).active = true)
    (h : s'.aliens = Function.update s.aliens i { s.aliens i with active := false }) :
    activeAlienCount s' + 1 = activeAlienCount s := by
  have hset : Finset.univ.filter (fun k => (s.aliens k).active = true) =
      insert i (Finset.univ.filter (fun k => (s'.aliens k).active = true)) := by
    ext k
    by_cases hk : k = i
    · subst hk
      simp [hact]
    · simp [h, Function.update_noteq hk, hk]
  have hnot : i ∉ Finset.univ.filter (fun k => (s'.aliens k).active = true) := by
    simp [h]
  simp only [activeAlienCount]
  rw [hset, Finset.card_insert_of_not_mem hnot]

theorem aliveCountCorrect_of_frame (s s' : GameState)
    (h1 : ∀ i, (s'.aliens i).active = (s.aliens i).active) (h2 : s'.aliensAlive = s.aliensAlive)
    (h : aliveCountCorrect s) : aliveCountCorrect s' := by
  unfold aliveCountCorrect at *
  rw [h2, activeAlienCount_congr s s' h1, h]

theorem aliveCountCorrect_of_init (s : GameState) (h1 : ∀ i, (s.aliens i).active = true)
    (h2 : s.aliensAlive = 55) : aliveCountCorrect s := by
  unfold aliveCountCorrect
  rw [h2, activeAlienCount_all s h1]
  rfl

theorem InitAliens_alive (env : Env) (s : GameState) :
    (InitAliens env s).aliensAlive = 55 ∧ ∀ i, ((InitAliens env s).aliens i).active = true := by
  obtain ⟨w, t, st, rc, h⟩ := InitAliens_shape env s
  rw [h]
  exact ⟨rfl, fun i => (initAlien_fields env _ _ _).1⟩

theorem alienStep_shape (s : GameState) :
    ∃ md dir si t, alienStep s =
      { s with
        moveDown := md
        alienDirection := dir
        aliens := fun i => movedAlien md dir (s.aliens i)
        alienMoveSoundIndex := si
        alienMoveTimer := t } := by
  unfold alienStep
  simp only []
  split_ifs
  · exact ⟨true, s.alienDirection * -1, _, _, by
      rw [funext (moveAliens_apply true (s.alienDirection * -1) s.aliens)]⟩
  · exact ⟨false, s.alienDirection, _, _, by
      rw [funext (moveAliens_apply false s.alienDirection s.aliens)]⟩

theorem movedAlien_active (md : Bool) (dir : Int) (a : Alien) :
    (movedAlien md dir a).active = a.active := by
  unfold movedAlien
  split_ifs <;> rfl

theorem UpdateAliens_shape (env : Env) (delta : ℚ) (s : GameState) :
    ∃ mt md dir al si st rc bs,
      UpdateAliens env delta s =
        { s with
          alienMoveTimer := mt, moveDown := md, alienDirection := dir, aliens := al,
          alienMoveSoundIndex := si, alienShootTimer := st, randCalls := rc, alienBullets := bs } ∧
      ∀ i, (al i).active = (s.aliens i).active := by
  unfold UpdateAliens
  simp only []
  split_ifs
  · obtain ⟨md, dir, si, t, h1⟩ := alienStep_shape { s with alienMoveTimer := s.alienMoveTimer - delta }
    obtain ⟨st, rc, bs, h2⟩ := alienShoot_shape env delta
      (alienStep { s with alienMoveTimer := s.alienMoveTimer - delta })
    rw [h2, h1]
    exact ⟨_, _, _, _, _, _, _, _, rfl, fun i => movedAlien_active md dir _⟩
  · obtain ⟨st, rc, bs, h2⟩ := alienShoot_shape env delta
      { s with alienMoveTimer := s.alienMoveTimer - delta }
    rw [h2]
    exact ⟨_, s.moveDown, s.alienDirection, s.aliens, s.alienMoveSoundIndex, _, _, _, rfl, fun _ => rfl⟩

theorem shotVsUFO_shape (r : Rectangle) (s s' : GameState) (h : shotVsUFO r s = some s') :
    ∃ a u sc hs, s' = { s with player := { s.player with shotActive := a }, ufo := u, score := sc, hiScore := hs } := by
  unfold shotVsUFO raiseHiScore at h
  simp only [] at h
  split_ifs at h <;> exact ⟨_, _, _, _, (Option.some.inj h).symm⟩

theorem shotVsShields_shape (env : Env) (r : Rectangle) (l : List (Fin NUM_SHIELDS))
    (s s' : GameState) (h : shotVsShields env r l s = some s') :
    ∃ a sh ex, s' = { s with player := { s.player with shotActive := a }, shields := sh, explosions := ex } := by
  induction l with
  | nil => exact absurd h (by simp [shotVsShields])
  | cons a l ih =>
    unfold shotVsShields at h
    simp only [] at h
    split_ifs at h
    · cases h
      obtain ⟨sh, hd⟩ := DamageShield_shape a ⟨r.x + r.width * (1 / 2), r.y⟩
        { s with player := { s.player with shotActive := false } }
      rw [hd]
      exact ⟨_, _, _, rfl⟩
    · exact ih h
    · exact ih h

theorem shotVsAliens_some (env : Env) (r : Rectangle) (l : List (Fin NUM_ALIENS))
    (s s' : GameState) (h : shotVsAliens env r l s = some s') :
    ∃ i, (s.aliens i).active = true ∧ CheckCollisionRecs r (alienRect (s.aliens i)) = true ∧
      s' = killAlien env i s := by
  rw [shotVsAliens_eq] at h
  cases hf : l.find? (fun i => (s.aliens i).active && CheckCollisionRecs r (alienRect (s.aliens i))) with
  | none => rw [hf] at h; exact absurd h (by simp)
  | some i =>
    rw [hf] at h
    have hp := List.find?_some hf
    simp only [Bool.and_eq_true] at hp
    simp only [Option.map_some', Option.some.injEq] at h
    exact ⟨i, hp.1, hp.2, h.symm⟩

/-- The player-shot chain either kills one active alien or leaves the swarm alone. -/
theorem playerShotCollisions_cases (env : Env) (s : GameState) :
    (∃ i, (s.aliens i).active = true ∧ playerShotCollisions env s = killAlien env i s) ∨
      (∃ a u sc hs sh ex, playerShotCollisions env s =
        { s with
          player := { s.player with shotActive := a }
          ufo := u, score := sc, hiScore := hs, shields := sh, explosions := ex }) := by
  unfold playerShotCollisions
  split_ifs
  · simp only []
    cases h1 : shotVsAliens env (shotRect s.player) (List.finRange NUM_ALIENS) s with
    | some s1 =>
      obtain ⟨i, hi, -, hk⟩ := shotVsAliens_some env _ _ s s1 h1
      exact Or.inl ⟨i, hi, hk⟩
    | none =>
      right
      cases h2 : shotVsUFO (shotRect s.player) s with
      | some s2 =>
        obtain ⟨a, u, sc, hs, h⟩ := shotVsUFO_shape _ s s2 h2
        exact ⟨a, u, sc, hs, s.shields, s.explosions, h⟩
      | none =>
        cases h3 : shotVsShields env (shotRect s.player) (List.finRange NUM_SHIELDS) s with
        | some s3 =>
          obtain ⟨a, sh, ex, h⟩ := shotVsShields_shape env _ _ s s3 h3
          exact ⟨a, s.ufo, s.score, s.hiScore, sh, ex, h⟩
        | none => exact ⟨s.player.shotActive, s.ufo, s.score, s.hiScore, s.shields, s.explosions, rfl⟩
  · exact Or.inr ⟨s.player.shotActive, s.ufo, s.score, s.hiScore, s.shields, s.explosions, rfl⟩

theorem killAlien_shape (env : Env) (i : Fin NUM_ALIENS) (s : GameState) :
    ∃ hs ex w, killAlien env i s =
      { s with
        player := { s.player with shotActive := false }
        aliens := Function.update s.aliens i { s.aliens i with active := false }
        aliensAlive := s.aliensAlive - 1
        score := s.score + (s.aliens i).points
        hiScore := hs, explosions := ex, alienMoveWaitTime := w } := by
  unfold killAlien SpawnExplosion speedUpSwarm raiseHiScore scoreAlien
  simp only []
  split_ifs <;> exact ⟨_, _, _, rfl⟩

/-- The frame up to the collision pass changes neither the wave number nor the alien
array and `aliensAlive`, until `CheckCollisions`. -/
theorem preCollision_frame (env : Env) (inp : Input) (s : GameState) :
    ∃ s1, updateToCollisions env inp s = CheckCollisions env s1 ∧
      s1.currentWave = s.currentWave ∧ s1.aliensAlive = s.aliensAlive ∧
      ∀ i, (s1.aliens i).active = (s.aliens i).active := by
  refine ⟨_, rfl, ?_⟩
  obtain ⟨p, g, h1⟩ := updatePlayer_shape inp s
  obtain ⟨mt, md, dir, al, si, st, rc, bs, h2, hact⟩ :=
    UpdateAliens_shape env inp.frameTime (updatePlayer inp s)
  obtain ⟨a, q, bs2, sh, ex, h3⟩ := UpdateBullets_shape env inp
    (UpdateAliens env inp.frameTime (updatePlayer inp s))
  obtain ⟨u, rc2, h4⟩ := UpdateUFO_shape env inp.frameTime
    (UpdateBullets env inp (UpdateAliens env inp.frameTime (updatePlayer inp s)))
  simp only [UpdateExplosions]
  rw [h4, h3, h2, h1]
  refine ⟨rfl, rfl, fun i => ?_⟩
  have := hact i
  rw [h1] at this
  exact this

theorem CheckCollisions_currentWave (env : Env) (s : GameState) :
    (CheckCollisions env s).currentWave = s.currentWave := by
  obtain ⟨t, bs, h1⟩ := alienShotsVsPlayer_shape (playerShotCollisions env s)
  obtain ⟨bs2, sh, ex, h2⟩ := alienShotsVsShields_shape env
    (alienShotsVsPlayer (playerShotCollisions env s))
  unfold CheckCollisions
  simp only []
  rw [h2, h1]
  rcases playerShotCollisions_cases env s with ⟨i, -, hk⟩ | ⟨a, u, sc, hs, sh', ex', h⟩
  · obtain ⟨hs, ex', w, hshape⟩ := killAlien_shape env i s
    rw [hk, hshape]
  · rw [h]

theorem CheckCollisions_alive (env : Env) (s : GameState) (h : aliveCountCorrect s) :
    aliveCountCorrect (CheckCollisions env s) := by
  obtain ⟨f1, f2, -, -⟩ := alienShotPasses_frame env (playerShotCollisions env s)
  have hcc : CheckCollisions env s =
      alienShotsVsShields env (alienShotsVsPlayer (playerShotCollisions env s)) := rfl
  rcases playerShotCollisions_cases env s with ⟨i, hi, hk⟩ | ⟨a, u, sc, hs, sh', ex', hsame⟩
  · obtain ⟨k1, k2, -, -⟩ := killAlien_fields env i s
    have hal : (CheckCollisions env s).aliens =
        Function.update s.aliens i { s.aliens i with active := false } := by
      rw [hcc, f1, hk, k1]
    have hcount := activeAlienCount_kill s (CheckCollisions env s) i hi hal
    have halive : (CheckCollisions env s).aliensAlive = s.aliensAlive - 1 := by
      rw [hcc, f2, hk, k2]
    unfold aliveCountCorrect at *
    rw [halive, h]
    omega
  · apply aliveCountCorrect_of_frame s _ _ _ h
    · intro i
      rw [hcc, f1, hsame]
    · rw [hcc, f2, hsame]

theorem NextLevel_swarm (env : Env) (s : GameState) :
    (NextLevel env s).currentWave = s.currentWave + 1 ∧
    (NextLevel env s).aliensAlive = 55 ∧
    (NextLevel env s).aliens = fun j => initAlien env (alienRow j) (alienCol j) (s.aliens j) := by
  obtain ⟨w, t, st, rc, h⟩ := InitAliens_shape env { s with currentWave := s.currentWave + 1 }
  unfold NextLevel InitShields GetRandomValue
  simp only []
  rw [h]
  exact ⟨rfl, rfl, rfl⟩

theorem InitGame_alive (env : Env) (s : GameState) :
    (InitGame env s).aliensAlive = 55 ∧ ∀ i, ((InitGame env s).aliens i).active = true := by
  unfold InitGame InitShields
  simp only []
  exact ⟨(InitAliens_alive env _).1, (InitAliens_alive env _).2⟩

theorem pauseToggle_shape (inp : Input) (s : GameState) :
    ∃ g, pauseToggle inp s = { s with gamePaused := g } := by
  unfold pauseToggle
  split_ifs
  · exact ⟨_, rfl⟩
  · exact ⟨s.gamePaused, rfl⟩

/-! ## Auxiliary lemmas: the lose condition and the player rule -/

/-- A non-paused, non-game-over `UpdateGame` is the lose-condition scan on `stateAtLoseScan`. -/
theorem UpdateGame_running (env : Env) (inp : Input) (s : GameState)
    (hgo : s.gameOver = false) (hp : (pauseToggle inp s).gamePaused = false) :
    UpdateGame env inp s = loseScan (List.finRange NUM_ALIENS) (stateAtLoseScan env inp s) := by
  unfold UpdateGame stateAtLoseScan
  rw [if_neg (by simp [hgo])]
  simp only []
  rw [if_neg (by simp [hp])]

/-- The scan stops with `gameOver` set as soon as a listed active alien reached the
player row. -/
theorem loseScan_gameOver (l : List (Fin NUM_ALIENS)) (s : GameState)
    (h : ∃ i ∈ l, (s.aliens i).active = true ∧
      (s.aliens i).position.y + (s.aliens i).size.y ≥ s.player.position.y) :
    (loseScan l s).gameOver = true := by
  induction l generalizing s with
  | nil =>
    obtain ⟨i, hi, -⟩ := h
    cases hi
  | cons a l ih =>
    unfold loseScan
    by_cases hact : (s.aliens a).active = true
    · rw [if_pos hact]
      by_cases hr : (s.aliens a).position.y + (s.aliens a).size.y ≥ s.player.position.y
      · rw [if_pos hr]
      · rw [if_neg hr]
        obtain ⟨sh, hsh⟩ := alienVsShields_shape a s
        apply ih
        obtain ⟨i, hi, h1, h2⟩ := h
        rcases List.mem_cons.mp hi with rfl | hmem
        · exact absurd h2 hr
        · rw [hsh]
          exact ⟨i, hmem, h1, h2⟩
    · rw [if_neg hact]
      apply ih
      obtain ⟨i, hi, h1, h2⟩ := h
      rcases List.mem_cons.mp hi with rfl | hmem
      · exact absurd h1 hact
      · exact ⟨i, hmem, h1, h2⟩

/-- What `NextLevel` writes: the wave number, the swarm, the player position and shot flag,
the projectile flags, the UFO spawn timer and the shields. -/
theorem NextLevel_shape (env : Env) (s : GameState) :
    ∃ w t st rc bs ut sh, NextLevel env s =
      { s with
        currentWave := s.currentWave + 1
        aliens := fun j => initAlien env (alienRow j) (alienCol j) (s.aliens j)
        aliensAlive := 55
        alienMoveWaitTime := w
        alienMoveTimer := t
        alienDirection := 1
        moveDown := false
        alienMoveSoundIndex := 0
        alienShootTimer := st
        randCalls := rc
        player := { s.player with position := playerStartPosition s.player.size, shotActive := false }
        alienBullets := bs
        ufo := { s.ufo with spawnTimer := ut }
        shields := sh } := by
  obtain ⟨w, t, st, rc, h⟩ := InitAliens_shape env { s with currentWave := s.currentWave + 1 }
  unfold NextLevel InitShields GetRandomValue
  simp only []
  rw [h]
  exact ⟨_, _, _, _, _, _, _, rfl⟩

/-- What `CheckCollisions` may write; the death-explosion timer is kept while it is positive. -/
theorem CheckCollisions_shape (env : Env) (s : GameState) :
    ∃ a t al aa sc hs ex w u sh bs,
      CheckCollisions env s =
        { s with
          player := { s.player with shotActive := a, explosionTimer := t }
          aliens := al, aliensAlive := aa, score := sc, hiScore := hs, explosions := ex
          alienMoveWaitTime := w, ufo := u, shields := sh, alienBullets := bs } ∧
      (s.player.explosionTimer > 0 → t = s.player.explosionTimer) := by
  have hcc : CheckCollisions env s =
      alienShotsVsShields env (alienShotsVsPlayer (playerShotCollisions env s)) := rfl
  obtain ⟨bs2, sh2, ex2, h2⟩ := alienShotsVsShields_shape env
    (alienShotsVsPlayer (playerShotCollisions env s))
  have h1 : ∀ s0 : GameState, ∃ t bs, alienShotsVsPlayer s0 =
      { s0 with player := { s0.player with explosionTimer := t }, alienBullets := bs } ∧
      (s0.player.explosionTimer > 0 → t = s0.player.explosionTimer) := by
    intro s0
    by_cases ht : s0.player.explosionTimer ≤ 0
    · obtain ⟨t, bs, h⟩ := alienShotsVsPlayer_shape s0
      exact ⟨t, bs, h, fun hpos => absurd ht (not_le.mpr hpos)⟩
    · refine ⟨s0.player.explosionTimer, s0.alienBullets, ?_, fun _ => rfl⟩
      unfold alienShotsVsPlayer
      rw [if_neg ht]
  obtain ⟨t, bs, hv, ht⟩ := h1 (playerShotCollisions env s)
  rw [hcc, h2, hv]
  rcases playerShotCollisions_cases env s with ⟨i, -, hk⟩ | ⟨a, u, sc, hs, sh', ex', h⟩
  · obtain ⟨hs, ex', w, hshape⟩ := killAlien_shape env i s
    rw [hk, hshape] at ht ⊢
    exact ⟨_, _, _, _, _, _, _, _, _, _, _, rfl, ht⟩
  · rw [h] at ht ⊢
    exact ⟨_, _, _, _, _, _, _, _, _, _, _, rfl, ht⟩

/-- After the player branch, the frame up to the collision pass leaves lives, position, size
and the game-over flag alone, and keeps a positive death-explosion timer. -/
theorem updateToCollisions_player (env : Env) (inp : Input) (s : GameState) :
    (updateToCollisions env inp s).player.lives = (updatePlayer inp s).player.lives ∧
    (updateToCollisions env inp s).player.position = (updatePlayer inp s).player.position ∧
    (updateToCollisions env inp s).player.size = (updatePlayer inp s).player.size ∧
    (updateToCollisions env inp s).gameOver = (updatePlayer inp s).gameOver ∧
    ((updatePlayer inp s).player.explosionTimer > 0 →
      (updateToCollisions env inp s).player.explosionTimer =
        (updatePlayer inp s).player.explosionTimer) := by
  generalize hp : updatePlayer inp s = s1
  have hutc : updateToCollisions env inp s =
      CheckCollisions env (UpdateExplosions inp.frameTime (UpdateUFO env inp.frameTime
        (UpdateBullets env inp (UpdateAliens env inp.frameTime s1)))) := by
    rw [← hp]
    rfl
  obtain ⟨mt, md, dir, al, si, st, rc, bs, h2, -⟩ := UpdateAliens_shape env inp.frameTime s1
  obtain ⟨a, q, bs2, sh, ex, h3⟩ := UpdateBullets_shape env inp (UpdateAliens env inp.frameTime s1)
  obtain ⟨u, rc2, h4⟩ := UpdateUFO_shape env inp.frameTime
    (UpdateBullets env inp (UpdateAliens env inp.frameTime s1))
  obtain ⟨a5, t5, al5, aa5, sc5, hs5, ex5, w5, u5, sh5, bs5, h5, ht5⟩ := CheckCollisions_shape env
    (UpdateExplosions inp.frameTime (UpdateUFO env inp.frameTime
      (UpdateBullets env inp (UpdateAliens env inp.frameTime s1))))
  simp only [UpdateExplosions] at h5 ht5 hutc
  rw [h4, h3, h2] at h5 ht5 hutc
  rw [hutc, h5]
  refine ⟨rfl, rfl, rfl, rfl, fun hpos => ?_⟩
  exact ht5 hpos

/-- The lose-condition scan never clears `gameOver`. -/
theorem loseScan_keeps_gameOver (l : List (Fin NUM_ALIENS)) (s : GameState)
    (h : s.gameOver = true) : (loseScan l s).gameOver = true := by
  induction l generalizing s with
  | nil => exact h
  | cons a l ih =>
    unfold loseScan
    split_ifs
    · rfl
    · obtain ⟨sh, hsh⟩ := alienVsShields_shape a s
      apply ih
      rw [hsh]
      exact h
    · exact ih s h

/-- The expiry branch of the death-explosion countdown. -/
theorem updatePlayer_expiry (inp : Input) (s : GameState) (h1 : s.player.explosionTimer > 0)
    (h2 : s.player.explosionTimer - inp.frameTime ≤ 0) :
    (updatePlayer inp s).player.lives = s.player.lives - 1 ∧
    (updatePlayer inp s).player.size = s.player.size ∧
    (updatePlayer inp s).player.explosionTimer = s.player.explosionTimer - inp.frameTime ∧
    (s.player.lives - 1 ≤ 0 →
      (updatePlayer inp s).gameOver = true ∧
      (updatePlayer inp s).player.position = s.player.position) ∧
    (¬ s.player.lives - 1 ≤ 0 →
      (updatePlayer inp s).gameOver = s.gameOver ∧
      (updatePlayer inp s).player.position = playerStartPosition s.player.size) := by
  unfold updatePlayer
  rw [if_neg (not_le.mpr h1)]
  simp only []
  rw [if_pos h2]
  by_cases hl : s.player.lives - 1 ≤ 0
  · rw [if_pos hl]
    exact ⟨rfl, rfl, rfl, fun _ => ⟨rfl, rfl⟩, fun h => absurd hl h⟩
  · rw [if_neg hl]
    exact ⟨rfl, rfl, rfl, fun h => absurd h hl, fun _ => ⟨rfl, rfl⟩⟩

/-- The countdown branch while the death-explosion timer stays positive. -/
theorem updatePlayer_countdown (inp : Input) (s : GameState) (h1 : s.player.explosionTimer > 0)
    (h2 : s.player.explosionTimer - inp.frameTime > 0) :
    updatePlayer inp s =
      { s with player := { s.player with explosionTimer := s.player.explosionTimer - inp.frameTime } } := by
  unfold updatePlayer
  rw [if_neg (not_le.mpr h1)]
  simp only []
  rw [if_neg (not_le.mpr h2)]

/-- The win check keeps lives and the game-over flag; it moves the player only to the
respawn position and only when the player is not exploding. -/
theorem checkWin_player (env : Env) (c : GameState) :
    (checkWin env c).player.lives = c.player.lives ∧
    (checkWin env c).gameOver = c.gameOver ∧
    ((checkWin env c).player.position = c.player.position ∨
      (c.player.explosionTimer ≤ 0 ∧
        (checkWin env c).player.position = playerStartPosition c.player.size)) := by
  unfold checkWin
  split_ifs with h
  · obtain ⟨w, t, st, rc, bs, ut, sh, hn⟩ := NextLevel_shape env c
    rw [hn]
    exact ⟨rfl, rfl, Or.inr ⟨h.2.2, rfl⟩⟩
  · exact ⟨rfl, rfl, Or.inl rfl⟩

/-! ## Auxiliary lemmas: the player-shot chain and the projectile-versus-player step -/

theorem shotVsUFO_some (r : Rectangle) (s s' : GameState) (h : shotVsUFO r s = some s') :
    (s.ufo.active = true ∧ s.ufo.exploding = false ∧ CheckCollisionRecs r (ufoRect s.ufo) = true) ∧
    ∃ hs, s' =
      { s with
        player := { s.player with shotActive := false }
        ufo := { s.ufo with exploding := true, explosionTimer := 1 / 2 }
        score := s.score + UFO_POINTS
        hiScore := hs } := by
  unfold shotVsUFO raiseHiScore at h
  simp only [] at h
  split_ifs at h with h1 h2 h3
  · exact ⟨⟨h1.1, by simpa using h1.2, h2⟩, _, (Option.some.inj h).symm⟩
  · exact ⟨⟨h1.1, by simpa using h1.2, h2⟩, _, (Option.some.inj h).symm⟩

/-- The four ways the player-shot chain of `CheckCollisions` can end. -/
theorem playerShotCollisions_outcome (env : Env) (s : GameState) :
    (∃ i, ((s.aliens i).active = true ∧
        CheckCollisionRecs (shotRect s.player) (alienRect (s.aliens i)) = true) ∧
      playerShotCollisions env s = killAlien env i s) ∨
    ((s.ufo.active = true ∧ s.ufo.exploding = false ∧
        CheckCollisionRecs (shotRect s.player) (ufoRect s.ufo) = true) ∧
      ∃ hs, playerShotCollisions env s =
        { s with
          player := { s.player with shotActive := false }
          ufo := { s.ufo with exploding := true, explosionTimer := 1 / 2 }
          score := s.score + UFO_POINTS
          hiScore := hs }) ∨
    (∃ a sh ex, playerShotCollisions env s =
      { s with player := { s.player with shotActive := a }, shields := sh, explosions := ex }) := by
  unfold playerShotCollisions
  split_ifs
  · simp only []
    cases h1 : shotVsAliens env (shotRect s.player) (List.finRange NUM_ALIENS) s with
    | some s1 =>
      obtain ⟨i, hi, hc, hk⟩ := shotVsAliens_some env _ _ s s1 h1
      exact Or.inl ⟨i, ⟨hi, hc⟩, hk⟩
    | none =>
      right
      cases h2 : shotVsUFO (shotRect s.player) s with
      | some s2 =>
        obtain ⟨hu, hs, h⟩ := shotVsUFO_some _ s s2 h2
        exact Or.inl ⟨hu, hs, h⟩
      | none =>
        right
        cases h3 : shotVsShields env (shotRect s.player) (List.finRange NUM_SHIELDS) s with
        | some s3 =>
          obtain ⟨a, sh, ex, h⟩ := shotVsShields_shape env _ _ s s3 h3
          exact ⟨a, sh, ex, h⟩
        | none => exact ⟨s.player.shotActive, s.shields, s.explosions, rfl⟩
  · exact Or.inr (Or.inr ⟨s.player.shotActive, s.shields, s.explosions, rfl⟩)

/-- Steps 4 and 5 of `CheckCollisions` leave the score, the UFO and the aliens alone. -/
theorem alienShotPasses_score_ufo (env : Env) (s : GameState) :
    (alienShotsVsShields env (alienShotsVsPlayer s)).score = s.score ∧
    (alienShotsVsShields env (alienShotsVsPlayer s)).ufo = s.ufo ∧
    (alienShotsVsShields env (alienShotsVsPlayer s)).aliens = s.aliens := by
  obtain ⟨t, bs, h1⟩ := alienShotsVsPlayer_shape s
  obtain ⟨bs2, sh, ex, h2⟩ := alienShotsVsShields_shape env (alienShotsVsPlayer s)
  rw [h2, h1]
  exact ⟨rfl, rfl, rfl⟩

/-- When the active shot overlaps an active alien, the chain kills the lowest-index one. -/
theorem playerShotCollisions_kill (env : Env) (s : GameState) (hshot : s.player.shotActive = true)
    (hhit : ∃ i, (s.aliens i).active = true ∧
      CheckCollisionRecs (shotRect s.player) (alienRect (s.aliens i)) = true) :
    ∃ i0, ((s.aliens i0).active = true ∧
        CheckCollisionRecs (shotRect s.player) (alienRect (s.aliens i0)) = true ∧
        ∀ j, j < i0 → ¬ ((s.aliens j).active = true ∧
          CheckCollisionRecs (shotRect s.player) (alienRect (s.aliens j)) = true)) ∧
      playerShotCollisions env s = killAlien env i0 s := by
  obtain ⟨i0, hi0, hlow⟩ := exists_lowest_true
    (fun i => (s.aliens i).active && CheckCollisionRecs (shotRect s.player) (alienRect (s.aliens i)))
    (by obtain ⟨i, h1, h2⟩ := hhit; exact ⟨i, by simp [h1, h2]⟩)
  have hfind := find?_finRange_lowest _ i0 hi0 hlow
  have hi0' : (s.aliens i0).active = true ∧
      CheckCollisionRecs (shotRect s.player) (alienRect (s.aliens i0)) = true := by
    simpa using hi0
  refine ⟨i0, ⟨hi0'.1, hi0'.2, fun j hj hc => ?_⟩, ?_⟩
  · have := hlow j hj
    simp [hc.1, hc.2] at this
  · unfold playerShotCollisions
    rw [if_pos hshot]
    simp only []
    rw [shotVsAliens_eq, hfind]
    rfl

theorem bulletsVsPlayer_eq (rect : Rectangle) (l : List (Fin MAX_ALIEN_BULLETS)) (s : GameState) :
    bulletsVsPlayer rect l s =
      match l.find? (fun i => (s.alienBullets i).active &&
          CheckCollisionRecs (bulletRect (s.alienBullets i)) rect) with
      | some i =>
        { s with
          alienBullets := Function.update s.alienBullets i { s.alienBullets i with active := false }
          player := { s.player with explosionTimer := 1 } }
      | none => s := by
  induction l with
  | nil => rfl
  | cons a l ih =>
    unfold bulletsVsPlayer
    by_cases h : (s.alienBullets a).active = true ∧
        CheckCollisionRecs (bulletRect (s.alienBullets a)) rect = true
    · rw [if_pos h, List.find?_cons_of_pos _ (by simp [h.1, h.2])]
    · rw [if_neg h, List.find?_cons_of_neg _ (by simpa using h), ih]

/-! ## Auxiliary lemmas: step 5 of the collision pass -/

theorem alienShotsVsShields_eq_foldl (env : Env) (s : GameState) :
    alienShotsVsShields env s = (List.finRange MAX_ALIEN_BULLETS).foldl (shieldPassStep env) s :=
  rfl

theorem playerShotCollisions_inactive (env : Env) (s : GameState)
    (h : s.player.shotActive = false) : playerShotCollisions env s = s := by
  unfold playerShotCollisions
  rw [if_neg (by simp [h])]

/-- The shield loop for projectile `i` leaves every other projectile slot alone. -/
theorem bulletVsShields_other (env : Env) (i j : Fin MAX_ALIEN_BULLETS) (hj : j ≠ i)
    (rect : Rectangle) (l : List (Fin NUM_SHIELDS)) (s : GameState) :
    (bulletVsShields env i rect l s).alienBullets j = s.alienBullets j := by
  induction l with
  | nil => rfl
  | cons a l ih =>
    unfold bulletVsShields
    simp only []
    split_ifs
    · obtain ⟨sh, h⟩ := DamageShield_shape a (bulletBottom rect)
        { s with
          alienBullets := Function.update s.alienBullets i { s.alienBullets i with active := false } }
      rw [h]
      exact Function.update_noteq hj _ _
    · exact ih
    · exact ih

theorem shieldPassStep_inactive (env : Env) (s : GameState) (i : Fin MAX_ALIEN_BULLETS)
    (h : (s.alienBullets i).active = false) : shieldPassStep env s i = s := by
  unfold shieldPassStep
  rw [if_pos (by simp [h])]

theorem shieldPassStep_other (env : Env) (s : GameState) (i j : Fin MAX_ALIEN_BULLETS)
    (hj : j ≠ i) : (shieldPassStep env s i).alienBullets j = s.alienBullets j := by
  unfold shieldPassStep
  split_ifs
  · rfl
  · exact bulletVsShields_other env i j hj _ _ s

/-- Step 5 passes over an inactive projectile slot as if the slot were not in the loop. -/
theorem shieldPass_skip (env : Env) (i : Fin MAX_ALIEN_BULLETS) (l : List (Fin MAX_ALIEN_BULLETS))
    (s : GameState) (h : (s.alienBullets i).active = false) :
    l.foldl (shieldPassStep env) s = (l.filter (fun j => decide (j ≠ i))).foldl (shieldPassStep env) s := by
  induction l generalizing s with
  | nil => rfl
  | cons a l ih =>
    by_cases ha : a = i
    · subst ha
      rw [List.foldl_cons, shieldPassStep_inactive env s a h, List.filter_cons_of_neg (by simp)]
      exact ih s h
    · rw [List.foldl_cons, List.filter_cons_of_pos (by simpa using ha), List.foldl_cons]
      apply ih
      rw [shieldPassStep_other env s a i (fun e => ha e.symm)]
      exact h

/-- With no active projectile step 5 changes nothing. -/
theorem shieldPass_none_active (env : Env) (l : List (Fin MAX_ALIEN_BULLETS)) (s : GameState)
    (h : ∀ j, (s.alienBullets j).active = false) : l.foldl (shieldPassStep env) s = s := by
  induction l with
  | nil => rfl
  | cons a l ih => rw [List.foldl_cons, shieldPassStep_inactive env s a (h a), ih]

/-- The projectile that step 4 resolves against the player. -/
theorem alienShotsVsPlayer_hit (s : GameState) (i : Fin MAX_ALIEN_BULLETS)
    (ht : s.player.explosionTimer ≤ 0) (hact : (s.alienBullets i).active = true)
    (hcol : CheckCollisionRecs (bulletRect (s.alienBullets i)) (playerRect s.player) = true)
    (hlow : ∀ j, j < i → ¬ ((s.alienBullets j).active = true ∧
      CheckCollisionRecs (bulletRect (s.alienBullets j)) (playerRect s.player) = true)) :
    alienShotsVsPlayer s =
      { s with
        alienBullets := Function.update s.alienBullets i { s.alienBullets i with active := false }
        player := { s.player with explosionTimer := 1 } } := by
  have hfind := find?_finRange_lowest
    (fun i => (s.alienBullets i).active &&
      CheckCollisionRecs (bulletRect (s.alienBullets i)) (playerRect s.player)) i
    (by simp [hact, hcol])
    (fun j hj => by
      have := hlow j hj
      by_contra hc
      simp only [Bool.not_eq_false, Bool.and_eq_true] at hc
      exact this hc)
  unfold alienShotsVsPlayer
  rw [if_pos ht]
  have hb := bulletsVsPlayer_eq (playerRect s.player) (List.finRange MAX_ALIEN_BULLETS) s
  rw [hfind] at hb
  exact hb

/-- After step 4 resolved projectile `i` against the player, step 5 does not test it: the
slot is inactive, step 5 is the loop over the other slots, and with no other active
projectile step 5 changes nothing. -/
theorem hitProjectile_skips_shields (env : Env) (s : GameState) (i : Fin MAX_ALIEN_BULLETS)
    (ht : s.player.explosionTimer ≤ 0) (hact : (s.alienBullets i).active = true)
    (hcol : CheckCollisionRecs (bulletRect (s.alienBullets i)) (playerRect s.player) = true)
    (hlow : ∀ j, j < i → ¬ ((s.alienBullets j).active = true ∧
      CheckCollisionRecs (bulletRect (s.alienBullets j)) (playerRect s.player) = true)) :
    ((alienShotsVsPlayer s).alienBullets i).active = false ∧
    alienShotsVsShields env (alienShotsVsPlayer s) =
      ((List.finRange MAX_ALIEN_BULLETS).filter (fun j => decide (j ≠ i))).foldl
        (shieldPassStep env) (alienShotsVsPlayer s) ∧
    ((∀ j, j ≠ i → (s.alienBullets j).active = false) →
      alienShotsVsShields env (alienShotsVsPlayer s) = alienShotsVsPlayer s ∧
      (alienShotsVsShields env (alienShotsVsPlayer s)).shields = s.shields ∧
      (alienShotsVsShields env (alienShotsVsPlayer s)).explosions = s.explosions) := by
  have heq := alienShotsVsPlayer_hit s i ht hact hcol hlow
  have hin : ((alienShotsVsPlayer s).alienBullets i).active = false := by
    rw [heq]
    simp
  refine ⟨hin, ?_, fun hothers => ?_⟩
  · rw [alienShotsVsShields_eq_foldl]
    exact shieldPass_skip env i _ _ hin
  · have hall : ∀ j, ((alienShotsVsPlayer s).alienBullets j).active = false := by
      intro j
      by_cases hj : j = i
      · rw [hj]
        exact hin
      · rw [heq]
        simp only [Function.update_noteq hj]
        exact hothers j hj
    have hnone := shieldPass_none_active env (List.finRange MAX_ALIEN_BULLETS) _ hall
    rw [alienShotsVsShields_eq_foldl, hnone]
    refine ⟨rfl, ?_, ?_⟩ <;> rw [heq]

/-! ## Auxiliary lemmas: the move wait time -/

theorem speedUpSwarm_waitTime (s : GameState) :
    (speedUpSwarm s).alienMoveWaitTime = max (ALIEN_MOVE_SPEEDUP_FACTOR * s.alienMoveWaitTime) (5 / 100) := by
  unfold speedUpSwarm
  simp only []
  split_ifs with h
  · show (5 / 100 : ℚ) = _
    rw [max_eq_right]
    rw [mul_comm]
    exact le_of_lt h
  · show s.alienMoveWaitTime * ALIEN_MOVE_SPEEDUP_FACTOR = _
    rw [max_eq_left, mul_comm]
    rw [mul_comm]
    exact not_lt.mp h

theorem killAlien_waitTime (env : Env) (i : Fin NUM_ALIENS) (s : GameState) :
    (killAlien env i s).alienMoveWaitTime =
      max (ALIEN_MOVE_SPEEDUP_FACTOR * s.alienMoveWaitTime) (5 / 100) := by
  unfold killAlien
  rw [speedUpSwarm_waitTime]
  unfold SpawnExplosion raiseHiScore scoreAlien
  simp only []
  split_ifs <;> rfl

/-- Steps 4 and 5 of `CheckCollisions` leave the move wait time alone. -/
theorem alienShotPasses_waitTime (env : Env) (s : GameState) :
    (alienShotsVsShields env (alienShotsVsPlayer s)).alienMoveWaitTime = s.alienMoveWaitTime := by
  obtain ⟨t, bs, h1⟩ := alienShotsVsPlayer_shape s
  obtain ⟨bs2, sh, ex, h2⟩ := alienShotsVsShields_shape env (alienShotsVsPlayer s)
  rw [h2, h1]

/-- The wait time that `InitAliens` sets for the current wave. -/
theorem InitAliens_waitTime (env : Env) (s : GameState) :
    (InitAliens env s).alienMoveWaitTime =
      ALIEN_MOVE_WAIT_TIME_START / (1 + ((s.currentWave - 1 : Int) : ℚ) * (2 / 10)) ∧
    (InitAliens env s).alienMoveTimer =
      ALIEN_MOVE_WAIT_TIME_START / (1 + ((s.currentWave - 1 : Int) : ℚ) * (2 / 10)) ∧
    (InitAliens env s).currentWave = s.currentWave := by
  unfold InitAliens GetRandomValue
  simp only []
  rw [initGrid_eq]
  exact ⟨rfl, rfl, rfl⟩

/-- The wave number and start wait time after one wave transition. -/
theorem NextLevel_waitTime (env : Env) (s : GameState) :
    (NextLevel env s).currentWave = s.currentWave + 1 ∧
    (NextLevel env s).alienMoveWaitTime =
      ALIEN_MOVE_WAIT_TIME_START / (1 + ((s.currentWave : ℚ)) * (2 / 10)) := by
  obtain ⟨h1, -, -⟩ := InitAliens_waitTime env { s with currentWave := s.currentWave + 1 }
  have hw : (NextLevel env s).alienMoveWaitTime =
      (InitAliens env { s with currentWave := s.currentWave + 1 }).alienMoveWaitTime := by
    unfold NextLevel InitShields GetRandomValue
    rfl
  refine ⟨(NextLevel_swarm env s).1, ?_⟩
  rw [hw, h1]
  simp

theorem iterate_NextLevel_currentWave (env : Env) (k : Nat) (s : GameState) :
    ((NextLevel env)^[k] s).currentWave = s.currentWave + (k : Int) := by
  induction k with
  | zero => simp
  | succ n ih =>
    rw [Function.iterate_succ_apply', (NextLevel_waitTime env _).1, ih]
    push_cast
    ring

theorem InitGame_currentWave (env : Env) (s : GameState) : (InitGame env s).currentWave = 1 := by
  unfold InitGame InitShields
  simp only []
  rw [(InitAliens_waitTime env _).2.2]
  rfl

/-! ## Auxiliary lemmas: the shooting scheduler -/

theorem GetRandomValue_range (env : Env) (lo hi : Int) (s : GameState) (h : lo ≤ hi) :
    lo ≤ (GetRandomValue env lo hi s).1 ∧ (GetRandomValue env lo hi s).1 ≤ hi := by
  unfold GetRandomValue
  simp only [if_neg (not_lt.mpr h)]
  have habs : (((hi - lo).natAbs : Int)) = hi - lo := Int.natAbs_of_nonneg (by omega)
  rw [habs]
  have h1 := Int.emod_nonneg (env.rand s.randCalls : Int) (by omega : hi - lo + 1 ≠ 0)
  have h2 := Int.emod_lt_of_pos (env.rand s.randCalls : Int) (by omega : 0 < hi - lo + 1)
  constructor <;> omega

theorem GetRandomValue_fst_congr (env : Env) (lo hi : Int) (s s' : GameState)
    (h : s.randCalls = s'.randCalls) :
    (GetRandomValue env lo hi s).1 = (GetRandomValue env lo hi s').1 := by
  unfold GetRandomValue
  simp only [h]

theorem shootInterval_bounds :
    truncToInt (ALIEN_SHOOT_INTERVAL_MIN * 100) = 50 ∧
      truncToInt (ALIEN_SHOOT_INTERVAL_MAX * 100) = 200 := by
  constructor <;> decide!

/-- The selection loop draws at most once per remaining try. -/
theorem shooterLoop_randCalls (env : Env) (n : Nat) (s : GameState) :
    s.randCalls ≤ (shooterLoop env n s).randCalls ∧
      (shooterLoop env n s).randCalls ≤ s.randCalls + n := by
  induction n generalizing s with
  | zero => exact ⟨le_refl _, le_refl _⟩
  | succ n ih =>
    unfold shooterLoop
    simp only []
    split_ifs
    · show s.randCalls ≤ s.randCalls + 1 ∧ s.randCalls + 1 ≤ s.randCalls + (n + 1)
      omega
    · obtain ⟨h1, h2⟩ := ih (GetRandomValue env 0 ((NUM_ALIENS : Int) - 1) s).2
      have hr : (GetRandomValue env 0 ((NUM_ALIENS : Int) - 1) s).2.randCalls = s.randCalls + 1 := rfl
      rw [hr] at h1 h2
      omega

/-- The selection loop spawns at most one projectile. -/
theorem shooterLoop_count (env : Env) (n : Nat) (s : GameState) :
    activeBulletCount (shooterLoop env n s) ≤ activeBulletCount s + 1 := by
  induction n generalizing s with
  | zero => exact Nat.le_succ _
  | succ n ih =>
    unfold shooterLoop
    simp only []
    split_ifs
    · have hc : activeBulletCount (GetRandomValue env 0 ((NUM_ALIENS : Int) - 1) s).2 =
          activeBulletCount s := rfl
      rcases SpawnAlienShot_count
          ⟨((GetRandomValue env 0 ((NUM_ALIENS : Int) - 1) s).2.aliens
                (alienSlot (GetRandomValue env 0 ((NUM_ALIENS : Int) - 1) s).1)).position.x +
              ((GetRandomValue env 0 ((NUM_ALIENS : Int) - 1) s).2.aliens
                (alienSlot (GetRandomValue env 0 ((NUM_ALIENS : Int) - 1) s).1)).size.x / 2 -
            ((GetRandomValue env 0 ((NUM_ALIENS : Int) - 1) s).2.alienBullets ⟨0, by decide⟩).size.x / 2,
            ((GetRandomValue env 0 ((NUM_ALIENS : Int) - 1) s).2.aliens
                (alienSlot (GetRandomValue env 0 ((NUM_ALIENS : Int) - 1) s).1)).position.y +
              ((GetRandomValue env 0 ((NUM_ALIENS : Int) - 1) s).2.aliens
                (alienSlot (GetRandomValue env 0 ((NUM_ALIENS : Int) - 1) s).1)).size.y⟩
          (GetRandomValue env 0 ((NUM_ALIENS : Int) - 1) s).2 with ⟨h1, -⟩ | ⟨h1, -⟩
      · rw [h1, hc]
      · rw [h1, hc]
        exact Nat.le_succ _
    · exact ih _

/-- When every draw selects an inactive alien the loop only consumes its draws. -/
theorem shooterLoop_all_inactive (env : Env) (n : Nat) (s : GameState)
    (h : ∀ k : Nat, k < n →
      (s.aliens (alienSlot (GetRandomValue env 0 ((NUM_ALIENS : Int) - 1)
        { s with randCalls := s.randCalls + k }).1)).active = false) :
    shooterLoop env n s = { s with randCalls := s.randCalls + n } := by
  induction n generalizing s with
  | zero => rfl
  | succ n ih =>
    unfold shooterLoop
    simp only []
    have h0 := h 0 (Nat.succ_pos n)
    have hd : (GetRandomValue env 0 ((NUM_ALIENS : Int) - 1) { s with randCalls := s.randCalls + 0 }).1 =
        (GetRandomValue env 0 ((NUM_ALIENS : Int) - 1) s).1 :=
      GetRandomValue_fst_congr env _ _ _ _ rfl
    rw [hd] at h0
    have hcond : ¬ ((GetRandomValue env 0 ((NUM_ALIENS : Int) - 1) s).2.aliens
        (alienSlot (GetRandomValue env 0 ((NUM_ALIENS : Int) - 1) s).1)).active = true := by
      show ¬ (s.aliens (alienSlot (GetRandomValue env 0 ((NUM_ALIENS : Int) - 1) s).1)).active = true
      rw [h0]
      simp
    rw [if_neg hcond, ih]
    · show ({ s with randCalls := s.randCalls + 1 + n } : GameState) = _
      rw [Nat.add_assoc, Nat.add_comm 1 n]
    · intro k hk
      have := h (k + 1) (Nat.succ_lt_succ hk)
      have hd2 : (GetRandomValue env 0 ((NUM_ALIENS : Int) - 1)
          { (GetRandomValue env 0 ((NUM_ALIENS : Int) - 1) s).2 with
            randCalls := (GetRandomValue env 0 ((NUM_ALIENS : Int) - 1) s).2.randCalls + k }).1 =
          (GetRandomValue env 0 ((NUM_ALIENS : Int) - 1)
            { s with randCalls := s.randCalls + (k + 1) }).1 :=
        GetRandomValue_fst_congr env _ _ _ _ (by
          show s.randCalls + 1 + k = s.randCalls + (k + 1)
          omega)
      rw [hd2]
      exact this

/-- The scheduler when it fires: the loop runs, then one draw reschedules the timer. -/
theorem alienShoot_fire (env : Env) (delta : ℚ) (s : GameState)
    (h1 : s.alienShootTimer - delta ≤ 0) (h2 : s.aliensAlive > 0) :
    (alienShoot env delta s).alienShootTimer =
      max (1 / 10)
        ((((GetRandomValue env 50 200
          (shooterLoop env NUM_ALIENS { s with alienShootTimer := s.alienShootTimer - delta })).1 : ℚ) /
            100) * shootIntervalMultiplier s.aliensAlive) ∧
    (alienShoot env delta s).alienBullets =
      (shooterLoop env NUM_ALIENS { s with alienShootTimer := s.alienShootTimer - delta }).alienBullets ∧
    (alienShoot env delta s).randCalls =
      (shooterLoop env NUM_ALIENS { s with alienShootTimer := s.alienShootTimer - delta }).randCalls + 1 := by
  obtain ⟨rc, bs, hsh⟩ := shooterLoop_shape env NUM_ALIENS
    { s with alienShootTimer := s.alienShootTimer - delta }
  unfold alienShoot
  simp only []
  rw [if_pos ⟨h1, h2⟩, shootInterval_bounds.1, shootInterval_bounds.2]
  generalize shooterLoop env NUM_ALIENS { s with alienShootTimer := s.alienShootTimer - delta } = s1
    at hsh ⊢
  have ha : s1.aliensAlive = s.aliensAlive := by rw [hsh]
  rw [ha]
  split_ifs with hlt
  · refine ⟨?_, rfl, rfl⟩
    show (1 / 10 : ℚ) = _
    rw [max_eq_left]
    exact le_of_lt hlt
  · refine ⟨?_, rfl, rfl⟩
    show ((GetRandomValue env 50 200 s1).1 : ℚ) / 100 *
      ((s.aliensAlive : ℚ) / (NUM_ALIENS : ℚ) * (1 / 2) + 1 / 2) = _
    rw [max_eq_right]
    · rfl
    · exact not_lt.mp hlt

/-- The scheduler when the timer expired with no alien alive: only the timer is decremented. -/
theorem alienShoot_idle (env : Env) (delta : ℚ) (s : GameState) (h2 : s.aliensAlive ≤ 0) :
    alienShoot env delta s = { s with alienShootTimer := s.alienShootTimer - delta } := by
  unfold alienShoot
  simp only []
  rw [if_neg (fun h => absurd h.2 (not_lt.mpr h2))]

/-- `UpdateAliens` is the shooting scheduler run after the swarm step, which changes no
active flag, no projectile, no draw count and not the shoot timer. -/
theorem UpdateAliens_eq_alienShoot (env : Env) (delta : ℚ) (s : GameState) :
    ∃ sA, UpdateAliens env delta s = alienShoot env delta sA ∧
      sA.alienShootTimer = s.alienShootTimer ∧ sA.aliensAlive = s.aliensAlive ∧
      sA.randCalls = s.randCalls ∧ sA.alienBullets = s.alienBullets ∧
      ∀ i, (sA.aliens i).active = (s.aliens i).active := by
  unfold UpdateAliens
  simp only []
  split_ifs
  · obtain ⟨md, dir, si, t, h1⟩ := alienStep_shape { s with alienMoveTimer := s.alienMoveTimer - delta }
    refine ⟨_, rfl, ?_, ?_, ?_, ?_, fun i => ?_⟩ <;> rw [h1]
    exact movedAlien_active md dir _
  · exact ⟨_, rfl, rfl, rfl, rfl, rfl, fun _ => rfl⟩

/-! ## Auxiliary lemmas: the player-shot chain without enemy projectiles -/

/-- With no active enemy projectile, steps 4 and 5 of `CheckCollisions` change nothing. -/
theorem enemyPasses_no_bullets (env : Env) (s : GameState)
    (h : ∀ j, (s.alienBullets j).active = false) :
    alienShotsVsShields env (alienShotsVsPlayer s) = s := by
  have h4 : alienShotsVsPlayer s = s := by
    unfold alienShotsVsPlayer
    split_ifs
    · have hb := bulletsVsPlayer_eq (playerRect s.player) (List.finRange MAX_ALIEN_BULLETS) s
      have hnone : (List.finRange MAX_ALIEN_BULLETS).find? (fun i => (s.alienBullets i).active &&
          CheckCollisionRecs (bulletRect (s.alienBullets i)) (playerRect s.player)) = none := by
        rw [List.find?_eq_none]
        intro i _ hc
        simp [h i] at hc
      rw [hnone] at hb
      exact hb
    · rfl
  rw [h4, alienShotsVsShields_eq_foldl]
  exact shieldPass_none_active env _ s h

/-- When the active shot overlaps no active alien but overlaps the flying, non-exploding UFO,
the chain ends at step 2. -/
theorem playerShotCollisions_ufo (env : Env) (s : GameState) (hshot : s.player.shotActive = true)
    (hno : ∀ i, ¬ ((s.aliens i).active = true ∧
      CheckCollisionRecs (shotRect s.player) (alienRect (s.aliens i)) = true))
    (hu : s.ufo.active = true ∧ s.ufo.exploding = false ∧
      CheckCollisionRecs (shotRect s.player) (ufoRect s.ufo) = true) :
    ∃ hs, playerShotCollisions env s =
      { s with
        player := { s.player with shotActive := false }
        ufo := { s.ufo with exploding := true, explosionTimer := 1 / 2 }
        score := s.score + UFO_POINTS
        hiScore := hs } := by
  have hnone : (List.finRange NUM_ALIENS).find? (fun i => (s.aliens i).active &&
      CheckCollisionRecs (shotRect s.player) (alienRect (s.aliens i))) = none := by
    rw [List.find?_eq_none]
    intro i _ hc
    exact hno i (by simpa using hc)
  have hsome : ∃ s2, shotVsUFO (shotRect s.player) s = some s2 := by
    unfold shotVsUFO
    have hu3 : CheckCollisionRecs (shotRect s.player)
        ⟨s.ufo.position.x, s.ufo.position.y, s.ufo.size.x, s.ufo.size.y⟩ = true := hu.2.2
    rw [if_pos ⟨hu.1, by simp [hu.2.1]⟩, if_pos hu3]
    exact ⟨_, rfl⟩
  obtain ⟨s2, h2⟩ := hsome
  obtain ⟨-, hs, h⟩ := shotVsUFO_some _ s s2 h2
  refine ⟨hs, ?_⟩
  rw [← h]
  unfold playerShotCollisions
  rw [if_pos hshot]
  simp only []
  rw [shotVsAliens_eq, hnone, h2]
  rfl

/-! ## Auxiliary lemmas: the UFO -/

/-- What `SpawnUFO` leaves in the UFO record. -/
theorem SpawnUFO_ufo (env : Env) (s : GameState) :
    (SpawnUFO env s).ufo.active = true ∧ (SpawnUFO env s).ufo.exploding = false ∧
    (SpawnUFO env s).ufo.position.y = 50 ∧
    (((SpawnUFO env s).ufo.position.x = -s.ufo.size.x ∧ (SpawnUFO env s).ufo.speed = UFO_SPEED) ∨
      ((SpawnUFO env s).ufo.position.x = (SCREEN_WIDTH : ℚ) ∧
        (SpawnUFO env s).ufo.speed = -UFO_SPEED)) ∧
    (SpawnUFO env s).ufo.size = s.ufo.size := by
  unfold SpawnUFO
  simp only []
  split_ifs
  · exact ⟨rfl, rfl, rfl, Or.inl ⟨rfl, rfl⟩, rfl⟩
  · exact ⟨rfl, rfl, rfl, Or.inr ⟨rfl, rfl⟩, rfl⟩

/-- The idle branch of `UpdateUFO`. -/
theorem UpdateUFO_idle (env : Env) (delta : ℚ) (s : GameState) (h : s.ufo.active = false) :
    UpdateUFO env delta s =
      if s.ufo.spawnTimer - delta ≤ 0 then
        SpawnUFO env { s with ufo := { s.ufo with spawnTimer := s.ufo.spawnTimer - delta } }
      else { s with ufo := { s.ufo with spawnTimer := s.ufo.spawnTimer - delta } } := by
  unfold UpdateUFO
  rw [if_pos (by simp [h])]

/-- The range of the spawn-interval draw `GetRandomValue (3000, 24000) / 100`. -/
theorem spawnInterval_range (env : Env) (s : GameState) :
    UFO_SPAWN_INTERVAL_MIN ≤
        ((GetRandomValue env (truncToInt (UFO_SPAWN_INTERVAL_MIN * 100))
          (truncToInt (UFO_SPAWN_INTERVAL_MAX * 100)) s).1 : ℚ) / 100 ∧
      ((GetRandomValue env (truncToInt (UFO_SPAWN_INTERVAL_MIN * 100))
          (truncToInt (UFO_SPAWN_INTERVAL_MAX * 100)) s).1 : ℚ) / 100 ≤ UFO_SPAWN_INTERVAL_MAX := by
  have h1 : truncToInt (UFO_SPAWN_INTERVAL_MIN * 100) = 3000 := by
    simp only [UFO_SPAWN_INTERVAL_MIN, truncToInt]
    norm_num
  have h2 : truncToInt (UFO_SPAWN_INTERVAL_MAX * 100) = 24000 := by
    simp only [UFO_SPAWN_INTERVAL_MAX, truncToInt]
    norm_num
  rw [h1, h2]
  obtain ⟨hr1, hr2⟩ := GetRandomValue_range env 3000 24000 s (by decide)
  generalize (GetRandomValue env 3000 24000 s).1 = r at hr1 hr2
  have q1 : (3000 : ℚ) ≤ (r : ℚ) := by exact_mod_cast hr1
  have q2 : (r : ℚ) ≤ 24000 := by exact_mod_cast hr2
  simp only [UFO_SPAWN_INTERVAL_MIN, UFO_SPAWN_INTERVAL_MAX]
  constructor <;> linarith

/-- The exit branch keeps the explosion flag and timer and clears the active flag. -/
theorem ufoLeave_ufo (env : Env) (delta : ℚ) (s : GameState) :
    (ufoLeave env delta s).ufo.exploding = s.ufo.exploding ∧
    (ufoLeave env delta s).ufo.explosionTimer = s.ufo.explosionTimer ∧
    (ufoLeave env delta s).ufo.active = false ∧
    (ufoLeave env delta s).ufo.spawnTimer = ((GetRandomValue env 600 1800 s).1 : ℚ) * delta :=
  ⟨rfl, rfl, rfl, rfl⟩

/-- The active branch of `UpdateUFO`: move, off-screen check, explosion countdown. -/
theorem UpdateUFO_active (env : Env) (delta : ℚ) (s : GameState) (h : s.ufo.active = true) :
    UpdateUFO env delta s = ufoBurst env delta (ufoExitCheck env delta (ufoMove delta s)) := by
  unfold UpdateUFO
  rw [if_neg (by simp [h])]
  rfl

theorem ufoExitCheck_ufo (env : Env) (delta : ℚ) (s : GameState) :
    (ufoExitCheck env delta s).ufo.exploding = s.ufo.exploding ∧
    (ufoExitCheck env delta s).ufo.explosionTimer = s.ufo.explosionTimer := by
  unfold ufoExitCheck
  split_ifs <;> exact ⟨rfl, rfl⟩

/-- The explosion countdown, when it expires. -/
theorem ufoBurst_expiry (env : Env) (delta : ℚ) (t : GameState) (he : t.ufo.exploding = true)
    (ht : t.ufo.explosionTimer - delta ≤ 0) :
    (ufoBurst env delta t).ufo.active = false ∧ (ufoBurst env delta t).ufo.exploding = false ∧
    UFO_SPAWN_INTERVAL_MIN ≤ (ufoBurst env delta t).ufo.spawnTimer ∧
    (ufoBurst env delta t).ufo.spawnTimer ≤ UFO_SPAWN_INTERVAL_MAX := by
  unfold ufoBurst
  rw [if_pos he]
  simp only []
  rw [if_pos ht]
  exact ⟨rfl, rfl, (spawnInterval_range env _).1, (spawnInterval_range env _).2⟩

theorem ufoBurst_idle (env : Env) (delta : ℚ) (t : GameState) (he : t.ufo.exploding = false) :
    ufoBurst env delta t = t := by
  unfold ufoBurst
  rw [if_neg (by simp [he])]

/-! ## Auxiliary lemmas: the wave reset and the shield layout -/

/-- After `InitShields` every slot holds the freshly built shield. -/
theorem InitShields_apply (env : Env) (s : GameState) (i : Fin NUM_SHIELDS) :
    (InitShields env s).shields i = freshShield env i (s.shields i) := by
  unfold InitShields
  simp only []
  have hstep : ∀ sp y, initShield env sp y =
      fun shields k => Function.update shields k
        ((initShield env sp y (fun _ => shields k) k) k) := by
    intro sp y
    funext shields k
    unfold initShield
    simp
  rw [hstep]
  rw [foldl_update_finRange (fun k old => (initShield env _ _ (fun _ => old) k) k)]
  unfold initShield freshShield shieldSpacing
  simp [UpdateTexture, LoadRenderTexture]

theorem InitShields_shape (env : Env) (s : GameState) :
    InitShields env s = { s with shields := fun i => freshShield env i (s.shields i) } := by
  have h : (InitShields env s).shields = fun i => freshShield env i (s.shields i) :=
    funext (InitShields_apply env s)
  rw [← h]
  rfl

/-- The projectile flags, the UFO spawn timer and the shields after `NextLevel`. -/
theorem NextLevel_reset (env : Env) (s : GameState) :
    (∀ i, ((NextLevel env s).alienBullets i).active = false) ∧
    (UFO_SPAWN_INTERVAL_MIN ≤ (NextLevel env s).ufo.spawnTimer ∧
      (NextLevel env s).ufo.spawnTimer ≤ UFO_SPAWN_INTERVAL_MAX) ∧
    ∀ i, (NextLevel env s).shields i = freshShield env i (s.shields i) := by
  obtain ⟨w, t, st, rc, h⟩ := InitAliens_shape env { s with currentWave := s.currentWave + 1 }
  unfold NextLevel
  simp only []
  rw [h]
  refine ⟨fun i => ?_, ?_, fun i => ?_⟩
  · rw [InitShields_shape]
    show (((List.finRange MAX_ALIEN_BULLETS).foldl
      (fun bs i => Function.update bs i { bs i with active := false }) s.alienBullets) i).active = false
    rw [foldl_update_finRange (fun _ (b : Bullet) => { b with active := false })]
  · rw [InitShields_shape]
    exact spawnInterval_range env _
  · rw [InitShields_apply]
    rfl

theorem InitAliens_shields (env : Env) (s : GameState) :
    (InitAliens env s).shields = s.shields := by
  obtain ⟨w, t, st, rc, h⟩ := InitAliens_shape env s
  rw [h]

/-- The shields at game start are the freshly built ones. -/
theorem InitGame_shields (env : Env) (s : GameState) (i : Fin NUM_SHIELDS) :
    (InitGame env s).shields i = freshShield env i (s.shields i) := by
  unfold InitGame
  simp only []
  show (InitShields env (InitAliens env _)).shields i = _
  rw [InitShields_apply, InitAliens_shields]
  rfl

/-! ## Auxiliary lemmas: the texture transform -/

/-- The two clamp statements of `WorldToShieldTexCoords` on one coordinate. -/
theorem clamp_eq (v hi : ℚ) :
    (if (if v < 0 then 0 else v) > hi then hi else (if v < 0 then 0 else v)) = min (max v 0) hi := by
  by_cases h : v < 0
  · rw [if_pos h, max_eq_right (le_of_lt h)]
    by_cases h2 : (0 : ℚ) > hi
    · rw [if_pos h2, min_eq_right (le_of_lt h2)]
    · rw [if_neg h2, min_eq_left (not_lt.mp h2)]
  · rw [if_neg h, max_eq_left (not_lt.mp h)]
    by_cases h2 : v > hi
    · rw [if_pos h2, min_eq_right (le_of_lt h2)]
    · rw [if_neg h2, min_eq_left (not_lt.mp h2)]

/-- `WorldToShieldTexCoords` is the clamp of the scaled, flipped point. -/
theorem WorldToShieldTexCoords_eq (s : GameState) (i : Fin NUM_SHIELDS) (p : Vector2) :
    WorldToShieldTexCoords s i p =
      ⟨min (max (texLocalX s i p) 0) (((s.shields i).renderTexture.texture.width : ℚ) - 1),
        min (max (texLocalY s i p) 0) (((s.shields i).renderTexture.texture.height : ℚ) - 1)⟩ := by
  unfold WorldToShieldTexCoords
  simp only []
  rw [clamp_eq, clamp_eq]
  simp only [texLocalX, texLocalY]
  push_cast
  rfl

/-! ## Auxiliary lemmas: repeated and reordered damage -/

theorem damageImage_data (localHit : Vector2) (image : Image) (j : Nat) :
    (damagedIndex localHit image.width image.height j →
        (damageImage localHit image).data[j]? = (image.data[j]?).map clearAlpha) ∧
      (¬ damagedIndex localHit image.width image.height j →
        (damageImage localHit image).data[j]? = image.data[j]?) :=
  damageImage_getElem? localHit image j

theorem Image_ext (a b : Image) (h1 : a.data = b.data) (h2 : a.width = b.width)
    (h3 : a.height = b.height) : a = b := by
  cases a
  cases b
  simp only [Image.mk.injEq]
  exact ⟨h1, h2, h3⟩

/-- Two damage stamps on one image commute. -/
theorem damageImage_comm (p q : Vector2) (image : Image) :
    damageImage q (damageImage p image) = damageImage p (damageImage q image) := by
  have hd : (damageImage q (damageImage p image)).data =
      (damageImage p (damageImage q image)).data := by
    apply List.ext_getElem?
    intro j
    obtain ⟨a1, a2⟩ := damageImage_data p image j
    obtain ⟨b1, b2⟩ := damageImage_data q image j
    obtain ⟨c1, c2⟩ := damageImage_data q (damageImage p image) j
    obtain ⟨d1, d2⟩ := damageImage_data p (damageImage q image) j
    have e1 : (damageImage p image).width = image.width := rfl
    have e2 : (damageImage p image).height = image.height := rfl
    have e3 : (damageImage q image).width = image.width := rfl
    have e4 : (damageImage q image).height = image.height := rfl
    rw [e1, e2] at c1 c2
    rw [e3, e4] at d1 d2
    by_cases hp : damagedIndex p image.width image.height j <;>
      by_cases hq : damagedIndex q image.width image.height j
    · rw [c1 hq, d1 hp, a1 hp, b1 hq]
    · rw [c2 hq, d1 hp, a1 hp, b2 hq]
    · rw [c1 hq, d2 hp, a2 hp, b1 hq]
    · rw [c2 hq, d2 hp, a2 hp, b2 hq]
  have e1 : ∀ (r : Vector2) (im : Image), (damageImage r im).width = im.width := fun _ _ => rfl
  have e2 : ∀ (r : Vector2) (im : Image), (damageImage r im).height = im.height := fun _ _ => rfl
  exact Image_ext _ _ hd (by rw [e1, e1, e1, e1]) (by rw [e2, e2, e2, e2])

/-- A damage stamp applied twice is the stamp applied once. -/
theorem damageImage_idem (p : Vector2) (image : Image) :
    damageImage p (damageImage p image) = damageImage p image := by
  have hd : (damageImage p (damageImage p image)).data = (damageImage p image).data := by
    apply List.ext_getElem?
    intro j
    obtain ⟨a1, a2⟩ := damageImage_data p image j
    obtain ⟨c1, c2⟩ := damageImage_data p (damageImage p image) j
    have e1 : (damageImage p image).width = image.width := rfl
    have e2 : (damageImage p image).height = image.height := rfl
    rw [e1, e2] at c1 c2
    by_cases hp : damagedIndex p image.width image.height j
    · rw [c1 hp, a1 hp]
      cases image.data[j]? <;> rfl
    · rw [c2 hp]
  exact Image_ext _ _ hd rfl rfl

/-- Two damage stamps on an active shield, as one update of its mask. -/
theorem DamageShield_twice (s : GameState) (i : Fin NUM_SHIELDS) (p q : Vector2)
    (h : (s.shields i).active = true) :
    DamageShield i q (DamageShield i p s) =
      { s with
        shields := Function.update s.shields i
          { s.shields i with
            renderTexture :=
              ⟨{ (s.shields i).renderTexture.texture with
                  pixels := (damageImage (WorldToShieldTexCoords s i q)
                    (damageImage (WorldToShieldTexCoords s i p)
                      (LoadImageFromTexture (s.shields i).renderTexture.texture))).data }⟩ } } := by
  have hact : ((DamageShield i p s).shields i).active = true := by
    rw [DamageShield_active s i p h]
    simp [h]
  rw [DamageShield_active _ i q hact, DamageShield_texCoords, DamageShield_active s i p h]
  simp [LoadImageFromTexture, damageImage]

/-- A damage stamp repeated on the same point changes nothing more. -/
theorem DamageShield_idem (s : GameState) (i : Fin NUM_SHIELDS) (p : Vector2) :
    DamageShield i p (DamageShield i p s) = DamageShield i p s := by
  cases h : (s.shields i).active
  · rw [DamageShield_inactive s i p h, DamageShield_inactive s i p h]
  · rw [DamageShield_twice s i p p h, damageImage_idem, DamageShield_active s i p h]

/-! ## Auxiliary lemmas: the swarm step -/

/-- What the timer-gated swarm step writes besides the aliens. -/
theorem alienStep_fields (s : GameState) :
    (alienStep s).alienMoveSoundIndex = Int.tmod (s.alienMoveSoundIndex + 1) 4 ∧
    (alienStep s).alienMoveTimer = s.alienMoveWaitTime ∧
    (alienStep s).alienMoveWaitTime = s.alienMoveWaitTime ∧
    (alienStep s).alienDirection = (if edgeHit s then s.alienDirection * -1 else s.alienDirection) ∧
    ∀ i, (alienStep s).aliens i =
      movedAlien (decide (edgeHit s))
        (if edgeHit s then s.alienDirection * -1 else s.alienDirection) (s.aliens i) := by
  unfold alienStep
  simp only []
  by_cases h : edgeHit s
  · have h' := h
    unfold edgeHit at h'
    rw [if_pos h', if_pos h]
    refine ⟨rfl, rfl, rfl, rfl, fun i => ?_⟩
    simp only [moveAliens_apply, decide_eq_true h]
  · have h' := h
    unfold edgeHit at h'
    rw [if_neg h', if_neg h]
    refine ⟨rfl, rfl, rfl, rfl, fun i => ?_⟩
    simp only [moveAliens_apply, decide_eq_false h]

/-- The swarm step descends exactly when the edge test fires. -/
theorem alienStep_moveDown (s : GameState) : (alienStep s).moveDown = decide (edgeHit s) := by
  unfold alienStep
  simp only []
  by_cases h : edgeHit s
  · have h' := h
    unfold edgeHit at h'
    rw [if_pos h', decide_eq_true h]
  · have h' := h
    unfold edgeHit at h'
    rw [if_neg h', decide_eq_false h]

/-- `UpdateAliens` when the move timer expires: the swarm step on the decremented timer,
then the shooting scheduler, which leaves the swarm fields alone. -/
theorem UpdateAliens_step (env : Env) (delta : ℚ) (s : GameState)
    (hexp : s.alienMoveTimer - delta ≤ 0) :
    ∃ t rc bs, UpdateAliens env delta s =
      { alienStep { s with alienMoveTimer := s.alienMoveTimer - delta } with
        alienShootTimer := t, randCalls := rc, alienBullets := bs } := by
  obtain ⟨t, rc, bs, hshoot⟩ := alienShoot_shape env delta
    (alienStep { s with alienMoveTimer := s.alienMoveTimer - delta })
  refine ⟨t, rc, bs, ?_⟩
  unfold UpdateAliens
  simp only []
  rw [if_pos hexp, hshoot]

/-- `UpdateAliens` while the move timer runs: only the timers, the draw count and the
projectiles can change. -/
theorem UpdateAliens_wait (env : Env) (delta : ℚ) (s : GameState)
    (hrun : s.alienMoveTimer - delta > 0) :
    ∃ t rc bs, UpdateAliens env delta s =
      { s with
        alienMoveTimer := s.alienMoveTimer - delta
        alienShootTimer := t, randCalls := rc, alienBullets := bs } := by
  obtain ⟨t, rc, bs, hshoot⟩ := alienShoot_shape env delta
    { s with alienMoveTimer := s.alienMoveTimer - delta }
  refine ⟨t, rc, bs, ?_⟩
  unfold UpdateAliens
  simp only []
  rw [if_neg (not_le.mpr hrun), hshoot]

/-! ## Auxiliary lemmas: the initial grid and the shoot floor -/

/-- The tier fields that the row test of `InitAliens` assigns. -/
theorem initAlien_tier (env : Env) (r : Fin ALIENS_ROWS) (c : Fin ALIENS_COLS) (a : Alien) :
    (initAlien env r c a).currentFrame = false ∧
    (r.val = 0 → (initAlien env r c a).type = AlienType.ALIEN_TYPE_3 ∧
      (initAlien env r c a).points = 30 ∧
      (initAlien env r c a).texture1 = env.res.alienTexture3_1 ∧
      (initAlien env r c a).texture2 = env.res.alienTexture3_2) ∧
    (r.val = 1 ∨ r.val = 2 → (initAlien env r c a).type = AlienType.ALIEN_TYPE_2 ∧
      (initAlien env r c a).points = 20 ∧
      (initAlien env r c a).texture1 = env.res.alienTexture2_1 ∧
      (initAlien env r c a).texture2 = env.res.alienTexture2_2) ∧
    (r.val = 3 ∨ r.val = 4 → (initAlien env r c a).type = AlienType.ALIEN_TYPE_1 ∧
      (initAlien env r c a).points = 10 ∧
      (initAlien env r c a).texture1 = env.res.alienTexture1_1 ∧
      (initAlien env r c a).texture2 = env.res.alienTexture1_2) := by
  unfold initAlien
  simp only []
  refine ⟨?_, fun h0 => ?_, fun h12 => ?_, fun h34 => ?_⟩
  · split_ifs <;> rfl
  · rw [if_pos h0]
    exact ⟨rfl, rfl, rfl, rfl⟩
  · rw [if_neg (by omega), if_pos (by omega)]
    exact ⟨rfl, rfl, rfl, rfl⟩
  · rw [if_neg (by omega), if_neg (by omega)]
    exact ⟨rfl, rfl, rfl, rfl⟩

/-! ## Auxiliary lemmas: the swarm inside the field -/

/-- What the move loop leaves in a slot: the size and the active flag are kept, an active
alien moves down by 2 or sideways by `3 * alienDirection`, an inactive one is unchanged. -/
theorem movedAlien_fields (md : Bool) (dir : Int) (a : Alien) :
    (movedAlien md dir a).size = a.size ∧
    (movedAlien md dir a).active = a.active ∧
    (a.active = false → movedAlien md dir a = a) ∧
    (a.active = true → md = true →
      (movedAlien md dir a).position = ⟨a.position.x, a.position.y + 2⟩) ∧
    (a.active = true → md = false →
      (movedAlien md dir a).position = ⟨a.position.x + 3 * (dir : ℚ), a.position.y⟩) := by
  refine ⟨?_, movedAlien_active md dir a, fun h => ?_, fun h hm => ?_, fun h hm => ?_⟩
  · unfold movedAlien
    split_ifs <;> rfl
  · simp [movedAlien, h]
  · simp [movedAlien, h, hm, alienVerticalMove]
  · simp [movedAlien, h, hm, alienHorizontalMove]

/-! ## Auxiliary lemmas: scores, the pause flag and the frame loop -/

theorem updateToCollisions_eq (env : Env) (inp : Input) (s : GameState) :
    updateToCollisions env inp s = CheckCollisions env (stateAtCollisions env inp s) := rfl

/-- The frame up to `UpdateUFO` leaves the UFO, the score, the high score and the pause
flag alone. -/
theorem stateAtUFO_frame (env : Env) (inp : Input) (s : GameState) :
    (stateAtUFO env inp s).ufo = s.ufo ∧ (stateAtUFO env inp s).score = s.score ∧
    (stateAtUFO env inp s).hiScore = s.hiScore ∧
    (stateAtUFO env inp s).gamePaused = s.gamePaused := by
  unfold stateAtUFO
  obtain ⟨p, g, h1⟩ := updatePlayer_shape inp s
  obtain ⟨mt, md, dir, al, si, st, rc, bs, h2, -⟩ :=
    UpdateAliens_shape env inp.frameTime (updatePlayer inp s)
  obtain ⟨a, q, bs2, sh, ex, h3⟩ :=
    UpdateBullets_shape env inp (UpdateAliens env inp.frameTime (updatePlayer inp s))
  rw [h3, h2, h1]
  exact ⟨rfl, rfl, rfl, rfl⟩

/-- The frame up to `CheckCollisions` changes the UFO only in `UpdateUFO` and leaves the
score, the high score and the pause flag alone. -/
theorem stateAtCollisions_frame (env : Env) (inp : Input) (s : GameState) :
    (stateAtCollisions env inp s).ufo = (UpdateUFO env inp.frameTime (stateAtUFO env inp s)).ufo ∧
    (stateAtCollisions env inp s).score = s.score ∧
    (stateAtCollisions env inp s).hiScore = s.hiScore ∧
    (stateAtCollisions env inp s).gamePaused = s.gamePaused := by
  obtain ⟨-, f2, f3, f4⟩ := stateAtUFO_frame env inp s
  obtain ⟨u, rc, h⟩ := UpdateUFO_shape env inp.frameTime (stateAtUFO env inp s)
  unfold stateAtCollisions UpdateExplosions
  refine ⟨rfl, ?_, ?_, ?_⟩
  · show (UpdateUFO env inp.frameTime (stateAtUFO env inp s)).score = _
    rw [h]
    exact f2
  · show (UpdateUFO env inp.frameTime (stateAtUFO env inp s)).hiScore = _
    rw [h]
    exact f3
  · show (UpdateUFO env inp.frameTime (stateAtUFO env inp s)).gamePaused = _
    rw [h]
    exact f4

/-- The win check and the lose-condition scan leave the score, the high score and the
pause flag alone and change the UFO at most in its spawn timer. -/
theorem afterCollisions_frame (env : Env) (l : List (Fin NUM_ALIENS)) (c : GameState) :
    (loseScan l (checkWin env c)).score = c.score ∧
    (loseScan l (checkWin env c)).hiScore = c.hiScore ∧
    (loseScan l (checkWin env c)).gamePaused = c.gamePaused ∧
    ∃ t, (loseScan l (checkWin env c)).ufo = { c.ufo with spawnTimer := t } := by
  obtain ⟨g, sh, h1⟩ := loseScan_shape l (checkWin env c)
  rw [h1]
  unfold checkWin
  split_ifs
  · obtain ⟨w, t, st, rc, bs, ut, sh2, h2⟩ := NextLevel_shape env c
    rw [h2]
    exact ⟨rfl, rfl, rfl, ut, rfl⟩
  · exact ⟨rfl, rfl, rfl, c.ufo.spawnTimer, rfl⟩

/-- `CheckCollisions` leaves the pause flag alone. -/
theorem CheckCollisions_gamePaused (env : Env) (s : GameState) :
    (CheckCollisions env s).gamePaused = s.gamePaused := by
  obtain ⟨a, t, al, aa, sc, hs, ex, w, u, sh, bs, h, -⟩ := CheckCollisions_shape env s
  rw [h]

/-- A running frame of `UpdateGame` leaves the pause flag as the pause key left it. -/
theorem UpdateGame_running_gamePaused (env : Env) (inp : Input) (s : GameState)
    (hgo : s.gameOver = false) (hp : (pauseToggle inp s).gamePaused = false) :
    (UpdateGame env inp s).gamePaused = false := by
  rw [UpdateGame_running env inp s hgo hp]
  unfold stateAtLoseScan
  rw [(afterCollisions_frame env _ _).2.2.1, updateToCollisions_eq, CheckCollisions_gamePaused,
    (stateAtCollisions_frame env inp _).2.2.2]
  exact hp

/-- `InitAliens` leaves the pause flag, the score, the high score and the UFO alone. -/
theorem InitAliens_keeps (env : Env) (s : GameState) :
    (InitAliens env s).gamePaused = s.gamePaused ∧ (InitAliens env s).score = s.score ∧
    (InitAliens env s).hiScore = s.hiScore ∧ (InitAliens env s).ufo = s.ufo := by
  obtain ⟨w, t, st, rc, h⟩ := InitAliens_shape env s
  rw [h]
  exact ⟨rfl, rfl, rfl, rfl⟩

theorem InitGame_flags (env : Env) (s : GameState) :
    (InitGame env s).gamePaused = false ∧ (InitGame env s).score = 0 ∧
    (InitGame env s).hiScore = s.hiScore ∧ (InitGame env s).ufo.active = false ∧
    (InitGame env s).ufo.exploding = s.ufo.exploding := by
  unfold InitGame InitShields
  simp only []
  obtain ⟨k1, k2, k3, k4⟩ := InitAliens_keeps env
    { (GetRandomValue env (truncToInt (UFO_SPAWN_INTERVAL_MIN * 100))
        (truncToInt (UFO_SPAWN_INTERVAL_MAX * 100))
        { s with
          framesCounter := 0, gameOver := false, gamePaused := false, score := 0, currentWave := 1
          player := _, alienBullets := _, ufo := _ }).2 with
      ufo := _, explosions := _ }
  rw [k1, k2, k3, k4]
  exact ⟨rfl, rfl, rfl, rfl, rfl⟩

theorem startFromTitle_flags (env : Env) (s : GameState) :
    (startFromTitle env s).gamePaused = s.gamePaused ∧ (startFromTitle env s).score = 0 ∧
    (startFromTitle env s).hiScore = s.hiScore := by
  obtain ⟨w, t, st, rc, h⟩ := InitAliens_shape env s
  unfold startFromTitle
  simp only []
  rw [InitShields_shape, h]
  exact ⟨rfl, rfl, rfl⟩

theorem raiseHiScore_scores (s : GameState) :
    (raiseHiScore s).score = s.score ∧ (raiseHiScore s).hiScore = max s.hiScore s.score := by
  unfold raiseHiScore
  split_ifs with h
  · exact ⟨rfl, (max_eq_right (le_of_lt h)).symm⟩
  · exact ⟨rfl, (max_eq_left (not_lt.mp h)).symm⟩

/-- The score and the high score after the kill of alien `i`. -/
theorem killAlien_scores (env : Env) (i : Fin NUM_ALIENS) (s : GameState) :
    (killAlien env i s).score = s.score + (s.aliens i).points ∧
    (killAlien env i s).hiScore = max s.hiScore (s.score + (s.aliens i).points) := by
  obtain ⟨h1, h2⟩ := raiseHiScore_scores (scoreAlien i s)
  have h3 : (killAlien env i s).score = (raiseHiScore (scoreAlien i s)).score := by
    unfold killAlien speedUpSwarm SpawnExplosion
    simp only []
    split_ifs <;> rfl
  have h4 : (killAlien env i s).hiScore = (raiseHiScore (scoreAlien i s)).hiScore := by
    unfold killAlien speedUpSwarm SpawnExplosion
    simp only []
    split_ifs <;> rfl
  rw [h3, h4, h1, h2]
  exact ⟨rfl, rfl⟩

/-- The score and the high score after step 2 of `CheckCollisions` fires. -/
theorem shotVsUFO_scores (r : Rectangle) (s s' : GameState) (h : shotVsUFO r s = some s') :
    s'.score = s.score + UFO_POINTS ∧ s'.hiScore = max s.hiScore (s.score + UFO_POINTS) := by
  unfold shotVsUFO at h
  split_ifs at h with h1 h2
  rw [← Option.some.inj h]
  obtain ⟨e1, e2⟩ := raiseHiScore_scores
    { s with
      player := { s.player with shotActive := false }
      ufo := { s.ufo with exploding := true, explosionTimer := 1 / 2 }
      score := s.score + UFO_POINTS }
  exact ⟨e1, e2⟩

/-- The score and the high score after the player-shot chain: both unchanged, or an award
(the points of an active alien, or `UFO_POINTS`) with the high score raised to at least the
new score. -/
theorem playerShotCollisions_scores (env : Env) (s : GameState) :
    ((playerShotCollisions env s).score = s.score ∧
      (playerShotCollisions env s).hiScore = s.hiScore) ∨
    ((playerShotCollisions env s).hiScore = max s.hiScore (playerShotCollisions env s).score ∧
      ((∃ i, (s.aliens i).active = true ∧
          (playerShotCollisions env s).score = s.score + (s.aliens i).points) ∨
        (playerShotCollisions env s).score = s.score + UFO_POINTS)) := by
  unfold playerShotCollisions
  split_ifs
  · simp only []
    cases h1 : shotVsAliens env (shotRect s.player) (List.finRange NUM_ALIENS) s with
    | some s1 =>
      obtain ⟨i, hi, -, hk⟩ := shotVsAliens_some env _ _ s s1 h1
      obtain ⟨k1, k2⟩ := killAlien_scores env i s
      right
      show s1.hiScore = max s.hiScore s1.score ∧ _
      rw [hk, k1, k2]
      exact ⟨rfl, Or.inl ⟨i, hi, rfl⟩⟩
    | none =>
      cases h2 : shotVsUFO (shotRect s.player) s with
      | some s2 =>
        obtain ⟨k1, k2⟩ := shotVsUFO_scores _ s s2 h2
        right
        show s2.hiScore = max s.hiScore s2.score ∧ _
        rw [k1, k2]
        exact ⟨rfl, Or.inr rfl⟩
      | none =>
        left
        cases h3 : shotVsShields env (shotRect s.player) (List.finRange NUM_SHIELDS) s with
        | some s3 =>
          obtain ⟨a, sh, ex, h⟩ := shotVsShields_shape env _ _ s s3 h3
          show s3.score = _ ∧ s3.hiScore = _
          rw [h]
          exact ⟨rfl, rfl⟩
        | none => exact ⟨rfl, rfl⟩
  · exact Or.inl ⟨rfl, rfl⟩

/-- Steps 4 and 5 of `CheckCollisions` leave the score and the high score alone. -/
theorem CheckCollisions_scores_eq (env : Env) (s : GameState) :
    (CheckCollisions env s).score = (playerShotCollisions env s).score ∧
    (CheckCollisions env s).hiScore = (playerShotCollisions env s).hiScore := by
  have hcc : CheckCollisions env s =
      alienShotsVsShields env (alienShotsVsPlayer (playerShotCollisions env s)) := rfl
  obtain ⟨t, bs, h1⟩ := alienShotsVsPlayer_shape (playerShotCollisions env s)
  obtain ⟨bs2, sh, ex, h2⟩ :=
    alienShotsVsShields_shape env (alienShotsVsPlayer (playerShotCollisions env s))
  rw [hcc, h2, h1]
  exact ⟨rfl, rfl⟩

theorem CheckCollisions_scoreInv (env : Env) (s : GameState) (h : scoreInv s) :
    scoreInv (CheckCollisions env s) := by
  obtain ⟨e1, e2⟩ := CheckCollisions_scores_eq env s
  unfold scoreInv at h ⊢
  rw [e1, e2]
  rcases playerShotCollisions_scores env s with ⟨h1, h2⟩ | ⟨h1, -⟩
  · rw [h1, h2]
    exact h
  · rw [h1]
    exact ⟨le_max_right _ _, le_trans h.2 (le_max_left _ _)⟩

/-- A paused frame of `UpdateGame` only applies the pause key, twice. -/
theorem UpdateGame_paused (env : Env) (inp : Input) (s : GameState)
    (hgo : s.gameOver = false) (hp : (pauseToggle inp s).gamePaused = true) :
    UpdateGame env inp s = pauseToggle inp (pauseToggle inp s) := by
  unfold UpdateGame
  rw [if_neg (by simp [hgo])]
  simp only []
  rw [if_pos hp]

/-- The score and the high score after a running frame are those after its collision pass. -/
theorem UpdateGame_running_scores (env : Env) (inp : Input) (s : GameState)
    (hgo : s.gameOver = false) (hp : (pauseToggle inp s).gamePaused = false) :
    ∃ c, c.score = s.score ∧ c.hiScore = s.hiScore ∧
      (UpdateGame env inp s).score = (CheckCollisions env c).score ∧
      (UpdateGame env inp s).hiScore = (CheckCollisions env c).hiScore := by
  obtain ⟨g, hg⟩ := pauseToggle_shape inp s
  obtain ⟨-, f2, f3, -⟩ := stateAtCollisions_frame env inp (pauseToggle inp s)
  refine ⟨stateAtCollisions env inp (pauseToggle inp s), ?_, ?_, ?_, ?_⟩
  · rw [f2, hg]
  · rw [f3, hg]
  · rw [UpdateGame_running env inp s hgo hp]
    unfold stateAtLoseScan
    rw [(afterCollisions_frame env _ _).1, updateToCollisions_eq]
  · rw [UpdateGame_running env inp s hgo hp]
    unfold stateAtLoseScan
    rw [(afterCollisions_frame env _ _).2.1, updateToCollisions_eq]

theorem UpdateGame_scoreInv (env : Env) (inp : Input) (s : GameState) (h : scoreInv s) :
    scoreInv (UpdateGame env inp s) := by
  cases hgo : s.gameOver
  · cases hp : (pauseToggle inp s).gamePaused
    · obtain ⟨c, c1, c2, c3, c4⟩ := UpdateGame_running_scores env inp s hgo hp
      have hc : scoreInv c := by
        unfold scoreInv at h ⊢
        rw [c1, c2]
        exact h
      have := CheckCollisions_scoreInv env c hc
      unfold scoreInv at this ⊢
      rw [c3, c4]
      exact this
    · rw [UpdateGame_paused env inp s hgo hp]
      obtain ⟨g, hg⟩ := pauseToggle_shape inp s
      obtain ⟨g2, hg2⟩ := pauseToggle_shape inp (pauseToggle inp s)
      rw [hg2, hg]
      exact h
  · unfold UpdateGame
    rw [if_pos hgo]
    split_ifs
    · obtain ⟨-, i2, i3, -⟩ := InitGame_flags env s
      unfold scoreInv at h ⊢
      rw [i2, i3]
      exact ⟨h.2, h.2⟩
    · exact h

theorem UpdateDrawFrame_scoreInv (env : Env) (inp : Input) (s : GameState) (h : scoreInv s) :
    scoreInv (UpdateDrawFrame env inp s) := by
  have key : ∀ s1 : GameState, scoreInv s1 →
      scoreInv (match s1.currentScreen with
        | GameScreen.LOGO =>
          if s1.framesCounter > 120 then
            { s1 with currentScreen := GameScreen.TITLE, framesCounter := 0 }
          else s1
        | GameScreen.TITLE =>
          if inp.keyEnterPressed ∨ inp.gestureTap then startFromTitle env s1 else s1
        | GameScreen.GAMEPLAY => gameplayFrame env inp s1
        | GameScreen.GAME_OVER => gameOverFrame env inp s1) := by
    intro s1 h0
    split
    · split_ifs
      · exact h0
      · exact h0
    · split_ifs
      · obtain ⟨-, t2, t3⟩ := startFromTitle_flags env s1
        unfold scoreInv at h0 ⊢
        rw [t2, t3]
        exact ⟨h0.2, h0.2⟩
      · exact h0
    · have := UpdateGame_scoreInv env inp s1 h0
      unfold gameplayFrame
      simp only []
      generalize UpdateGame env inp s1 = G at this ⊢
      split_ifs
      · exact this
      · exact this
    · unfold gameOverFrame
      simp only []
      split_ifs
      · obtain ⟨-, i2, i3, -⟩ :=
          InitGame_flags env { s1 with framesCounter := s1.framesCounter + 1 }
        generalize InitGame env { s1 with framesCounter := s1.framesCounter + 1 } = G at i2 i3 ⊢
        unfold scoreInv at h0 ⊢
        show G.score ≤ G.hiScore ∧ 0 ≤ G.hiScore
        rw [i2, i3]
        exact ⟨h0.2, h0.2⟩
      · exact h0
  exact key { s with framesCounter := s.framesCounter + 1 } h

/-! ## Auxiliary lemmas: the pause key -/

theorem pauseToggle_pressed (inp : Input) (s : GameState) (hk : inp.keyPPressed = true) :
    pauseToggle inp s = { s with gamePaused := !s.gamePaused } := by
  unfold pauseToggle
  rw [if_pos hk]

theorem pauseToggle_idle (inp : Input) (s : GameState) (hk : inp.keyPPressed = false) :
    pauseToggle inp s = s := by
  unfold pauseToggle
  rw [if_neg (by simp [hk])]

/-- One press of the pause key, applied twice, restores the state. -/
theorem pauseToggle_twice (inp : Input) (s : GameState) (hk : inp.keyPPressed = true) :
    pauseToggle inp (pauseToggle inp s) = s := by
  rw [pauseToggle_pressed inp _ hk, pauseToggle_pressed inp s hk]
  cases s
  simp

/-- `UpdateGame` never sets the pause flag of an unpaused game, and clears it whenever the
pause key is pressed. -/
theorem UpdateGame_gamePaused (env : Env) (inp : Input) (s : GameState) :
    (s.gameOver = false → inp.keyPPressed = true → (UpdateGame env inp s).gamePaused = false) ∧
    (s.gamePaused = false → (UpdateGame env inp s).gamePaused = false) := by
  have h1 : s.gameOver = false → inp.keyPPressed = true →
      (UpdateGame env inp s).gamePaused = false := by
    intro hgo hk
    cases hp : s.gamePaused
    · have hp1 : (pauseToggle inp s).gamePaused = true := by
        rw [pauseToggle_pressed inp s hk]
        simp [hp]
      rw [UpdateGame_paused env inp s hgo hp1, pauseToggle_pressed inp _ hk,
        pauseToggle_pressed inp s hk]
      simp [hp]
    · have hp1 : (pauseToggle inp s).gamePaused = false := by
        rw [pauseToggle_pressed inp s hk]
        simp [hp]
      exact UpdateGame_running_gamePaused env inp s hgo hp1
  refine ⟨h1, fun hp => ?_⟩
  cases hgo : s.gameOver
  · cases hk : inp.keyPPressed
    · have hp1 : (pauseToggle inp s).gamePaused = false := by
        rw [pauseToggle_idle inp s hk]
        exact hp
      exact UpdateGame_running_gamePaused env inp s hgo hp1
    · exact h1 hgo hk
  · unfold UpdateGame
    rw [if_pos hgo]
    split_ifs
    · exact (InitGame_flags env s).1
    · exact hp

/-! ## Auxiliary lemmas: the shield tests of the collision pass -/

theorem shotStopsAt_iff (s : GameState) (r : Rectangle) (k : Fin NUM_SHIELDS) :
    shotStopsAt s r k = true ↔
      ((s.shields k).active = true ∧ CheckCollisionRecs r (s.shields k).bounds = true) ∧
        (shieldPixelAt s k (shotTop r)).a > 10 := by
  unfold shotStopsAt
  simp only [Bool.and_eq_true, decide_eq_true_eq]

theorem bulletStopsAt_iff (s : GameState) (r : Rectangle) (k : Fin NUM_SHIELDS) :
    bulletStopsAt s r k = true ↔
      ((s.shields k).active = true ∧ CheckCollisionRecs r (s.shields k).bounds = true) ∧
        (shieldPixelAt s k (bulletBottom r)).a > 10 := by
  unfold bulletStopsAt
  simp only [Bool.and_eq_true, decide_eq_true_eq]

/-- Step 3 of `CheckCollisions` stops at the first shield that passes its test. -/
theorem shotVsShields_eq (env : Env) (r : Rectangle) (l : List (Fin NUM_SHIELDS))
    (s : GameState) :
    shotVsShields env r l s = (l.find? (shotStopsAt s r)).map (fun k => shotImpact env r k s) := by
  induction l with
  | nil => rfl
  | cons k l ih =>
    unfold shotVsShields
    by_cases h1 : (s.shields k).active = true ∧ CheckCollisionRecs r (s.shields k).bounds = true
    · rw [if_pos h1]
      simp only []
      by_cases h2 : (shieldPixelAt s k ⟨r.x + r.width * (1 / 2), r.y⟩).a > 10
      · rw [if_pos h2, List.find?_cons_of_pos _ ((shotStopsAt_iff s r k).mpr ⟨h1, h2⟩)]
        rfl
      · rw [if_neg h2,
          List.find?_cons_of_neg _ (fun h => h2 ((shotStopsAt_iff s r k).mp h).2), ih]
    · rw [if_neg h1, List.find?_cons_of_neg _ (fun h => h1 ((shotStopsAt_iff s r k).mp h).1), ih]

/-- The shield loop of step 5 of `CheckCollisions` stops at the first shield that passes
its test. -/
theorem bulletVsShields_eq (env : Env) (i : Fin MAX_ALIEN_BULLETS) (r : Rectangle)
    (l : List (Fin NUM_SHIELDS)) (s : GameState) :
    bulletVsShields env i r l s =
      match l.find? (bulletStopsAt s r) with
      | some k => bulletImpact env i r k s
      | none => s := by
  induction l with
  | nil => rfl
  | cons k l ih =>
    unfold bulletVsShields
    by_cases h1 : (s.shields k).active = true ∧ CheckCollisionRecs r (s.shields k).bounds = true
    · rw [if_pos h1]
      simp only []
      by_cases h2 : (shieldPixelAt s k (bulletBottom r)).a > 10
      · rw [if_pos h2, List.find?_cons_of_pos _ ((bulletStopsAt_iff s r k).mpr ⟨h1, h2⟩)]
        rfl
      · rw [if_neg h2,
          List.find?_cons_of_neg _ (fun h => h2 ((bulletStopsAt_iff s r k).mp h).2), ih]
    · rw [if_neg h1,
        List.find?_cons_of_neg _ (fun h => h1 ((bulletStopsAt_iff s r k).mp h).1), ih]

/-- The shields after a damage stamp do not depend on the other fields of the state. -/
theorem DamageShield_shields_congr (k : Fin NUM_SHIELDS) (p : Vector2) (s s' : GameState)
    (h : s'.shields = s.shields) : (DamageShield k p s').shields = (DamageShield k p s).shields := by
  have hw : WorldToShieldTexCoords s' k p = WorldToShieldTexCoords s k p := by
    unfold WorldToShieldTexCoords
    rw [h]
  cases hact : (s.shields k).active
  · rw [DamageShield_inactive s k p hact, DamageShield_inactive s' k p (by rw [h]; exact hact)]
    exact h
  · rw [DamageShield_active s k p hact, DamageShield_active s' k p (by rw [h]; exact hact), hw]
    simp only [h]

/-- A damage stamp on shield `k` leaves every other shield alone. -/
theorem DamageShield_other (k j : Fin NUM_SHIELDS) (hj : j ≠ k) (p : Vector2) (s : GameState) :
    (DamageShield k p s).shields j = s.shields j := by
  cases hact : (s.shields k).active
  · rw [DamageShield_inactive s k p hact]
  · rw [DamageShield_active s k p hact]
    exact Function.update_noteq hj _ _

/-- What the impact of the player shot on shield `k` writes. -/
theorem shotImpact_fields (env : Env) (r : Rectangle) (k : Fin NUM_SHIELDS) (s : GameState) :
    (shotImpact env r k s).player.shotActive = false ∧
    (shotImpact env r k s).shields = (DamageShield k (shotTop r) s).shields ∧
    (∀ j, j ≠ k → (shotImpact env r k s).shields j = s.shields j) ∧
    (shotImpact env r k s).alienBullets = s.alienBullets := by
  have hsh : (shotImpact env r k s).shields = (DamageShield k (shotTop r) s).shields :=
    DamageShield_shields_congr k (shotTop r) s
      { s with player := { s.player with shotActive := false } } rfl
  obtain ⟨sh, hd⟩ := DamageShield_shape k (shotTop r)
    { s with player := { s.player with shotActive := false } }
  refine ⟨?_, hsh, fun j hj => ?_, ?_⟩
  · unfold shotImpact SpawnExplosion
    rw [hd]
  · rw [hsh, DamageShield_other k j hj]
  · unfold shotImpact SpawnExplosion
    rw [hd]

/-- What the impact of projectile `i` on shield `k` writes. -/
theorem bulletImpact_fields (env : Env) (i : Fin MAX_ALIEN_BULLETS) (r : Rectangle)
    (k : Fin NUM_SHIELDS) (s : GameState) :
    ((bulletImpact env i r k s).alienBullets i).active = false ∧
    (∀ j, j ≠ i → (bulletImpact env i r k s).alienBullets j = s.alienBullets j) ∧
    (bulletImpact env i r k s).shields = (DamageShield k (bulletBottom r) s).shields ∧
    (∀ j, j ≠ k → (bulletImpact env i r k s).shields j = s.shields j) := by
  have hsh : (bulletImpact env i r k s).shields = (DamageShield k (bulletBottom r) s).shields :=
    DamageShield_shields_congr k (bulletBottom r) s
      { s with
        alienBullets :=
          Function.update s.alienBullets i { s.alienBullets i with active := false } } rfl
  obtain ⟨sh, hd⟩ := DamageShield_shape k (bulletBottom r)
    { s with
      alienBullets := Function.update s.alienBullets i { s.alienBullets i with active := false } }
  refine ⟨?_, fun j hj => ?_, hsh, fun j hj => ?_⟩
  · unfold bulletImpact SpawnExplosion
    rw [hd]
    simp
  · unfold bulletImpact SpawnExplosion
    rw [hd]
    exact Function.update_noteq hj _ _
  · rw [hsh, DamageShield_other k j hj]

/-- The player-shot chain when the active shot overlaps no active alien and does not hit
the UFO: it is step 3, which stops at the first shield passing its test. -/
theorem playerShotCollisions_shields (env : Env) (s : GameState)
    (hshot : s.player.shotActive = true)
    (hno : ∀ i, ¬ ((s.aliens i).active = true ∧
      CheckCollisionRecs (shotRect s.player) (alienRect (s.aliens i)) = true))
    (hnu : ¬ (s.ufo.active = true ∧ s.ufo.exploding = false ∧
      CheckCollisionRecs (shotRect s.player) (ufoRect s.ufo) = true)) :
    playerShotCollisions env s =
      match (List.finRange NUM_SHIELDS).find? (shotStopsAt s (shotRect s.player)) with
      | some k => shotImpact env (shotRect s.player) k s
      | none => s := by
  have hnone : (List.finRange NUM_ALIENS).find? (fun i => (s.aliens i).active &&
      CheckCollisionRecs (shotRect s.player) (alienRect (s.aliens i))) = none := by
    rw [List.find?_eq_none]
    intro i _ hc
    exact hno i (by simpa using hc)
  have hufo : shotVsUFO (shotRect s.player) s = none := by
    unfold shotVsUFO
    by_cases h1 : s.ufo.active = true ∧ (!s.ufo.exploding) = true
    · rw [if_pos h1]
      by_cases h2 : CheckCollisionRecs (shotRect s.player)
          ⟨s.ufo.position.x, s.ufo.position.y, s.ufo.size.x, s.ufo.size.y⟩ = true
      · exact absurd ⟨h1.1, by simpa using h1.2, h2⟩ hnu
      · rw [if_neg h2]
    · rw [if_neg h1]
  unfold playerShotCollisions
  rw [if_pos hshot]
  simp only []
  rw [shotVsAliens_eq, hnone, hufo, shotVsShields_eq]
  cases (List.finRange NUM_SHIELDS).find? (shotStopsAt s (shotRect s.player)) <;> rfl

/-! ## Auxiliary lemmas: the UFO bonus -/

/-- `CheckCollisions` on a state where step 2 does not fire: the UFO is unchanged and the
score is unchanged or raised by the points of an active alien. -/
theorem CheckCollisions_no_ufoHit (env : Env) (s : GameState) (h : ¬ ufoHit s) :
    (CheckCollisions env s).ufo = s.ufo ∧
    ((CheckCollisions env s).score = s.score ∨
      ∃ i, (s.aliens i).active = true ∧
        CheckCollisionRecs (shotRect s.player) (alienRect (s.aliens i)) = true ∧
        (CheckCollisions env s).score = s.score + (s.aliens i).points) := by
  have hcc : CheckCollisions env s =
      alienShotsVsShields env (alienShotsVsPlayer (playerShotCollisions env s)) := rfl
  obtain ⟨p1, p2, -⟩ := alienShotPasses_score_ufo env (playerShotCollisions env s)
  rw [hcc, p1, p2]
  rcases playerShotCollisions_outcome env s with ⟨i, ⟨hi, hc⟩, hk⟩ | ⟨hu, hs, hh⟩ | ⟨a, sh, ex, hh⟩
  · obtain ⟨hs, ex, w, hshape⟩ := killAlien_shape env i s
    rw [hk, hshape]
    exact ⟨rfl, Or.inr ⟨i, hi, hc, rfl⟩⟩
  · exfalso
    by_cases hshot : s.player.shotActive = true
    · by_cases hal : ∃ i, (s.aliens i).active = true ∧
          CheckCollisionRecs (shotRect s.player) (alienRect (s.aliens i)) = true
      · obtain ⟨i0, -, hk⟩ := playerShotCollisions_kill env s hshot hal
        obtain ⟨hs2, ex, w, hshape⟩ := killAlien_shape env i0 s
        have e1 : (playerShotCollisions env s).ufo = s.ufo := by rw [hk, hshape]
        rw [hh] at e1
        have e2 := congrArg UFO.exploding e1
        simp [hu.2.1] at e2
      · exact h ⟨hshot, fun i hi => hal ⟨i, hi⟩, hu⟩
    · have e0 := playerShotCollisions_inactive env s (by simpa using hshot)
      rw [hh] at e0
      have e2 := congrArg (fun st => st.ufo.exploding) e0
      simp [hu.2.1] at e2
  · rw [hh]
    exact ⟨rfl, Or.inl rfl⟩

/-- `CheckCollisions` on a state where step 2 fires: `UFO_POINTS` is added and the UFO
explodes. -/
theorem CheckCollisions_ufoHit (env : Env) (s : GameState) (h : ufoHit s) :
    (CheckCollisions env s).score = s.score + UFO_POINTS ∧
    (CheckCollisions env s).ufo = { s.ufo with exploding := true, explosionTimer := 1 / 2 } := by
  have hcc : CheckCollisions env s =
      alienShotsVsShields env (alienShotsVsPlayer (playerShotCollisions env s)) := rfl
  obtain ⟨p1, p2, -⟩ := alienShotPasses_score_ufo env (playerShotCollisions env s)
  obtain ⟨hs, hh⟩ := playerShotCollisions_ufo env s h.1 h.2.1 h.2.2
  rw [hcc, p1, p2, hh]
  exact ⟨rfl, rfl⟩

/-- `UpdateUFO` keeps a spent UFO spent unless it calls `SpawnUFO`. -/
theorem UpdateUFO_ufoSpent (env : Env) (delta : ℚ) (s : GameState) (h : ufoSpent s.ufo)
    (hns : ¬ (s.ufo.active = false ∧ s.ufo.spawnTimer - delta ≤ 0)) :
    ufoSpent (UpdateUFO env delta s).ufo := by
  cases hact : s.ufo.active
  · rw [UpdateUFO_idle env delta s hact, if_neg (fun hc => hns ⟨hact, hc⟩)]
    exact Or.inr hact
  · have hexp : s.ufo.exploding = true := by
      rcases h with h | h
      · exact h
      · rw [hact] at h
        exact absurd h (by decide)
    rw [UpdateUFO_active env delta s hact]
    obtain ⟨e1, e2⟩ := ufoExitCheck_ufo env delta (ufoMove delta s)
    have hexp' : (ufoExitCheck env delta (ufoMove delta s)).ufo.exploding = true := by
      rw [e1]
      exact hexp
    generalize ufoExitCheck env delta (ufoMove delta s) = t at hexp'
    by_cases ht : t.ufo.explosionTimer - delta ≤ 0
    · exact Or.inr (ufoBurst_expiry env delta t hexp' ht).1
    · left
      unfold ufoBurst
      rw [if_pos hexp']
      simp only []
      rw [if_neg ht]
      exact hexp'

/-- The UFO after a running frame is the UFO after its collision pass, up to the spawn
timer; the UFO before the collision pass is the one `UpdateUFO` makes of the UFO at the
start of the frame. -/
theorem UpdateGame_running_ufo (env : Env) (inp : Input) (s : GameState)
    (hrun : frameRuns inp s) :
    (∃ t, (UpdateGame env inp s).ufo =
      { (CheckCollisions env (stateAtCollisions env inp (pauseToggle inp s))).ufo with
        spawnTimer := t }) ∧
    (stateAtCollisions env inp (pauseToggle inp s)).ufo =
      (UpdateUFO env inp.frameTime (stateAtUFO env inp (pauseToggle inp s))).ufo ∧
    (stateAtUFO env inp (pauseToggle inp s)).ufo = s.ufo := by
  obtain ⟨g, hg⟩ := pauseToggle_shape inp s
  refine ⟨?_, (stateAtCollisions_frame env inp _).1, ?_⟩
  · rw [UpdateGame_running env inp s hrun.1 hrun.2]
    unfold stateAtLoseScan
    obtain ⟨-, -, -, t, ht⟩ := afterCollisions_frame env (List.finRange NUM_ALIENS)
      (updateToCollisions env inp (pauseToggle inp s))
    exact ⟨t, ht⟩
  · rw [(stateAtUFO_frame env inp _).1, hg]

/-- A frame whose collision pass awards the UFO bonus leaves the UFO spent. -/
theorem award_frame_ufoSpent (env : Env) (inp : Input) (s : GameState)
    (h : frameAwardsUFO env inp s) : ufoSpent (UpdateGame env inp s).ufo := by
  obtain ⟨⟨t, ht⟩, -, -⟩ := UpdateGame_running_ufo env inp s h.1
  obtain ⟨-, hu⟩ := CheckCollisions_ufoHit env _ h.2
  rw [ht, hu]
  exact Or.inl rfl

/-- A frame that starts with the UFO spent and does not call `SpawnUFO` awards no UFO bonus
and leaves the UFO spent. -/
theorem spent_frame (env : Env) (inp : Input) (s : GameState) (hs : ufoSpent s.ufo)
    (hns : ¬ spawnDue inp s) :
    ¬ frameAwardsUFO env inp s ∧ ufoSpent (UpdateGame env inp s).ufo := by
  by_cases hrun : frameRuns inp s
  · obtain ⟨⟨t, ht⟩, h2, h3⟩ := UpdateGame_running_ufo env inp s hrun
    have hc : ufoSpent (stateAtCollisions env inp (pauseToggle inp s)).ufo := by
      rw [h2]
      apply UpdateUFO_ufoSpent
      · rw [h3]
        exact hs
      · rw [h3]
        exact fun hc => hns ⟨hrun, hc⟩
    have hnh : ¬ ufoHit (stateAtCollisions env inp (pauseToggle inp s)) := by
      intro hh
      rcases hc with hc | hc
      · rw [hh.2.2.2.1] at hc
        exact absurd hc (by decide)
      · rw [hh.2.2.1] at hc
        exact absurd hc (by decide)
    refine ⟨fun ha => hnh ha.2, ?_⟩
    rw [ht, (CheckCollisions_no_ufoHit env _ hnh).1]
    exact hc
  · refine ⟨fun ha => hrun ha.1, ?_⟩
    cases hgo : s.gameOver
    · have hp : (pauseToggle inp s).gamePaused = true := by
        cases hp : (pauseToggle inp s).gamePaused
        · exact absurd ⟨hgo, hp⟩ hrun
        · rfl
      rw [UpdateGame_paused env inp s hgo hp]
      obtain ⟨g, hg⟩ := pauseToggle_shape inp s
      obtain ⟨g2, hg2⟩ := pauseToggle_shape inp (pauseToggle inp s)
      rw [hg2, hg]
      exact hs
    · unfold UpdateGame
      rw [if_pos hgo]
      split_ifs
      · exact Or.inr (InitGame_flags env s).2.2.2.1
      · exact hs

/-- Between two calls of `SpawnUFO` at most one frame awards the UFO bonus, and none once
the UFO is spent. -/
theorem ufoAwards_le_one (env : Env) (inps : List Input) :
    ∀ s, noSpawn env inps s →
      ufoAwards env inps s ≤ 1 ∧ (ufoSpent s.ufo → ufoAwards env inps s = 0) := by
  induction inps with
  | nil => exact fun s _ => ⟨Nat.zero_le _, fun _ => rfl⟩
  | cons inp rest ih =>
    intro s hno
    obtain ⟨hns, hrest⟩ := hno
    obtain ⟨ih1, ih2⟩ := ih (UpdateGame env inp s) hrest
    have hdef : ufoAwards env (inp :: rest) s =
        (if frameAwardsUFO env inp s then 1 else 0) + ufoAwards env rest (UpdateGame env inp s) :=
      rfl
    constructor
    · by_cases ha : frameAwardsUFO env inp s
      · rw [hdef, if_pos ha, ih2 (award_frame_ufoSpent env inp s ha)]
      · rw [hdef, if_neg ha]
        omega
    · intro hs
      obtain ⟨h1, h2⟩ := spent_frame env inp s hs hns
      rw [hdef, if_neg h1, ih2 h2]

/-! ## Auxiliary lemmas: the mask after a hit -/

/-- What `DamageShield` does to the pixel `(x, y)` of the mask of an active shield. -/
theorem DamageShield_pixel (s : GameState) (i : Fin NUM_SHIELDS) (p : Vector2)
    (hact : (s.shields i).active = true) (x y : Nat)
    (hx : (x : Int) < (s.shields i).renderTexture.texture.width)
    (hy : (y : Int) < (s.shields i).renderTexture.texture.height) :
    GetImageColor (LoadImageFromTexture ((DamageShield i p s).shields i).renderTexture.texture) x y =
      if withinDamageRadius (WorldToShieldTexCoords s i p) x y = true then
        clearAlpha (GetImageColor (LoadImageFromTexture (s.shields i).renderTexture.texture) x y)
      else GetImageColor (LoadImageFromTexture (s.shields i).renderTexture.texture) x y := by
  rw [DamageShield_image s i p hact, damageImage_pixel _ _ x y hx hy]

/-- The collision sample reads one shield only. -/
theorem shieldPixelAt_congr (s t : GameState) (i : Fin NUM_SHIELDS) (p : Vector2)
    (h : t.shields i = s.shields i) : shieldPixelAt t i p = shieldPixelAt s i p := by
  unfold shieldPixelAt WorldToShieldTexCoords
  rw [h]

/-- After `DamageShield (i, p)` on an active shield the collision sample at `p` has alpha 0:
the sampled pixel is within one unit of the mapped point, so it passes the distance test. -/
theorem DamageShield_sample_alpha (s : GameState) (i : Fin NUM_SHIELDS) (p : Vector2)
    (hact : (s.shields i).active = true) :
    (shieldPixelAt (DamageShield i p s) i p).a = 0 := by
  unfold shieldPixelAt
  simp only []
  rw [DamageShield_texCoords, DamageShield_image s i p hact]
  set lh := WorldToShieldTexCoords s i p with hlh
  set img := LoadImageFromTexture (s.shields i).renderTexture.texture with himg
  by_cases hin : 0 ≤ truncToInt lh.x ∧ truncToInt lh.x < img.width ∧
      0 ≤ truncToInt lh.y ∧ truncToInt lh.y < img.height
  · obtain ⟨hx0, hx1, hy0, hy1⟩ := hin
    have hw : 1 ≤ (s.shields i).renderTexture.texture.width := by
      have : img.width = (s.shields i).renderTexture.texture.width := rfl
      omega
    have hh : 1 ≤ (s.shields i).renderTexture.texture.height := by
      have : img.height = (s.shields i).renderTexture.texture.height := rfl
      omega
    obtain ⟨⟨hlx0, -⟩, hly0, -⟩ := texCoords_bounds s i p hw hh
    rw [← hlh] at hlx0 hly0
    have ex : truncToInt lh.x = ((truncToInt lh.x).toNat : Int) := (Int.toNat_of_nonneg hx0).symm
    have ey : truncToInt lh.y = ((truncToInt lh.y).toNat : Int) := (Int.toNat_of_nonneg hy0).symm
    have hwithin : withinDamageRadius lh (truncToInt lh.x).toNat (truncToInt lh.y).toNat = true := by
      have cx : (((truncToInt lh.x).toNat : Nat) : ℚ) = ((truncToInt lh.x : Int) : ℚ) := by
        exact_mod_cast (Int.toNat_of_nonneg hx0)
      have cy : (((truncToInt lh.y).toNat : Nat) : ℚ) = ((truncToInt lh.y : Int) : ℚ) := by
        exact_mod_cast (Int.toNat_of_nonneg hy0)
      have a1 := truncToInt_le hlx0
      have a2 := sub_truncToInt_lt_one hlx0
      have b1 := truncToInt_le hly0
      have b2 := sub_truncToInt_lt_one hly0
      apply withinDamageRadius_near
      · rw [cx, abs_le]
        constructor <;> linarith
      · rw [cy, abs_le]
        constructor <;> linarith
    rw [ex, ey, damageImage_pixel lh img _ _ (by omega) (by omega), if_pos hwithin]
    rfl
  · have hin2 : ¬ (0 ≤ truncToInt lh.x ∧ truncToInt lh.x < (damageImage lh img).width ∧
        0 ≤ truncToInt lh.y ∧ truncToInt lh.y < (damageImage lh img).height) := hin
    unfold GetImageColor
    rw [if_neg hin2]
    rfl

/-! ## Properties of the specification -/

/-- C1: for a shield with positive bounds and a mask of at least 1 x 1, and for every world
point, `WorldToShieldTexCoords` returns `(x, y)` with `0 ≤ x ≤ maskWidth - 1` and
`0 ≤ y ≤ maskHeight - 1`, and the truncated integer coordinates are a valid pixel index. -/
theorem C1_texCoords_valid (s : GameState) (i : Fin NUM_SHIELDS) (p : Vector2)
    (_hbw : 0 < (s.shields i).bounds.width) (_hbh : 0 < (s.shields i).bounds.height)
    (hw : 1 ≤ (s.shields i).renderTexture.texture.width)
    (hh : 1 ≤ (s.shields i).renderTexture.texture.height) :
    (0 ≤ (WorldToShieldTexCoords s i p).x ∧
      (WorldToShieldTexCoords s i p).x ≤ ((s.shields i).renderTexture.texture.width : ℚ) - 1) ∧
    (0 ≤ (WorldToShieldTexCoords s i p).y ∧
      (WorldToShieldTexCoords s i p).y ≤ ((s.shields i).renderTexture.texture.height : ℚ) - 1) ∧
    (0 ≤ truncToInt (WorldToShieldTexCoords s i p).x ∧
      truncToInt (WorldToShieldTexCoords s i p).x < (s.shields i).renderTexture.texture.width) ∧
    (0 ≤ truncToInt (WorldToShieldTexCoords s i p).y ∧
      truncToInt (WorldToShieldTexCoords s i p).y < (s.shields i).renderTexture.texture.height) := by
  obtain ⟨⟨hx0, hx1⟩, hy0, hy1⟩ := texCoords_bounds s i p hw hh
  refine ⟨⟨hx0, ?_⟩, ⟨hy0, ?_⟩, ⟨truncToInt_nonneg hx0, truncToInt_lt hx0 hx1⟩,
    ⟨truncToInt_nonneg hy0, truncToInt_lt hy0 hy1⟩⟩
  · have := hx1
    push_cast at this
    exact this
  · have := hy1
    push_cast at this
    exact this

theorem C1_texCoords_valid_witness :
    (0 ≤ (WorldToShieldTexCoords sampleState 0 ⟨1000, -7⟩).x ∧
      (WorldToShieldTexCoords sampleState 0 ⟨1000, -7⟩).x ≤
        ((sampleState.shields 0).renderTexture.texture.width : ℚ) - 1) ∧
    (0 ≤ (WorldToShieldTexCoords sampleState 0 ⟨1000, -7⟩).y ∧
      (WorldToShieldTexCoords sampleState 0 ⟨1000, -7⟩).y ≤
        ((sampleState.shields 0).renderTexture.texture.height : ℚ) - 1) ∧
    (0 ≤ truncToInt (WorldToShieldTexCoords sampleState 0 ⟨1000, -7⟩).x ∧
      truncToInt (WorldToShieldTexCoords sampleState 0 ⟨1000, -7⟩).x <
        (sampleState.shields 0).renderTexture.texture.width) ∧
    (0 ≤ truncToInt (WorldToShieldTexCoords sampleState 0 ⟨1000, -7⟩).y ∧
      truncToInt (WorldToShieldTexCoords sampleState 0 ⟨1000, -7⟩).y <
        (sampleState.shields 0).renderTexture.texture.height) :=
  C1_texCoords_valid sampleState 0 ⟨1000, -7⟩
    (by norm_num [sampleState, sampleShield]) (by norm_num [sampleState, sampleShield])
    (by simp [sampleState, sampleShield, sampleTexture])
    (by simp [sampleState, sampleShield, sampleTexture])

/-- C2: after `DamageShield (shield, p)` on an active shield the collision sample at `p`,
the mask pixel at the truncated coordinates of `WorldToShieldTexCoords (shield, p)`, has
alpha 0, hence is not above the opacity threshold 10. -/
theorem C2_damaged_point_not_opaque (s : GameState) (i : Fin NUM_SHIELDS) (p : Vector2)
    (hact : (s.shields i).active = true) :
    (shieldPixelAt (DamageShield i p s) i p).a = 0 ∧
      ¬ (shieldPixelAt (DamageShield i p s) i p).a > 10 := by
  have key : (shieldPixelAt (DamageShield i p s) i p).a = 0 := DamageShield_sample_alpha s i p hact
  exact ⟨key, by omega⟩

theorem C2_damaged_point_not_opaque_witness :
    (shieldPixelAt (DamageShield 0 ⟨101, 481⟩ sampleState) 0 ⟨101, 481⟩).a = 0 ∧
      ¬ (shieldPixelAt (DamageShield 0 ⟨101, 481⟩ sampleState) 0 ⟨101, 481⟩).a > 10 :=
  C2_damaged_point_not_opaque sampleState 0 ⟨101, 481⟩ rfl

/-- C4: from a pool with every slot inactive and with no release in between, the k-th
consecutive spawn attempt leaves exactly `min k N` slots active, for `SpawnAlienShot`
(N = `MAX_ALIEN_BULLETS` = 10) and for `SpawnExplosion` (N = `MAX_EXPLOSIONS` = 10): the
first N attempts each activate one slot, and an attempt after N attempts changes nothing. -/
theorem C4_pool_capacity (s : GameState) (hb : ∀ i, (s.alienBullets i).active = false)
    (he : ∀ i, (s.explosions i).active = false) :
    (∀ ps : List Vector2,
      activeBulletCount (ps.foldl (fun st p => SpawnAlienShot p st) s) = min ps.length 10) ∧
    (∀ (ps : List Vector2) (p : Vector2), ps.length = 10 →
      SpawnAlienShot p (ps.foldl (fun st p => SpawnAlienShot p st) s) =
        ps.foldl (fun st p => SpawnAlienShot p st) s) ∧
    (∀ ps : List (Vector2 × Texture2D × Rectangle × Vector2),
      activeExplosionCount (ps.foldl (fun st a => SpawnExplosion a.1 a.2.1 a.2.2.1 a.2.2.2 st) s) =
        min ps.length 10) ∧
    (∀ (ps : List (Vector2 × Texture2D × Rectangle × Vector2))
      (a : Vector2 × Texture2D × Rectangle × Vector2), ps.length = 10 →
      SpawnExplosion a.1 a.2.1 a.2.2.1 a.2.2.2
          (ps.foldl (fun st a => SpawnExplosion a.1 a.2.1 a.2.2.1 a.2.2.2 st) s) =
        ps.foldl (fun st a => SpawnExplosion a.1 a.2.1 a.2.2.1 a.2.2.2 st) s) := by
  have hb0 : activeBulletCount s = 0 := by simp [activeBulletCount, hb]
  have he0 : activeExplosionCount s = 0 := by simp [activeExplosionCount, he]
  have hB : ∀ ps : List Vector2,
      activeBulletCount (ps.foldl (fun st p => SpawnAlienShot p st) s) = min ps.length 10 := by
    intro ps
    rw [spawnAlienShots_count, hb0, Nat.zero_add]
    rfl
  have hE : ∀ ps : List (Vector2 × Texture2D × Rectangle × Vector2),
      activeExplosionCount (ps.foldl (fun st a => SpawnExplosion a.1 a.2.1 a.2.2.1 a.2.2.2 st) s) =
        min ps.length 10 := by
    intro ps
    rw [spawnExplosions_count, he0, Nat.zero_add]
    rfl
  refine ⟨hB, ?_, hE, ?_⟩
  · intro ps p hlen
    rcases SpawnAlienShot_count p (ps.foldl (fun st p => SpawnAlienShot p st) s) with
      ⟨-, h2⟩ | ⟨h1, -⟩
    · rw [hB ps, hlen] at h2
      exact absurd h2 (by decide)
    · exact h1
  · intro ps a hlen
    rcases SpawnExplosion_count a.1 a.2.1 a.2.2.1 a.2.2.2
        (ps.foldl (fun st a => SpawnExplosion a.1 a.2.1 a.2.2.1 a.2.2.2 st) s) with
      ⟨-, h2⟩ | ⟨h1, -⟩
    · rw [hE ps, hlen] at h2
      exact absurd h2 (by decide)
    · exact h1

theorem C4_pool_capacity_witness :
    activeBulletCount
        ((List.replicate 11 (⟨5, 7⟩ : Vector2)).foldl (fun st p => SpawnAlienShot p st) sampleState) =
      min (List.replicate 11 (⟨5, 7⟩ : Vector2)).length 10 :=
  (C4_pool_capacity sampleState (fun _ => rfl) (fun _ => rfl)).1 (List.replicate 11 ⟨5, 7⟩)

/-- C5: `SpawnAlienShot` and `SpawnExplosion` activate and overwrite exactly the
lowest-index inactive slot and leave every other slot and the rest of the state unchanged;
when no slot is inactive the call leaves the whole state unchanged. -/
theorem C5_spawn_first_fit (s : GameState) (p : Vector2) (tex : Texture2D) (texRect : Rectangle)
    (size : Vector2) :
    ((∀ i, (s.alienBullets i).active = true) → SpawnAlienShot p s = s) ∧
    (∀ i, (s.alienBullets i).active = false → (∀ j, j < i → (s.alienBullets j).active = true) →
      SpawnAlienShot p s =
        { s with
          alienBullets :=
            Function.update s.alienBullets i { s.alienBullets i with active := true, position := p } }) ∧
    ((∀ i, (s.explosions i).active = true) → SpawnExplosion p tex texRect size s = s) ∧
    (∀ i, (s.explosions i).active = false → (∀ j, j < i → (s.explosions j).active = true) →
      SpawnExplosion p tex texRect size s =
        { s with
          explosions :=
            Function.update s.explosions i
              { s.explosions i with
                active := true
                position := ⟨p.x - size.x / 2, p.y - size.y / 2⟩
                texture := tex
                textureRect := texRect
                size := size
                timer := 3 / 10 } }) :=
  ⟨SpawnAlienShot_full p s, SpawnAlienShot_lowest p s, SpawnExplosion_full p tex texRect size s,
    SpawnExplosion_lowest p tex texRect size s⟩

theorem C5_spawn_first_fit_witness :
    SpawnAlienShot ⟨5, 7⟩ sampleState =
      { sampleState with
        alienBullets :=
          Function.update sampleState.alienBullets 0
            { sampleState.alienBullets 0 with active := true, position := ⟨5, 7⟩ } } :=
  (C5_spawn_first_fit sampleState ⟨5, 7⟩ sampleTexture ⟨0, 0, 2, 2⟩ ⟨3, 3⟩).2.1 0 rfl
    (fun j hj => absurd hj (Fin.not_lt_zero j))

/-- C6: `SpawnPlayerShot` called while a shot is active leaves the whole state unchanged;
called with no active shot and a player that is not exploding, it activates the shot at
`(player.x + player.width / 2 - shot.width / 2, player.y - shot.height)`. -/
theorem C6_single_player_shot (s : GameState) :
    (s.player.shotActive = true → SpawnPlayerShot s = s) ∧
    (s.player.shotActive = false → s.player.explosionTimer ≤ 0 →
      SpawnPlayerShot s =
        { s with
          player :=
            { s.player with
              shotActive := true
              shotPosition :=
                ⟨s.player.position.x + s.player.size.x / 2 - s.player.shotSize.x / 2,
                  s.player.position.y - s.player.shotSize.y⟩ } }) := by
  constructor
  · intro h
    simp [SpawnPlayerShot, h]
  · intro h ht
    simp [SpawnPlayerShot, h, ht]

theorem C6_single_player_shot_witness :
    SpawnPlayerShot sampleState =
      { sampleState with
        player :=
          { sampleState.player with
            shotActive := true
            shotPosition :=
              ⟨sampleState.player.position.x + sampleState.player.size.x / 2 -
                  sampleState.player.shotSize.x / 2,
                sampleState.player.position.y - sampleState.player.shotSize.y⟩ } } :=
  (C6_single_player_shot sampleState).2 rfl (by norm_num [sampleState])

/-- C7: when the move timer expires in `UpdateAliens` and the swarm moves right with some
active alien whose right edge plus the horizontal increment exceeds the field width, or
moves left with some active alien whose left edge minus the increment is below 0, the step
negates `alienDirection`, adds the vertical drop 2 to the y of every active alien and
leaves the x of every alien (and every inactive alien) unchanged. -/
theorem C7_edge_reversal (env : Env) (delta : ℚ) (s : GameState)
    (hexp : s.alienMoveTimer - delta ≤ 0)
    (hedge :
      (0 < s.alienDirection ∧ ∃ i, (s.aliens i).active = true ∧
        (s.aliens i).position.x + (s.aliens i).size.x + alienHorizontalMove > (SCREEN_WIDTH : ℚ)) ∨
      (s.alienDirection < 0 ∧ ∃ i, (s.aliens i).active = true ∧
        (s.aliens i).position.x - alienHorizontalMove < 0)) :
    (UpdateAliens env delta s).alienDirection = -s.alienDirection ∧
    ∀ i,
      ((s.aliens i).active = true →
        (((UpdateAliens env delta s).aliens i).position.y = (s.aliens i).position.y + 2)) ∧
      ((UpdateAliens env delta s).aliens i).position.x = (s.aliens i).position.x ∧
      ((s.aliens i).active = false → (UpdateAliens env delta s).aliens i = s.aliens i) := by
  have hcond :
      ((findEdges s.aliens).2 + alienHorizontalMove * (s.alienDirection : ℚ) > (SCREEN_WIDTH : ℚ) ∧
          s.alienDirection > 0) ∨
        ((findEdges s.aliens).1 + alienHorizontalMove * (s.alienDirection : ℚ) < 0 ∧
          s.alienDirection < 0) := by
    rcases hedge with ⟨hd, i, hact, hi⟩ | ⟨hd, i, hact, hi⟩
    · left
      have hr := (findEdges_covers s.aliens i hact).2
      have hd1 : (1 : ℚ) ≤ (s.alienDirection : ℚ) := by exact_mod_cast hd
      simp only [alienHorizontalMove] at hi ⊢
      exact ⟨by linarith, hd⟩
    · right
      have hl := (findEdges_covers s.aliens i hact).1
      have hd1 : (s.alienDirection : ℚ) ≤ -1 := by
        have : s.alienDirection ≤ -1 := by omega
        exact_mod_cast this
      simp only [alienHorizontalMove] at hi ⊢
      exact ⟨by linarith, hd⟩
  obtain ⟨t, rc, bs, hshoot⟩ := alienShoot_shape env delta
    (alienStep { s with alienMoveTimer := s.alienMoveTimer - delta })
  have hUA : UpdateAliens env delta s =
      { alienStep { s with alienMoveTimer := s.alienMoveTimer - delta } with
        alienShootTimer := t, randCalls := rc, alienBullets := bs } := by
    unfold UpdateAliens
    simp only []
    rw [if_pos hexp, hshoot]
  have hdir : (alienStep { s with alienMoveTimer := s.alienMoveTimer - delta }).alienDirection =
      -s.alienDirection := by
    unfold alienStep
    simp only []
    rw [if_pos hcond]
    simp
  have hal : ∀ i, (alienStep { s with alienMoveTimer := s.alienMoveTimer - delta }).aliens i =
      movedAlien true (-s.alienDirection) (s.aliens i) := by
    intro i
    unfold alienStep
    simp only []
    rw [if_pos hcond]
    simp only [moveAliens_apply]
    simp
  rw [hUA]
  refine ⟨hdir, fun i => ?_⟩
  simp only [hal]
  cases hact : (s.aliens i).active
  · simp [movedAlien, hact]
  · simp [movedAlien, hact, alienVerticalMove]

theorem C7_edge_reversal_witness :
    (UpdateAliens sampleEnv (1 / 60) sampleState).alienDirection = -sampleState.alienDirection ∧
    ∀ i,
      ((sampleState.aliens i).active = true →
        (((UpdateAliens sampleEnv (1 / 60) sampleState).aliens i).position.y =
          (sampleState.aliens i).position.y + 2)) ∧
      ((UpdateAliens sampleEnv (1 / 60) sampleState).aliens i).position.x =
        (sampleState.aliens i).position.x ∧
      ((sampleState.aliens i).active = false →
        (UpdateAliens sampleEnv (1 / 60) sampleState).aliens i = sampleState.aliens i) :=
  C7_edge_reversal sampleEnv (1 / 60) sampleState (by norm_num [sampleState])
    (Or.inl ⟨by decide, 0, rfl, by
      norm_num [sampleState, sampleAlien, alienHorizontalMove, SCREEN_WIDTH]⟩)

/-- C8: in `CheckCollisions`, if the player shot is active and its rectangle intersects at
least one active alien, then the lowest-index intersecting active alien is deactivated and
every other alien (and every other field of that alien) is unchanged, `aliensAlive`
decreases by exactly 1, `score` increases by exactly that alien's points, and the shot is
deactivated. -/
theorem C8_shot_kills_lowest (env : Env) (s : GameState) (hshot : s.player.shotActive = true)
    (hhit : ∃ i, (s.aliens i).active = true ∧
      CheckCollisionRecs (shotRect s.player) (alienRect (s.aliens i)) = true) :
    ∃ i0,
      ((s.aliens i0).active = true ∧
        CheckCollisionRecs (shotRect s.player) (alienRect (s.aliens i0)) = true ∧
        ∀ j, j < i0 → ¬ ((s.aliens j).active = true ∧
          CheckCollisionRecs (shotRect s.player) (alienRect (s.aliens j)) = true)) ∧
      (CheckCollisions env s).aliens =
        Function.update s.aliens i0 { s.aliens i0 with active := false } ∧
      (CheckCollisions env s).aliensAlive = s.aliensAlive - 1 ∧
      (CheckCollisions env s).score = s.score + (s.aliens i0).points ∧
      (CheckCollisions env s).player.shotActive = false := by
  obtain ⟨i0, hi0, hlow⟩ := exists_lowest_true
    (fun i => (s.aliens i).active && CheckCollisionRecs (shotRect s.player) (alienRect (s.aliens i)))
    (by obtain ⟨i, h1, h2⟩ := hhit; exact ⟨i, by simp [h1, h2]⟩)
  have hfind := find?_finRange_lowest _ i0 hi0 hlow
  have hchain : playerShotCollisions env s = killAlien env i0 s := by
    unfold playerShotCollisions
    rw [if_pos hshot]
    simp only []
    rw [shotVsAliens_eq, hfind]
    rfl
  obtain ⟨k1, k2, k3, k4⟩ := killAlien_fields env i0 s
  obtain ⟨f1, f2, f3, f4⟩ := alienShotPasses_frame env (killAlien env i0 s)
  have hi0' : (s.aliens i0).active = true ∧
      CheckCollisionRecs (shotRect s.player) (alienRect (s.aliens i0)) = true := by
    simpa using hi0
  refine ⟨i0, ⟨hi0'.1, hi0'.2, fun j hj hc => ?_⟩, ?_, ?_, ?_, ?_⟩
  · have := hlow j hj
    simp [hc.1, hc.2] at this
  · unfold CheckCollisions
    simp only []
    rw [hchain, f1, k1]
  · unfold CheckCollisions
    simp only []
    rw [hchain, f2, k2]
  · unfold CheckCollisions
    simp only []
    rw [hchain, f3, k3]
  · unfold CheckCollisions
    simp only []
    rw [hchain, f4, k4]

theorem C8_shot_kills_lowest_witness :
    ∃ i0,
      ((sampleHitState.aliens i0).active = true ∧
        CheckCollisionRecs (shotRect sampleHitState.player) (alienRect (sampleHitState.aliens i0)) = true ∧
        ∀ j, j < i0 → ¬ ((sampleHitState.aliens j).active = true ∧
          CheckCollisionRecs (shotRect sampleHitState.player)
            (alienRect (sampleHitState.aliens j)) = true)) ∧
      (CheckCollisions sampleEnv sampleHitState).aliens =
        Function.update sampleHitState.aliens i0 { sampleHitState.aliens i0 with active := false } ∧
      (CheckCollisions sampleEnv sampleHitState).aliensAlive = sampleHitState.aliensAlive - 1 ∧
      (CheckCollisions sampleEnv sampleHitState).score =
        sampleHitState.score + (sampleHitState.aliens i0).points ∧
      (CheckCollisions sampleEnv sampleHitState).player.shotActive = false :=
  C8_shot_kills_lowest sampleEnv sampleHitState rfl
    ⟨0, rfl, by
      norm_num [CheckCollisionRecs, shotRect, alienRect, sampleHitState, sampleState, sampleAlien]⟩

/-- C9: `aliensAlive` equals the number of aliens whose active flag is set: this holds
after `InitAliens` (and `InitGame`, `NextLevel`), and it is preserved by `UpdateAliens`,
`UpdateBullets`, `UpdateUFO`, `UpdateExplosions`, `CheckCollisions`, `NextLevel` and by
`UpdateGame` as a whole. -/
theorem C9_aliensAlive_counts_active (env : Env) (inp : Input) (delta : ℚ) (s : GameState) :
    aliveCountCorrect (InitAliens env s) ∧
    aliveCountCorrect (InitGame env s) ∧
    aliveCountCorrect (NextLevel env s) ∧
    (aliveCountCorrect s →
      aliveCountCorrect (UpdateAliens env delta s) ∧
      aliveCountCorrect (UpdateBullets env inp s) ∧
      aliveCountCorrect (UpdateUFO env delta s) ∧
      aliveCountCorrect (UpdateExplosions delta s) ∧
      aliveCountCorrect (CheckCollisions env s) ∧
      aliveCountCorrect (UpdateGame env inp s)) := by
  have hInit : ∀ s0, aliveCountCorrect (InitAliens env s0) := fun s0 =>
    aliveCountCorrect_of_init _ (InitAliens_alive env s0).2 (InitAliens_alive env s0).1
  have hGame : ∀ s0, aliveCountCorrect (InitGame env s0) := fun s0 =>
    aliveCountCorrect_of_init _ (InitGame_alive env s0).2 (InitGame_alive env s0).1
  have hNext : ∀ s0, aliveCountCorrect (NextLevel env s0) := fun s0 => by
    obtain ⟨-, h2, h3⟩ := NextLevel_swarm env s0
    exact aliveCountCorrect_of_init _ (fun i => by rw [h3]; exact (initAlien_fields env _ _ _).1) h2
  refine ⟨hInit s, hGame s, hNext s, fun h => ⟨?_, ?_, ?_, ?_, CheckCollisions_alive env s h, ?_⟩⟩
  · obtain ⟨mt, md, dir, al, si, st, rc, bs, h2, hact⟩ := UpdateAliens_shape env delta s
    apply aliveCountCorrect_of_frame s _ _ _ h
    · intro i
      rw [h2]
      exact hact i
    · rw [h2]
  · obtain ⟨a, q, bs, sh, ex, h3⟩ := UpdateBullets_shape env inp s
    apply aliveCountCorrect_of_frame s _ _ _ h
    · intro i
      rw [h3]
    · rw [h3]
  · obtain ⟨u, rc, h4⟩ := UpdateUFO_shape env delta s
    apply aliveCountCorrect_of_frame s _ _ _ h
    · intro i
      rw [h4]
    · rw [h4]
  · exact aliveCountCorrect_of_frame s _ (fun _ => rfl) rfl h
  · unfold UpdateGame
    by_cases hgo : s.gameOver = true
    · rw [if_pos hgo]
      split_ifs
      · exact hGame s
      · exact h
    · rw [if_neg hgo]
      simp only []
      obtain ⟨g, hg⟩ := pauseToggle_shape inp s
      have hp : aliveCountCorrect (pauseToggle inp s) := by
        apply aliveCountCorrect_of_frame s _ _ _ h
        · intro i
          rw [hg]
        · rw [hg]
      by_cases hpa : (pauseToggle inp s).gamePaused = true
      · rw [if_pos hpa]
        obtain ⟨g2, hg2⟩ := pauseToggle_shape inp (pauseToggle inp s)
        apply aliveCountCorrect_of_frame _ _ _ _ hp
        · intro i
          rw [hg2]
        · rw [hg2]
      · rw [if_neg hpa]
        obtain ⟨s1, hs1, -, ha1, hact1⟩ := preCollision_frame env inp (pauseToggle inp s)
        have hc : aliveCountCorrect (updateToCollisions env inp (pauseToggle inp s)) := by
          rw [hs1]
          exact CheckCollisions_alive env s1 (aliveCountCorrect_of_frame _ _ hact1 ha1 hp)
        have hw : aliveCountCorrect
            (checkWin env (updateToCollisions env inp (pauseToggle inp s))) := by
          unfold checkWin
          split_ifs
          · exact hNext _
          · exact hc
        obtain ⟨g3, sh3, h3⟩ := loseScan_shape (List.finRange NUM_ALIENS)
          (checkWin env (updateToCollisions env inp (pauseToggle inp s)))
        apply aliveCountCorrect_of_frame _ _ _ _ hw
        · intro i
          rw [h3]
        · rw [h3]

theorem C9_aliensAlive_counts_active_witness :
    aliveCountCorrect (UpdateGame sampleEnv sampleInput sampleHitState) :=
  (C9_aliensAlive_counts_active sampleEnv sampleInput (1 / 60) sampleHitState).2.2.2
    (by decide!) |>.2.2.2.2.2

/-- C10: in an update that is neither game-over nor paused and in which, after collision
resolution, `aliensAlive` is 0, the UFO is inactive and the player is not exploding, the
wave number increases by exactly 1 and the grid is fully repopulated: `aliensAlive` is 55
and every alien is active at its base position `(80 + 45 c, 80 + 35 r)`. -/
theorem C10_win_transition (env : Env) (inp : Input) (s : GameState)
    (hgo : s.gameOver = false) (hp : (pauseToggle inp s).gamePaused = false)
    (halive : (updateToCollisions env inp (pauseToggle inp s)).aliensAlive = 0)
    (hufo : (updateToCollisions env inp (pauseToggle inp s)).ufo.active = false)
    (hexpl : (updateToCollisions env inp (pauseToggle inp s)).player.explosionTimer ≤ 0) :
    (UpdateGame env inp s).currentWave = s.currentWave + 1 ∧
    (UpdateGame env inp s).aliensAlive = 55 ∧
    ∀ i : Fin NUM_ALIENS,
      ((UpdateGame env inp s).aliens i).active = true ∧
      ((UpdateGame env inp s).aliens i).position = ((UpdateGame env inp s).aliens i).basePosition ∧
      ((UpdateGame env inp s).aliens i).basePosition =
        ⟨80 + 45 * ((i.val % 11 : Nat) : ℚ), 80 + 35 * ((i.val / 11 : Nat) : ℚ)⟩ := by
  have hUG : UpdateGame env inp s =
      loseScan (List.finRange NUM_ALIENS)
        (NextLevel env (updateToCollisions env inp (pauseToggle inp s))) := by
    unfold UpdateGame
    rw [if_neg (by simp [hgo])]
    simp only []
    rw [if_neg (by simp [hp])]
    unfold checkWin
    rw [if_pos ⟨by omega, by simp [hufo], hexpl⟩]
  obtain ⟨s1, hs1, hw1, -, -⟩ := preCollision_frame env inp (pauseToggle inp s)
  obtain ⟨g0, hg0⟩ := pauseToggle_shape inp s
  have hwave : (updateToCollisions env inp (pauseToggle inp s)).currentWave = s.currentWave := by
    rw [hs1, CheckCollisions_currentWave, hw1, hg0]
  obtain ⟨n1, n2, n3⟩ := NextLevel_swarm env (updateToCollisions env inp (pauseToggle inp s))
  rw [hwave] at n1
  rw [hUG]
  generalize updateToCollisions env inp (pauseToggle inp s) = c at n1 n2 n3 ⊢
  generalize NextLevel env c = nl at n1 n2 n3 ⊢
  obtain ⟨g, sh, hl⟩ := loseScan_shape (List.finRange NUM_ALIENS) nl
  rw [hl]
  refine ⟨n1, n2, fun i => ?_⟩
  obtain ⟨a1, a2, a3⟩ := initAlien_fields env (alienRow i) (alienCol i) (c.aliens i)
  have hi : nl.aliens i = initAlien env (alienRow i) (alienCol i) (c.aliens i) := by rw [n3]
  simp only [hi]
  refine ⟨a1, a2, ?_⟩
  rw [a3]
  simp only [alienRow, alienCol, ALIENS_COLS, Vector2.mk.injEq]
  constructor <;> ring

theorem C10_win_transition_witness :
    (UpdateGame sampleEnv sampleInput sampleClearedState).currentWave =
        sampleClearedState.currentWave + 1 ∧
    (UpdateGame sampleEnv sampleInput sampleClearedState).aliensAlive = 55 ∧
    ∀ i : Fin NUM_ALIENS,
      ((UpdateGame sampleEnv sampleInput sampleClearedState).aliens i).active = true ∧
      ((UpdateGame sampleEnv sampleInput sampleClearedState).aliens i).position =
        ((UpdateGame sampleEnv sampleInput sampleClearedState).aliens i).basePosition ∧
      ((UpdateGame sampleEnv sampleInput sampleClearedState).aliens i).basePosition =
        ⟨80 + 45 * ((i.val % 11 : Nat) : ℚ), 80 + 35 * ((i.val / 11 : Nat) : ℚ)⟩ :=
  C10_win_transition sampleEnv sampleInput sampleClearedState rfl rfl (by decide!) (by decide!)
    (by decide!)

/-- C11: in a non-paused, non-game-over update, if at the lose-condition scan some active
alien satisfies `position.y + size.y ≥ player.position.y`, then `gameOver` is set at the
end of that update, whatever `player.lives` is. -/
theorem C11_lose_by_reaching_bottom (env : Env) (inp : Input) (s : GameState)
    (hgo : s.gameOver = false) (hp : (pauseToggle inp s).gamePaused = false)
    (hreach : ∃ i, ((stateAtLoseScan env inp s).aliens i).active = true ∧
      ((stateAtLoseScan env inp s).aliens i).position.y +
          ((stateAtLoseScan env inp s).aliens i).size.y ≥
        (stateAtLoseScan env inp s).player.position.y) :
    (UpdateGame env inp s).gameOver = true := by
  rw [UpdateGame_running env inp s hgo hp]
  obtain ⟨i, h1, h2⟩ := hreach
  exact loseScan_gameOver _ _ ⟨i, List.mem_finRange i, h1, h2⟩

theorem C11_lose_by_reaching_bottom_witness :
    (UpdateGame sampleEnv sampleInput sampleLandedState).gameOver = true :=
  C11_lose_by_reaching_bottom sampleEnv sampleInput sampleLandedState rfl rfl
    ⟨7, by decide!, by decide!⟩

/-- C12: when the death-explosion timer is positive and drops to `≤ 0` in an update,
`player.lives` decreases by exactly 1 (in the player rule and in the whole update); the
rule sets `gameOver` if and only if the new lives count is `≤ 0`, and otherwise it leaves
`gameOver` clear and places the player at
`(SCREEN_WIDTH / 2 - width / 2, SCREEN_HEIGHT - height - 20)`.  While the timer stays
positive, lives and position are unchanged by the whole update. -/
theorem C12_death_explosion_expiry (env : Env) (inp : Input) (s : GameState)
    (hgo : s.gameOver = false) (hp : (pauseToggle inp s).gamePaused = false)
    (hpos : s.player.explosionTimer > 0) :
    (s.player.explosionTimer - inp.frameTime ≤ 0 →
      (updatePlayer inp s).player.lives = s.player.lives - 1 ∧
      ((updatePlayer inp s).gameOver = true ↔ s.player.lives - 1 ≤ 0) ∧
      (¬ s.player.lives - 1 ≤ 0 →
        (updatePlayer inp s).player.position =
          ⟨(SCREEN_WIDTH : ℚ) / 2 - s.player.size.x / 2, (SCREEN_HEIGHT : ℚ) - s.player.size.y - 20⟩) ∧
      (UpdateGame env inp s).player.lives = s.player.lives - 1 ∧
      (s.player.lives - 1 ≤ 0 → (UpdateGame env inp s).gameOver = true) ∧
      (¬ s.player.lives - 1 ≤ 0 →
        (UpdateGame env inp s).player.position =
          ⟨(SCREEN_WIDTH : ℚ) / 2 - s.player.size.x / 2, (SCREEN_HEIGHT : ℚ) - s.player.size.y - 20⟩)) ∧
    (s.player.explosionTimer - inp.frameTime > 0 →
      (updatePlayer inp s).gameOver = false ∧
      (UpdateGame env inp s).player.lives = s.player.lives ∧
      (UpdateGame env inp s).player.position = s.player.position) := by
  obtain ⟨g, hg⟩ := pauseToggle_shape inp s
  have hrun := UpdateGame_running env inp s hgo hp
  obtain ⟨gl, shl, hl⟩ := loseScan_shape (List.finRange NUM_ALIENS) (stateAtLoseScan env inp s)
  obtain ⟨u1, u2, u3, u4, u5⟩ := updateToCollisions_player env inp (pauseToggle inp s)
  obtain ⟨w1, w2, w3⟩ := checkWin_player env (updateToCollisions env inp (pauseToggle inp s))
  have hlives : (UpdateGame env inp s).player.lives =
      (updatePlayer inp (pauseToggle inp s)).player.lives := by
    rw [hrun, hl]
    show (stateAtLoseScan env inp s).player.lives = _
    unfold stateAtLoseScan
    rw [w1, u1]
  have hposn : (UpdateGame env inp s).player.position =
      (stateAtLoseScan env inp s).player.position := by
    rw [hrun, hl]
  have hpl : (pauseToggle inp s).player = s.player := by rw [hg]
  have hpg : (pauseToggle inp s).gameOver = s.gameOver := by rw [hg]
  constructor
  · intro hexp
    obtain ⟨e1, e2, e3, e4, e5⟩ := updatePlayer_expiry inp s hpos hexp
    obtain ⟨f1, f2, f3, f4, f5⟩ := updatePlayer_expiry inp (pauseToggle inp s)
      (by rw [hpl]; exact hpos) (by rw [hpl]; exact hexp)
    rw [hpl] at f1 f2 f3 f4 f5
    refine ⟨e1, ?_, fun hl0 => (e5 hl0).2, ?_, ?_, ?_⟩
    · constructor
      · intro hgt
        by_contra hl0
        rw [(e5 hl0).1, hgo] at hgt
        cases hgt
      · intro hl0
        exact (e4 hl0).1
    · rw [hlives, f1]
    · intro hl0
      rw [hrun]
      apply loseScan_keeps_gameOver
      unfold stateAtLoseScan
      rw [w2, u4]
      exact (f4 hl0).1
    · intro hl0
      rw [hposn]
      unfold stateAtLoseScan
      rcases w3 with hsame | ⟨-, hstart⟩
      · rw [hsame, u2]
        exact (f5 hl0).2
      · rw [hstart, u3, f2]
        rfl
  · intro hstay
    have hc := updatePlayer_countdown inp s hpos hstay
    have hc2 := updatePlayer_countdown inp (pauseToggle inp s)
      (by rw [hpl]; exact hpos) (by rw [hpl]; exact hstay)
    refine ⟨by rw [hc]; exact hgo, ?_, ?_⟩
    · rw [hlives, hc2]
      show (pauseToggle inp s).player.lives = _
      rw [hpl]
    · rw [hposn]
      unfold stateAtLoseScan
      have ht1 : (updatePlayer inp (pauseToggle inp s)).player.explosionTimer > 0 := by
        rw [hc2]
        show (pauseToggle inp s).player.explosionTimer - inp.frameTime > 0
        rw [hpl]
        exact hstay
      have ht2 := u5 ht1
      rcases w3 with hsame | ⟨hle, -⟩
      · rw [hsame, u2, hc2]
        show (pauseToggle inp s).player.position = _
        rw [hpl]
      · rw [ht2] at hle
        exact absurd hle (not_le.mpr ht1)

theorem C12_death_explosion_expiry_witness :
    (UpdateGame sampleEnv sampleInput sampleDyingState).player.lives =
      sampleDyingState.player.lives - 1 :=
  ((C12_death_explosion_expiry sampleEnv sampleInput sampleDyingState rfl rfl (by decide!)).1
    (by decide!)).2.2.2.1

/-- C13: in one `CheckCollisions` call the player shot resolves at most one outcome.  The
player-shot chain ends in exactly one of three ways: one alien is killed (the UFO and all
shield masks are unchanged and `score` rises by that alien's points), or the UFO is hit
(no alien and no shield mask changes and `score` rises by `UFO_POINTS`), or at most a
shield is damaged (aliens, UFO and `score` unchanged).  When the shot intersects an active
alien, whether or not it also intersects the UFO, the UFO is unchanged by the whole call
and `score` rises by one alien's points only.  The score gained in the call is 0, one
alien's points or `UFO_POINTS`.  When the shot intersects no active alien but hits the
flying UFO, the chain changes no shield mask, the call changes no alien and adds
`UFO_POINTS`, and with no enemy projectile in flight the whole call changes no shield. -/
theorem C13_one_outcome_per_shot (env : Env) (s : GameState) :
    ((∃ i, (s.aliens i).active = true ∧
        (playerShotCollisions env s).aliens =
          Function.update s.aliens i { s.aliens i with active := false } ∧
        (playerShotCollisions env s).score = s.score + (s.aliens i).points ∧
        (playerShotCollisions env s).ufo = s.ufo ∧
        (playerShotCollisions env s).shields = s.shields) ∨
      ((playerShotCollisions env s).ufo = { s.ufo with exploding := true, explosionTimer := 1 / 2 } ∧
        (playerShotCollisions env s).score = s.score + UFO_POINTS ∧
        (playerShotCollisions env s).aliens = s.aliens ∧
        (playerShotCollisions env s).shields = s.shields) ∨
      ((playerShotCollisions env s).aliens = s.aliens ∧
        (playerShotCollisions env s).ufo = s.ufo ∧
        (playerShotCollisions env s).score = s.score)) ∧
    (s.player.shotActive = true →
      (∃ i, (s.aliens i).active = true ∧
        CheckCollisionRecs (shotRect s.player) (alienRect (s.aliens i)) = true) →
      (CheckCollisions env s).ufo = s.ufo ∧
      ∃ i, (s.aliens i).active = true ∧
        CheckCollisionRecs (shotRect s.player) (alienRect (s.aliens i)) = true ∧
        (CheckCollisions env s).score = s.score + (s.aliens i).points) ∧
    ((CheckCollisions env s).score = s.score ∨
      (∃ i, (s.aliens i).active = true ∧
        (CheckCollisions env s).score = s.score + (s.aliens i).points) ∨
      (CheckCollisions env s).score = s.score + UFO_POINTS) ∧
    (s.player.shotActive = true →
      (∀ i, ¬ ((s.aliens i).active = true ∧
        CheckCollisionRecs (shotRect s.player) (alienRect (s.aliens i)) = true)) →
      (s.ufo.active = true ∧ s.ufo.exploding = false ∧
        CheckCollisionRecs (shotRect s.player) (ufoRect s.ufo) = true) →
      (playerShotCollisions env s).shields = s.shields ∧
      (CheckCollisions env s).aliens = s.aliens ∧
      (CheckCollisions env s).score = s.score + UFO_POINTS ∧
      ((∀ j, (s.alienBullets j).active = false) →
        (CheckCollisions env s).shields = s.shields)) := by
  have hcc : CheckCollisions env s =
      alienShotsVsShields env (alienShotsVsPlayer (playerShotCollisions env s)) := rfl
  obtain ⟨p1, p2, p3⟩ := alienShotPasses_score_ufo env (playerShotCollisions env s)
  refine ⟨?_, ?_, ?_, ?_⟩
  · rcases playerShotCollisions_outcome env s with ⟨i, ⟨hi, -⟩, hk⟩ | ⟨-, hs, h⟩ | ⟨a, sh, ex, h⟩
    · obtain ⟨hs, ex, w, hshape⟩ := killAlien_shape env i s
      left
      refine ⟨i, hi, ?_, ?_, ?_, ?_⟩ <;> rw [hk, hshape]
    · right
      left
      refine ⟨?_, ?_, ?_, ?_⟩ <;> rw [h]
    · right
      right
      refine ⟨?_, ?_, ?_⟩ <;> rw [h]
  · intro hshot hhit
    obtain ⟨i0, ⟨h1, h2, -⟩, hk⟩ := playerShotCollisions_kill env s hshot hhit
    obtain ⟨hs, ex, w, hshape⟩ := killAlien_shape env i0 s
    refine ⟨?_, i0, h1, h2, ?_⟩
    · rw [hcc, p2, hk, hshape]
    · rw [hcc, p1, hk, hshape]
  · rw [hcc, p1]
    rcases playerShotCollisions_outcome env s with ⟨i, ⟨hi, -⟩, hk⟩ | ⟨-, hs, h⟩ | ⟨a, sh, ex, h⟩
    · obtain ⟨hs, ex, w, hshape⟩ := killAlien_shape env i s
      right
      left
      exact ⟨i, hi, by rw [hk, hshape]⟩
    · right
      right
      rw [h]
    · left
      rw [h]
  · intro hshot hno hu
    obtain ⟨hs, h⟩ := playerShotCollisions_ufo env s hshot hno hu
    refine ⟨by rw [h], by rw [hcc, p3, h], by rw [hcc, p1, h], fun hb => ?_⟩
    rw [hcc, enemyPasses_no_bullets env _ (by rw [h]; exact hb), h]

theorem C13_one_outcome_per_shot_witness :
    ((CheckCollisions sampleEnv sampleHitState).ufo = sampleHitState.ufo ∧
      ∃ i, (sampleHitState.aliens i).active = true ∧
        CheckCollisionRecs (shotRect sampleHitState.player)
          (alienRect (sampleHitState.aliens i)) = true ∧
        (CheckCollisions sampleEnv sampleHitState).score =
          sampleHitState.score + (sampleHitState.aliens i).points) ∧
    (CheckCollisions sampleEnv sampleUfoHitState).score = sampleUfoHitState.score + UFO_POINTS ∧
    (CheckCollisions sampleEnv sampleUfoHitState).shields = sampleUfoHitState.shields :=
  have h := (C13_one_outcome_per_shot sampleEnv sampleUfoHitState).2.2.2 rfl
    (by decide!) (by decide!)
  ⟨(C13_one_outcome_per_shot sampleEnv sampleHitState).2.1 rfl ⟨0, rfl, by decide!⟩,
    h.2.2.1, h.2.2.2 (by decide!)⟩

/-- C14: in step 4 of `CheckCollisions`, if the player is exploding (`explosionTimer > 0`)
nothing changes; otherwise, if some active projectile intersects the player rectangle, the
lowest-index such projectile is deactivated, the death-explosion timer is set to 1, and
every other projectile (and the rest of the state) is unchanged, so every other
intersecting projectile stays active; with no intersecting projectile nothing changes. -/
theorem C14_first_projectile_hits_player (s : GameState) :
    (s.player.explosionTimer > 0 → alienShotsVsPlayer s = s) ∧
    (s.player.explosionTimer ≤ 0 →
      (∃ i, (s.alienBullets i).active = true ∧
        CheckCollisionRecs (bulletRect (s.alienBullets i)) (playerRect s.player) = true) →
      ∃ i0,
        ((s.alienBullets i0).active = true ∧
          CheckCollisionRecs (bulletRect (s.alienBullets i0)) (playerRect s.player) = true ∧
          ∀ j, j < i0 → ¬ ((s.alienBullets j).active = true ∧
            CheckCollisionRecs (bulletRect (s.alienBullets j)) (playerRect s.player) = true)) ∧
        alienShotsVsPlayer s =
          { s with
            alienBullets :=
              Function.update s.alienBullets i0 { s.alienBullets i0 with active := false }
            player := { s.player with explosionTimer := 1 } } ∧
        ∀ j, j ≠ i0 → (alienShotsVsPlayer s).alienBullets j = s.alienBullets j) ∧
    (s.player.explosionTimer ≤ 0 →
      (¬ ∃ i, (s.alienBullets i).active = true ∧
        CheckCollisionRecs (bulletRect (s.alienBullets i)) (playerRect s.player) = true) →
      alienShotsVsPlayer s = s) := by
  refine ⟨fun ht => ?_, fun ht hhit => ?_, fun ht hno => ?_⟩
  · unfold alienShotsVsPlayer
    rw [if_neg (not_le.mpr ht)]
  · obtain ⟨i0, hi0, hlow⟩ := exists_lowest_true
      (fun i => (s.alienBullets i).active &&
        CheckCollisionRecs (bulletRect (s.alienBullets i)) (playerRect s.player))
      (by obtain ⟨i, h1, h2⟩ := hhit; exact ⟨i, by simp [h1, h2]⟩)
    have hfind := find?_finRange_lowest _ i0 hi0 hlow
    have hi0' : (s.alienBullets i0).active = true ∧
        CheckCollisionRecs (bulletRect (s.alienBullets i0)) (playerRect s.player) = true := by
      simpa using hi0
    have heq : alienShotsVsPlayer s =
        { s with
          alienBullets :=
            Function.update s.alienBullets i0 { s.alienBullets i0 with active := false }
          player := { s.player with explosionTimer := 1 } } := by
      unfold alienShotsVsPlayer
      rw [if_pos ht]
      have hb := bulletsVsPlayer_eq (playerRect s.player) (List.finRange MAX_ALIEN_BULLETS) s
      rw [hfind] at hb
      exact hb
    refine ⟨i0, ⟨hi0'.1, hi0'.2, fun j hj hc => ?_⟩, heq, fun j hj => ?_⟩
    · have := hlow j hj
      simp [hc.1, hc.2] at this
    · rw [heq]
      exact Function.update_noteq hj _ _
  · unfold alienShotsVsPlayer
    rw [if_pos ht]
    have hb := bulletsVsPlayer_eq (playerRect s.player) (List.finRange MAX_ALIEN_BULLETS) s
    have hnone : (List.finRange MAX_ALIEN_BULLETS).find? (fun i => (s.alienBullets i).active &&
        CheckCollisionRecs (bulletRect (s.alienBullets i)) (playerRect s.player)) = none := by
      rw [List.find?_eq_none]
      intro i _ hc
      simp only [Bool.and_eq_true] at hc
      exact hno ⟨i, hc.1, hc.2⟩
    rw [hnone] at hb
    exact hb

theorem C14_first_projectile_hits_player_witness :
    ∃ i0,
      ((sampleShotDownState.alienBullets i0).active = true ∧
        CheckCollisionRecs (bulletRect (sampleShotDownState.alienBullets i0))
          (playerRect sampleShotDownState.player) = true ∧
        ∀ j, j < i0 → ¬ ((sampleShotDownState.alienBullets j).active = true ∧
          CheckCollisionRecs (bulletRect (sampleShotDownState.alienBullets j))
            (playerRect sampleShotDownState.player) = true)) ∧
      alienShotsVsPlayer sampleShotDownState =
        { sampleShotDownState with
          alienBullets :=
            Function.update sampleShotDownState.alienBullets i0
              { sampleShotDownState.alienBullets i0 with active := false }
          player := { sampleShotDownState.player with explosionTimer := 1 } } ∧
      ∀ j, j ≠ i0 → (alienShotsVsPlayer sampleShotDownState).alienBullets j =
        sampleShotDownState.alienBullets j :=
  (C14_first_projectile_hits_player sampleShotDownState).2.1 (by decide!) ⟨3, by decide!, by decide!⟩

/-- C15 (as amended): an enemy projectile that hits the player in step 4 of
`CheckCollisions` is deactivated there and is therefore not tested against the shields in
step 5 of the same call: step 5 is the loop over the other projectile slots, and when no
other projectile is active no shield mask changes and no explosion is spawned by step 5,
even if the projectile's rectangle intersects an active shield that is opaque at its
bottom-centre point. -/
theorem C15_hit_projectile_not_tested (env : Env) (s : GameState) (i : Fin MAX_ALIEN_BULLETS)
    (ht : (playerShotCollisions env s).player.explosionTimer ≤ 0)
    (hact : ((playerShotCollisions env s).alienBullets i).active = true)
    (hcol : CheckCollisionRecs (bulletRect ((playerShotCollisions env s).alienBullets i))
      (playerRect (playerShotCollisions env s).player) = true)
    (hlow : ∀ j, j < i → ¬ (((playerShotCollisions env s).alienBullets j).active = true ∧
      CheckCollisionRecs (bulletRect ((playerShotCollisions env s).alienBullets j))
        (playerRect (playerShotCollisions env s).player) = true)) :
    ((alienShotsVsPlayer (playerShotCollisions env s)).alienBullets i).active = false ∧
    CheckCollisions env s =
      ((List.finRange MAX_ALIEN_BULLETS).filter (fun j => decide (j ≠ i))).foldl
        (shieldPassStep env) (alienShotsVsPlayer (playerShotCollisions env s)) ∧
    ((∀ j, j ≠ i → ((playerShotCollisions env s).alienBullets j).active = false) →
      CheckCollisions env s = alienShotsVsPlayer (playerShotCollisions env s) ∧
      (CheckCollisions env s).shields = (playerShotCollisions env s).shields ∧
      (CheckCollisions env s).explosions = (playerShotCollisions env s).explosions) :=
  hitProjectile_skips_shields env (playerShotCollisions env s) i ht hact hcol hlow

theorem C15_hit_projectile_not_tested_witness :
    CheckCollisions sampleEnv sampleDoubleHitState =
        alienShotsVsPlayer (playerShotCollisions sampleEnv sampleDoubleHitState) ∧
      (CheckCollisions sampleEnv sampleDoubleHitState).shields =
        (playerShotCollisions sampleEnv sampleDoubleHitState).shields ∧
      (CheckCollisions sampleEnv sampleDoubleHitState).explosions =
        (playerShotCollisions sampleEnv sampleDoubleHitState).explosions :=
  (C15_hit_projectile_not_tested sampleEnv sampleDoubleHitState 0 (by decide!) (by decide!)
    (by decide!) (by decide!)).2.2 (by decide!)

/-- The claim C15 as stated fails: in `sampleDoubleHitState` the projectile in slot 0 hits
the player in step 4 and its rectangle intersects the active shield 0, whose mask is opaque
at the projectile's bottom-centre point, yet the mask of that shield is the same after the
call. -/
theorem C15_counterexample :
    ¬ ∀ (env : Env) (s : GameState) (i : Fin MAX_ALIEN_BULLETS) (k : Fin NUM_SHIELDS),
      (playerShotCollisions env s).player.explosionTimer ≤ 0 →
      ((playerShotCollisions env s).alienBullets i).active = true →
      CheckCollisionRecs (bulletRect ((playerShotCollisions env s).alienBullets i))
        (playerRect (playerShotCollisions env s).player) = true →
      (∀ j, j < i → ¬ (((playerShotCollisions env s).alienBullets j).active = true ∧
        CheckCollisionRecs (bulletRect ((playerShotCollisions env s).alienBullets j))
          (playerRect (playerShotCollisions env s).player) = true)) →
      ((playerShotCollisions env s).shields k).active = true →
      CheckCollisionRecs (bulletRect ((playerShotCollisions env s).alienBullets i))
        ((playerShotCollisions env s).shields k).bounds = true →
      (shieldPixelAt (playerShotCollisions env s) k
        (bulletBottom (bulletRect ((playerShotCollisions env s).alienBullets i)))).a > 10 →
      (CheckCollisions env s).shields k ≠ (playerShotCollisions env s).shields k := by
  intro h
  have hne := h sampleEnv sampleDoubleHitState 0 0 (by decide!) (by decide!) (by decide!)
    (by decide!) (by decide!) (by decide!) (by decide!)
  have hsame := ((hitProjectile_skips_shields sampleEnv
    (playerShotCollisions sampleEnv sampleDoubleHitState) 0 (by decide!) (by decide!)
    (by decide!) (by decide!)).2.2 (by decide!)).2.1
  exact hne (congrFun hsame 0)

/-- C16: an alien kill in `CheckCollisions` replaces `alienMoveWaitTime` `w` by
`max (0.97 * w) 0.05`; the new value is at least 0.05 and, when `w ≥ 0.05`, not above `w`. -/
theorem C16_kill_speedup (env : Env) (s : GameState) (hshot : s.player.shotActive = true)
    (hhit : ∃ i, (s.aliens i).active = true ∧
      CheckCollisionRecs (shotRect s.player) (alienRect (s.aliens i)) = true) :
    (CheckCollisions env s).alienMoveWaitTime = max (97 / 100 * s.alienMoveWaitTime) (5 / 100) ∧
    (5 / 100 : ℚ) ≤ (CheckCollisions env s).alienMoveWaitTime ∧
    ((5 / 100 : ℚ) ≤ s.alienMoveWaitTime →
      (CheckCollisions env s).alienMoveWaitTime ≤ s.alienMoveWaitTime) := by
  obtain ⟨i0, -, hk⟩ := playerShotCollisions_kill env s hshot hhit
  have hcc : CheckCollisions env s =
      alienShotsVsShields env (alienShotsVsPlayer (playerShotCollisions env s)) := rfl
  have hval : (CheckCollisions env s).alienMoveWaitTime =
      max (97 / 100 * s.alienMoveWaitTime) (5 / 100) := by
    rw [hcc, alienShotPasses_waitTime, hk, killAlien_waitTime]
    rfl
  rw [hval]
  refine ⟨rfl, le_max_right _ _, fun hw => ?_⟩
  apply max_le
  · linarith
  · exact hw

theorem C16_kill_speedup_witness :
    (CheckCollisions sampleEnv sampleHitState).alienMoveWaitTime =
        max (97 / 100 * sampleHitState.alienMoveWaitTime) (5 / 100) ∧
    (5 / 100 : ℚ) ≤ (CheckCollisions sampleEnv sampleHitState).alienMoveWaitTime ∧
    ((5 / 100 : ℚ) ≤ sampleHitState.alienMoveWaitTime →
      (CheckCollisions sampleEnv sampleHitState).alienMoveWaitTime ≤
        sampleHitState.alienMoveWaitTime) :=
  C16_kill_speedup sampleEnv sampleHitState rfl ⟨0, rfl, by decide!⟩

/-- C17: for every wave number `n ≥ 1`, `InitAliens` sets `alienMoveWaitTime` and
`alienMoveTimer` to `0.8 / (1 + (n - 1) * 0.2)`; this is 0.8 for wave 1 and strictly
decreases as the wave number grows. -/
theorem C17_wave_start_wait (env : Env) (s : GameState) (hn : 1 ≤ s.currentWave) :
    (InitAliens env s).alienMoveWaitTime = (8 / 10) / (1 + ((s.currentWave : ℚ) - 1) * (2 / 10)) ∧
    (InitAliens env s).alienMoveTimer = (8 / 10) / (1 + ((s.currentWave : ℚ) - 1) * (2 / 10)) ∧
    (s.currentWave = 1 → (InitAliens env s).alienMoveWaitTime = 8 / 10) ∧
    (∀ s' : GameState, s.currentWave < s'.currentWave →
      (InitAliens env s').alienMoveWaitTime < (InitAliens env s).alienMoveWaitTime) := by
  obtain ⟨h1, h2, -⟩ := InitAliens_waitTime env s
  have hcast : (((s.currentWave - 1 : Int) : ℚ)) = (s.currentWave : ℚ) - 1 := by push_cast; ring
  rw [hcast] at h1 h2
  have hpos : (0 : ℚ) ≤ (s.currentWave : ℚ) - 1 := by
    have : (1 : ℚ) ≤ (s.currentWave : ℚ) := by exact_mod_cast hn
    linarith
  refine ⟨h1, h2, fun h => ?_, fun s' hlt => ?_⟩
  · rw [h1, h]
    norm_num [ALIEN_MOVE_WAIT_TIME_START]
  · obtain ⟨h1', -, -⟩ := InitAliens_waitTime env s'
    have hcast' : (((s'.currentWave - 1 : Int) : ℚ)) = (s'.currentWave : ℚ) - 1 := by
      push_cast; ring
    rw [hcast'] at h1'
    rw [h1, h1']
    have hlt' : (s.currentWave : ℚ) < (s'.currentWave : ℚ) := by exact_mod_cast hlt
    simp only [ALIEN_MOVE_WAIT_TIME_START]
    apply div_lt_div_of_pos_left
    · norm_num
    · nlinarith
    · nlinarith

theorem C17_wave_start_wait_witness :
    (InitAliens sampleEnv sampleState).alienMoveWaitTime = 8 / 10 :=
  (C17_wave_start_wait sampleEnv sampleState (by decide)).2.2.1 rfl

/-- C18 fails at wave 77: after `InitGame` and 76 wave transitions `alienMoveWaitTime` is
`0.8 / (1 + 76 * 0.2) = 4 / 81`, below the floor 0.05 that the kill path applies. -/
theorem C18_wave77_wait_below_floor (env : Env) (s : GameState) :
    ((NextLevel env)^[76] (InitGame env s)).currentWave = 77 ∧
    ((NextLevel env)^[76] (InitGame env s)).alienMoveWaitTime = 4 / 81 ∧
    ((NextLevel env)^[76] (InitGame env s)).alienMoveWaitTime < 5 / 100 := by
  have h75 : ((NextLevel env)^[75] (InitGame env s)).currentWave = 76 := by
    rw [iterate_NextLevel_currentWave, InitGame_currentWave]
    norm_num
  have h76 : ((NextLevel env)^[76] (InitGame env s)).alienMoveWaitTime = 4 / 81 := by
    rw [Function.iterate_succ_apply', (NextLevel_waitTime env _).2, h75]
    norm_num [ALIEN_MOVE_WAIT_TIME_START]
  refine ⟨?_, h76, ?_⟩
  · rw [iterate_NextLevel_currentWave, InitGame_currentWave]
    norm_num
  · rw [h76]
    norm_num

/-- C19: when the shoot timer expires with `aliensAlive = a` in 1..55, the new
`alienShootTimer` is `max 0.1 ((r / 100) * (0.5 + 0.5 * a / 55))` for the draw `r` of
`GetRandomValue (50, 200)`, which lies in 50..200; the scale factor is 1 at `a = 55`, grows
by the constant 1/110 per alien (so it decreases linearly as `a` decreases) and stays above
0.5; the result is never below 0.1 nor above 2. -/
theorem C19_shoot_timer_reschedule (env : Env) (delta : ℚ) (s : GameState)
    (hexp : s.alienShootTimer - delta ≤ 0) (ha1 : 1 ≤ s.aliensAlive) (ha2 : s.aliensAlive ≤ 55) :
    (∃ (r : Int) (s1 : GameState), r = (GetRandomValue env 50 200 s1).1 ∧ 50 ≤ r ∧ r ≤ 200 ∧
      (UpdateAliens env delta s).alienShootTimer =
        max (1 / 10) (((r : ℚ) / 100) * (1 / 2 + 1 / 2 * ((s.aliensAlive : ℚ) / 55)))) ∧
    (1 / 10 : ℚ) ≤ (UpdateAliens env delta s).alienShootTimer ∧
    (UpdateAliens env delta s).alienShootTimer ≤ 2 ∧
    (∀ a : Int, shootIntervalMultiplier a = 1 / 2 + 1 / 2 * ((a : ℚ) / 55)) ∧
    shootIntervalMultiplier 55 = 1 ∧
    (∀ a : Int, shootIntervalMultiplier (a + 1) - shootIntervalMultiplier a = 1 / 110) ∧
    (∀ a : Int, 1 ≤ a → 1 / 2 < shootIntervalMultiplier a) := by
  have hm : ∀ a : Int, shootIntervalMultiplier a = 1 / 2 + 1 / 2 * ((a : ℚ) / 55) := by
    intro a
    simp only [shootIntervalMultiplier, NUM_ALIENS, ALIENS_ROWS, ALIENS_COLS]
    push_cast
    ring
  obtain ⟨sA, hUA, hA1, hA2, -, -, -⟩ := UpdateAliens_eq_alienShoot env delta s
  obtain ⟨hf, -, -⟩ := alienShoot_fire env delta sA (by rw [hA1]; exact hexp) (by rw [hA2]; omega)
  generalize shooterLoop env NUM_ALIENS { sA with alienShootTimer := sA.alienShootTimer - delta } = s1
    at hf
  obtain ⟨hr1, hr2⟩ := GetRandomValue_range env 50 200 s1 (by decide)
  rw [hA2, hm] at hf
  generalize hr : (GetRandomValue env 50 200 s1).1 = r at hf hr1 hr2
  have hval : (UpdateAliens env delta s).alienShootTimer =
      max (1 / 10) (((r : ℚ) / 100) * (1 / 2 + 1 / 2 * ((s.aliensAlive : ℚ) / 55))) := by
    rw [hUA, hf]
  have hrq1 : (50 : ℚ) ≤ (r : ℚ) := by exact_mod_cast hr1
  have hrq2 : (r : ℚ) ≤ 200 := by exact_mod_cast hr2
  have haq1 : (1 : ℚ) ≤ (s.aliensAlive : ℚ) := by exact_mod_cast ha1
  have haq2 : (s.aliensAlive : ℚ) ≤ 55 := by exact_mod_cast ha2
  refine ⟨?_, ?_, ?_, hm, ?_, ?_, ?_⟩
  · exact ⟨r, s1, hr.symm, hr1, hr2, hval⟩
  · rw [hval]
    exact le_max_left _ _
  · rw [hval]
    apply max_le
    · norm_num
    · have hfac : 1 / 2 + 1 / 2 * ((s.aliensAlive : ℚ) / 55) ≤ 1 := by linarith
      have hfac0 : 0 ≤ 1 / 2 + 1 / 2 * ((s.aliensAlive : ℚ) / 55) := by
        have : 0 ≤ (s.aliensAlive : ℚ) / 55 := by positivity
        linarith
      have hr0 : (r : ℚ) / 100 ≤ 2 := by linarith
      have hr00 : 0 ≤ (r : ℚ) / 100 := by linarith
      calc (r : ℚ) / 100 * (1 / 2 + 1 / 2 * ((s.aliensAlive : ℚ) / 55))
          ≤ 2 * 1 := mul_le_mul hr0 hfac hfac0 (by norm_num)
        _ = 2 := by norm_num
  · rw [hm]
    norm_num
  · intro a
    rw [hm, hm]
    push_cast
    ring
  · intro a ha
    rw [hm]
    have : (1 : ℚ) ≤ (a : ℚ) := by exact_mod_cast ha
    have : 0 < (a : ℚ) / 55 := by positivity
    linarith

theorem C19_shoot_timer_reschedule_witness :
    (1 / 10 : ℚ) ≤ (UpdateAliens sampleEnv 2 sampleState).alienShootTimer ∧
      (UpdateAliens sampleEnv 2 sampleState).alienShootTimer ≤ 2 :=
  ⟨(C19_shoot_timer_reschedule sampleEnv 2 sampleState (by decide!) (by decide) (by decide)).2.1,
    (C19_shoot_timer_reschedule sampleEnv 2 sampleState (by decide!) (by decide) (by decide)).2.2.1⟩

/-- C20: when the shoot timer expires with `aliensAlive > 0`, the selection loop makes at
most `NUM_ALIENS` = 55 draws (one more draw reschedules the timer) and spawns at most one
projectile, and `alienShootTimer` is rescheduled to a positive value; if every selection
draw picks an inactive alien, the projectile pool is unchanged and all 55 draws are used.
When `aliensAlive` is 0 no draw is made and no projectile is spawned. -/
theorem C20_shooter_selection (env : Env) (delta : ℚ) (s : GameState)
    (hexp : s.alienShootTimer - delta ≤ 0) :
    (∀ s0 : GameState, (shooterLoop env NUM_ALIENS s0).randCalls ≤ s0.randCalls + 55 ∧
      activeBulletCount (shooterLoop env NUM_ALIENS s0) ≤ activeBulletCount s0 + 1) ∧
    (0 < s.aliensAlive →
      (UpdateAliens env delta s).randCalls ≤ s.randCalls + 55 + 1 ∧
      activeBulletCount (UpdateAliens env delta s) ≤ activeBulletCount s + 1 ∧
      0 < (UpdateAliens env delta s).alienShootTimer ∧
      ((∀ k : Nat, k < 55 →
          (s.aliens (alienSlot (GetRandomValue env 0 ((NUM_ALIENS : Int) - 1)
            { s with randCalls := s.randCalls + k }).1)).active = false) →
        (UpdateAliens env delta s).alienBullets = s.alienBullets ∧
        (UpdateAliens env delta s).randCalls = s.randCalls + 55 + 1 ∧
        0 < (UpdateAliens env delta s).alienShootTimer)) ∧
    (s.aliensAlive ≤ 0 →
      (UpdateAliens env delta s).randCalls = s.randCalls ∧
      (UpdateAliens env delta s).alienBullets = s.alienBullets) := by
  have hloop : ∀ s0 : GameState, (shooterLoop env NUM_ALIENS s0).randCalls ≤ s0.randCalls + 55 ∧
      activeBulletCount (shooterLoop env NUM_ALIENS s0) ≤ activeBulletCount s0 + 1 :=
    fun s0 => ⟨(shooterLoop_randCalls env NUM_ALIENS s0).2, shooterLoop_count env NUM_ALIENS s0⟩
  obtain ⟨sA, hUA, hA1, hA2, hA3, hA4, hA5⟩ := UpdateAliens_eq_alienShoot env delta s
  refine ⟨hloop, fun hpos => ?_, fun hzero => ?_⟩
  · obtain ⟨hf1, hf2, hf3⟩ := alienShoot_fire env delta sA (by rw [hA1]; exact hexp)
      (by rw [hA2]; exact hpos)
    obtain ⟨hl1, hl2⟩ := hloop { sA with alienShootTimer := sA.alienShootTimer - delta }
    have htimer : 0 < (UpdateAliens env delta s).alienShootTimer := by
      rw [hUA, hf1]
      exact lt_of_lt_of_le (by norm_num) (le_max_left _ _)
    have hcount : activeBulletCount (UpdateAliens env delta s) =
        activeBulletCount (shooterLoop env NUM_ALIENS
          { sA with alienShootTimer := sA.alienShootTimer - delta }) := by
      simp only [activeBulletCount]
      rw [hUA, hf2]
    have hcA : activeBulletCount { sA with alienShootTimer := sA.alienShootTimer - delta } =
        activeBulletCount s := by
      simp only [activeBulletCount]
      rw [hA4]
    refine ⟨?_, ?_, htimer, fun hall => ?_⟩
    · rw [hUA, hf3]
      have : ({ sA with alienShootTimer := sA.alienShootTimer - delta } : GameState).randCalls =
          s.randCalls := hA3
      omega
    · rw [hcount]
      omega
    · have hsl := shooterLoop_all_inactive env NUM_ALIENS
        { sA with alienShootTimer := sA.alienShootTimer - delta } (by
          intro k hk
          have hk' : k < 55 := hk
          have := hall k hk'
          have hd : (GetRandomValue env 0 ((NUM_ALIENS : Int) - 1)
              { ({ sA with alienShootTimer := sA.alienShootTimer - delta } : GameState) with
                randCalls :=
                  ({ sA with alienShootTimer := sA.alienShootTimer - delta } : GameState).randCalls + k }).1 =
              (GetRandomValue env 0 ((NUM_ALIENS : Int) - 1)
                { s with randCalls := s.randCalls + k }).1 :=
            GetRandomValue_fst_congr env _ _ _ _ (by
              show sA.randCalls + k = s.randCalls + k
              rw [hA3])
          rw [hd]
          show (sA.aliens _).active = false
          rw [hA5]
          exact this)
      rw [hsl] at hf2 hf3
      refine ⟨?_, ?_, htimer⟩
      · rw [hUA, hf2]
        exact hA4
      · rw [hUA, hf3]
        show sA.randCalls + NUM_ALIENS + 1 = s.randCalls + 55 + 1
        rw [hA3]
        rfl
  · have hidle := alienShoot_idle env delta sA (by rw [hA2]; exact hzero)
    rw [hUA, hidle]
    exact ⟨hA3, hA4⟩

theorem C20_shooter_selection_witness :
    (UpdateAliens sampleEnv 2 sampleGapState).alienBullets = sampleGapState.alienBullets ∧
      (UpdateAliens sampleEnv 2 sampleGapState).randCalls = sampleGapState.randCalls + 55 + 1 ∧
      0 < (UpdateAliens sampleEnv 2 sampleGapState).alienShootTimer :=
  ((C20_shooter_selection sampleEnv 2 sampleGapState (by decide!)).2.1 (by decide)).2.2.2
    (by decide!)

/-- C21: when the UFO is inactive and its spawn timer reaches `≤ 0` in `UpdateUFO`, the UFO
becomes active and not exploding at `y = 50`, either at `x = -ufo.size.x` (its right edge on
the left screen edge) with speed `+UFO_SPEED`, or at `x = SCREEN_WIDTH` with speed
`-UFO_SPEED`; while the timer stays positive the UFO stays inactive. -/
theorem C21_ufo_spawn (env : Env) (delta : ℚ) (s : GameState) (hidle : s.ufo.active = false) :
    (s.ufo.spawnTimer - delta ≤ 0 →
      (UpdateUFO env delta s).ufo.active = true ∧
      (UpdateUFO env delta s).ufo.exploding = false ∧
      (UpdateUFO env delta s).ufo.position.y = 50 ∧
      (((UpdateUFO env delta s).ufo.position.x = -(UpdateUFO env delta s).ufo.size.x ∧
          (UpdateUFO env delta s).ufo.position.x + (UpdateUFO env delta s).ufo.size.x ≤ 0 ∧
          (UpdateUFO env delta s).ufo.speed = UFO_SPEED ∧ 0 < (UpdateUFO env delta s).ufo.speed) ∨
        ((UpdateUFO env delta s).ufo.position.x = (SCREEN_WIDTH : ℚ) ∧
          (UpdateUFO env delta s).ufo.speed = -UFO_SPEED ∧
          (UpdateUFO env delta s).ufo.speed < 0))) ∧
    (s.ufo.spawnTimer - delta > 0 →
      (UpdateUFO env delta s).ufo.active = false ∧
      (UpdateUFO env delta s).ufo.spawnTimer = s.ufo.spawnTimer - delta) := by
  rw [UpdateUFO_idle env delta s hidle]
  refine ⟨fun h => ?_, fun h => ?_⟩
  · rw [if_pos h]
    obtain ⟨h1, h2, h3, h4, h5⟩ :=
      SpawnUFO_ufo env { s with ufo := { s.ufo with spawnTimer := s.ufo.spawnTimer - delta } }
    refine ⟨h1, h2, h3, ?_⟩
    rcases h4 with ⟨hx, hv⟩ | ⟨hx, hv⟩
    · left
      refine ⟨by rw [hx, h5], by rw [hx, h5]; simp, hv, ?_⟩
      rw [hv]
      norm_num [UFO_SPEED]
    · right
      refine ⟨hx, hv, ?_⟩
      rw [hv]
      norm_num [UFO_SPEED]
  · rw [if_neg (not_le.mpr h)]
    exact ⟨hidle, rfl⟩

theorem C21_ufo_spawn_witness :
    (UpdateUFO sampleEnv (1 / 60) sampleUfoDueState).ufo.active = true ∧
    (UpdateUFO sampleEnv (1 / 60) sampleUfoDueState).ufo.position.y = 50 :=
  have h := (C21_ufo_spawn sampleEnv (1 / 60) sampleUfoDueState rfl).1 (by decide!)
  ⟨h.1, h.2.2.1⟩

/-- C22 fails: when a travelling, non-exploding UFO has fully left the screen after its
move, `UpdateUFO` deactivates it but sets `spawnTimer` to `GetRandomValue (600, 1800) * delta`,
a draw from 600..1800 scaled by the frame time, not a draw from
`[UFO_SPAWN_INTERVAL_MIN, UFO_SPAWN_INTERVAL_MAX]`; for every frame time below 1/60 s the
new timer is below `UFO_SPAWN_INTERVAL_MIN`. -/
theorem C22_exit_timer_scaled_by_frame_time (env : Env) (delta : ℚ) (s : GameState)
    (hact : s.ufo.active = true) (hne : s.ufo.exploding = false)
    (hexit : (s.ufo.speed > 0 ∧ s.ufo.position.x + s.ufo.speed * delta > (SCREEN_WIDTH : ℚ)) ∨
      (s.ufo.speed < 0 ∧ s.ufo.position.x + s.ufo.speed * delta + s.ufo.size.x < 0)) :
    (UpdateUFO env delta s).ufo.active = false ∧
    (UpdateUFO env delta s).ufo.spawnTimer = ((GetRandomValue env 600 1800 s).1 : ℚ) * delta ∧
    600 ≤ (GetRandomValue env 600 1800 s).1 ∧ (GetRandomValue env 600 1800 s).1 ≤ 1800 ∧
    (0 ≤ delta → delta < 1 / 60 → (UpdateUFO env delta s).ufo.spawnTimer < UFO_SPAWN_INTERVAL_MIN) := by
  obtain ⟨hr1, hr2⟩ := GetRandomValue_range env 600 1800 s (by decide)
  have hleave : ufoExitCheck env delta (ufoMove delta s) = ufoLeave env delta (ufoMove delta s) := by
    unfold ufoExitCheck
    rcases hexit with h | h
    · have h' : (ufoMove delta s).ufo.speed > 0 ∧
          (ufoMove delta s).ufo.position.x > (SCREEN_WIDTH : ℚ) := h
      rw [if_pos h']
    · have h' : (ufoMove delta s).ufo.speed < 0 ∧
          (ufoMove delta s).ufo.position.x + (ufoMove delta s).ufo.size.x < 0 := h
      by_cases h1 : (ufoMove delta s).ufo.speed > 0 ∧
          (ufoMove delta s).ufo.position.x > (SCREEN_WIDTH : ℚ)
      · rw [if_pos h1]
      · rw [if_neg h1, if_pos h']
  have hU : UpdateUFO env delta s = ufoLeave env delta (ufoMove delta s) := by
    rw [UpdateUFO_active env delta s hact, hleave, ufoBurst_idle]
    exact hne
  have hdraw : (GetRandomValue env 600 1800 (ufoMove delta s)).1 = (GetRandomValue env 600 1800 s).1 :=
    GetRandomValue_fst_congr env _ _ _ _ rfl
  have hval : (UpdateUFO env delta s).ufo.spawnTimer =
      ((GetRandomValue env 600 1800 s).1 : ℚ) * delta := by
    rw [hU, (ufoLeave_ufo env delta _).2.2.2, hdraw]
  refine ⟨by rw [hU]; rfl, hval, hr1, hr2, fun h0 h1 => ?_⟩
  rw [hval]
  generalize (GetRandomValue env 600 1800 s).1 = r at hr1 hr2
  have q2 : (r : ℚ) ≤ 1800 := by exact_mod_cast hr2
  have hb : (r : ℚ) * delta ≤ 1800 * delta := mul_le_mul_of_nonneg_right q2 h0
  simp only [UFO_SPAWN_INTERVAL_MIN]
  linarith

theorem C22_exit_timer_scaled_by_frame_time_witness :
    (UpdateUFO sampleEnv (1 / 60) sampleUfoExitState).ufo.active = false ∧
    (UpdateUFO sampleEnv (1 / 60) sampleUfoExitState).ufo.spawnTimer = 10 ∧
    (10 : ℚ) < UFO_SPAWN_INTERVAL_MIN :=
  have h := C22_exit_timer_scaled_by_frame_time sampleEnv (1 / 60) sampleUfoExitState rfl rfl
    (by decide!)
  ⟨h.1, h.2.1.trans (by decide!), by decide!⟩

/-- C23: when the active player shot overlaps no active alien and overlaps the active,
non-exploding UFO, `CheckCollisions` sets `ufo.exploding` with `explosionTimer = 0.5`,
adds `UFO_POINTS = 200` to `score` and deactivates the shot; when the explosion timer of an
active, exploding UFO reaches `≤ 0` in `UpdateUFO`, the UFO becomes inactive and
non-exploding with `spawnTimer` in `[30, 240]`. -/
theorem C23_ufo_hit_and_expiry (env : Env) (delta : ℚ) (s : GameState) :
    (s.player.shotActive = true →
      (∀ i, ¬ ((s.aliens i).active = true ∧
        CheckCollisionRecs (shotRect s.player) (alienRect (s.aliens i)) = true)) →
      (s.ufo.active = true ∧ s.ufo.exploding = false ∧
        CheckCollisionRecs (shotRect s.player) (ufoRect s.ufo) = true) →
      (CheckCollisions env s).ufo = { s.ufo with exploding := true, explosionTimer := 1 / 2 } ∧
      (CheckCollisions env s).score = s.score + 200 ∧
      (CheckCollisions env s).player.shotActive = false) ∧
    (s.ufo.active = true → s.ufo.exploding = true → s.ufo.explosionTimer - delta ≤ 0 →
      (UpdateUFO env delta s).ufo.active = false ∧
      (UpdateUFO env delta s).ufo.exploding = false ∧
      30 ≤ (UpdateUFO env delta s).ufo.spawnTimer ∧
      (UpdateUFO env delta s).ufo.spawnTimer ≤ 240) := by
  refine ⟨fun hshot hno hu => ?_, fun hact hexp ht => ?_⟩
  · have hcc : CheckCollisions env s =
        alienShotsVsShields env (alienShotsVsPlayer (playerShotCollisions env s)) := rfl
    obtain ⟨hs, h⟩ := playerShotCollisions_ufo env s hshot hno hu
    obtain ⟨t, bs, h1⟩ := alienShotsVsPlayer_shape (playerShotCollisions env s)
    obtain ⟨bs2, sh, ex, h2⟩ :=
      alienShotsVsShields_shape env (alienShotsVsPlayer (playerShotCollisions env s))
    rw [hcc, h2, h1, h]
    exact ⟨rfl, rfl, rfl⟩
  · rw [UpdateUFO_active env delta s hact]
    obtain ⟨e1, e2⟩ := ufoExitCheck_ufo env delta (ufoMove delta s)
    exact ufoBurst_expiry env delta _ (by rw [e1]; exact hexp) (by rw [e2]; exact ht)

theorem C23_ufo_hit_and_expiry_witness :
    ((CheckCollisions sampleEnv sampleUfoHitState).score = sampleUfoHitState.score + 200 ∧
      (CheckCollisions sampleEnv sampleUfoHitState).player.shotActive = false) ∧
    (UpdateUFO sampleEnv (1 / 60) sampleUfoBurstState).ufo.active = false :=
  ⟨((C23_ufo_hit_and_expiry sampleEnv (1 / 60) sampleUfoHitState).1 rfl (by decide!)
      (by decide!)).2,
    ((C23_ufo_hit_and_expiry sampleEnv (1 / 60) sampleUfoBurstState).2 rfl rfl (by decide!)).1⟩

/-- C24: if the pause flag is set, the game is not over and the pause key is not pressed in
this frame, `UpdateGame` returns the state it was given: every field is unchanged. -/
theorem C24_paused_frame_untouched (env : Env) (inp : Input) (s : GameState)
    (hp : s.gamePaused = true) (hgo : s.gameOver = false) (hk : inp.keyPPressed = false) :
    UpdateGame env inp s = s := by
  unfold UpdateGame pauseToggle
  simp [hp, hgo, hk]

theorem C24_paused_frame_untouched_witness :
    UpdateGame sampleEnv sampleInput samplePausedState = samplePausedState :=
  C24_paused_frame_untouched sampleEnv sampleInput samplePausedState rfl rfl rfl

/-- C25: after `NextLevel` the player shot and all 10 enemy projectiles are inactive, the
player is at the default position, the UFO spawn timer lies in `[30, 240]`, and every shield
is active with a mask of the size of the base texture whose content is the base texture drawn
on a cleared target: it does not depend on the earlier mask, it is the mask `InitGame`
builds, and it is the base image itself when the renderer reproduces the texture. -/
theorem C25_next_level_reset (env : Env) (s : GameState) :
    (NextLevel env s).player.shotActive = false ∧
    (∀ i, ((NextLevel env s).alienBullets i).active = false) ∧
    (NextLevel env s).player.position =
      ⟨(SCREEN_WIDTH : ℚ) / 2 - s.player.size.x / 2, (SCREEN_HEIGHT : ℚ) - s.player.size.y - 20⟩ ∧
    (NextLevel env s).player.size = s.player.size ∧
    (30 ≤ (NextLevel env s).ufo.spawnTimer ∧ (NextLevel env s).ufo.spawnTimer ≤ 240) ∧
    (∀ i, ((NextLevel env s).shields i).active = true ∧
      ((NextLevel env s).shields i).baseTexture = env.res.shieldTexture ∧
      ((NextLevel env s).shields i).renderTexture.texture.width = env.res.shieldTexture.width ∧
      ((NextLevel env s).shields i).renderTexture.texture.height = env.res.shieldTexture.height ∧
      ((NextLevel env s).shields i).renderTexture.texture.pixels =
        env.drawOnBlank env.res.shieldTexture ∧
      (∀ s0 : GameState, ((NextLevel env s).shields i).renderTexture =
        ((InitGame env s0).shields i).renderTexture) ∧
      (env.drawOnBlank env.res.shieldTexture = env.res.shieldTexture.pixels →
        ((NextLevel env s).shields i).renderTexture.texture = env.res.shieldTexture)) := by
  obtain ⟨hb, ht, hsh⟩ := NextLevel_reset env s
  obtain ⟨w, t, st, rc, bs, ut, sh, h⟩ := NextLevel_shape env s
  refine ⟨by rw [h], hb, by rw [h]; rfl, by rw [h], ht, fun i => ?_⟩
  rw [hsh i]
  refine ⟨rfl, rfl, rfl, rfl, rfl, fun s0 => by rw [InitGame_shields]; rfl, fun hr => ?_⟩
  show (⟨env.res.shieldTexture.width, env.res.shieldTexture.height,
    env.drawOnBlank env.res.shieldTexture⟩ : Texture2D) = env.res.shieldTexture
  rw [hr]

theorem C25_next_level_reset_witness :
    ((NextLevel sampleEnv sampleState).shields 0).renderTexture.texture =
      sampleEnv.res.shieldTexture :=
  ((C25_next_level_reset sampleEnv sampleState).2.2.2.2.2 0).2.2.2.2.2.2 rfl

/-- C26: for a base shield texture of width `w ≥ 0` and height `h` with `4 * 2w ≤ SCREEN_WIDTH`,
`InitShields` gives shield `i` the bounds `(g + i * (2w + g), 480, 2w, 2h)` with
`g = (800 - 4 * 2w) / 5`, and the position is the bounds origin; the left margin, each gap
between consecutive shields and the right margin equal `g ≥ 0`; the bounds lie inside
`[0, 800]`, no two of them overlap (a shield ends at or before the start of every later one,
strictly before it when `4 * 2w < SCREEN_WIDTH`), and `CheckCollisionRecs` is false on every
pair of distinct shields. -/
theorem C26_shield_layout (env : Env) (s : GameState)
    (hw0 : 0 ≤ env.res.shieldTexture.width)
    (hw : 4 * (2 * env.res.shieldTexture.width) ≤ SCREEN_WIDTH) :
    shieldSpacing env = (800 - 4 * (2 * (env.res.shieldTexture.width : ℚ))) / 5 ∧
    0 ≤ shieldSpacing env ∧
    (∀ i : Fin NUM_SHIELDS,
      ((InitShields env s).shields i).bounds =
        ⟨shieldSpacing env +
            (i.val : ℚ) * (2 * (env.res.shieldTexture.width : ℚ) + shieldSpacing env),
          480, 2 * (env.res.shieldTexture.width : ℚ), 2 * (env.res.shieldTexture.height : ℚ)⟩ ∧
      ((InitShields env s).shields i).position =
        ⟨((InitShields env s).shields i).bounds.x, ((InitShields env s).shields i).bounds.y⟩ ∧
      0 ≤ ((InitShields env s).shields i).bounds.x ∧
      ((InitShields env s).shields i).bounds.x + ((InitShields env s).shields i).bounds.width ≤ 800) ∧
    ((InitShields env s).shields 0).bounds.x = shieldSpacing env ∧
    (∀ i j : Fin NUM_SHIELDS, j.val = i.val + 1 →
      ((InitShields env s).shields j).bounds.x -
          (((InitShields env s).shields i).bounds.x + ((InitShields env s).shields i).bounds.width) =
        shieldSpacing env) ∧
    800 - (((InitShields env s).shields 3).bounds.x + ((InitShields env s).shields 3).bounds.width) =
      shieldSpacing env ∧
    (∀ i j : Fin NUM_SHIELDS, i < j →
      ((InitShields env s).shields i).bounds.x + ((InitShields env s).shields i).bounds.width ≤
          ((InitShields env s).shields j).bounds.x ∧
      (4 * (2 * env.res.shieldTexture.width) < SCREEN_WIDTH →
        ((InitShields env s).shields i).bounds.x + ((InitShields env s).shields i).bounds.width <
          ((InitShields env s).shields j).bounds.x)) ∧
    (∀ i j : Fin NUM_SHIELDS, i ≠ j →
      CheckCollisionRecs ((InitShields env s).shields i).bounds
        ((InitShields env s).shields j).bounds = false) := by
  have hg : shieldSpacing env = (800 - 4 * (2 * (env.res.shieldTexture.width : ℚ))) / 5 := by
    simp only [shieldSpacing, SCREEN_WIDTH, NUM_SHIELDS]
    push_cast
    ring
  have hwq0 : (0 : ℚ) ≤ (env.res.shieldTexture.width : ℚ) := by exact_mod_cast hw0
  have hwq : 4 * (2 * (env.res.shieldTexture.width : ℚ)) ≤ 800 := by
    have : ((4 * (2 * env.res.shieldTexture.width) : Int) : ℚ) ≤ ((SCREEN_WIDTH : Int) : ℚ) := by
      exact_mod_cast hw
    simpa [SCREEN_WIDTH] using this
  have hg0 : 0 ≤ shieldSpacing env := by
    rw [hg]
    linarith
  have hb : ∀ i : Fin NUM_SHIELDS, ((InitShields env s).shields i).bounds =
      ⟨shieldSpacing env +
          (i.val : ℚ) * (2 * (env.res.shieldTexture.width : ℚ) + shieldSpacing env),
        480, 2 * (env.res.shieldTexture.width : ℚ), 2 * (env.res.shieldTexture.height : ℚ)⟩ := by
    intro i
    rw [InitShields_apply]
    simp only [freshShield, SCREEN_HEIGHT]
    rw [Rectangle.mk.injEq]
    exact ⟨by ring, by norm_num, by ring, by ring⟩
  have hp : ∀ i : Fin NUM_SHIELDS, ((InitShields env s).shields i).position =
      ⟨((InitShields env s).shields i).bounds.x, ((InitShields env s).shields i).bounds.y⟩ := by
    intro i
    rw [InitShields_apply]
    rfl
  have hx : ∀ i : Fin NUM_SHIELDS, ((InitShields env s).shields i).bounds.x =
      shieldSpacing env +
        (i.val : ℚ) * (2 * (env.res.shieldTexture.width : ℚ) + shieldSpacing env) := by
    intro i
    rw [hb i]
  have hwd : ∀ i : Fin NUM_SHIELDS, ((InitShields env s).shields i).bounds.width =
      2 * (env.res.shieldTexture.width : ℚ) := by
    intro i
    rw [hb i]
  have hi0 : ∀ i : Fin NUM_SHIELDS, (0 : ℚ) ≤ (i.val : ℚ) := fun i => Nat.cast_nonneg _
  have hi3 : ∀ i : Fin NUM_SHIELDS, (i.val : ℚ) ≤ 3 := by
    intro i
    have : i.val ≤ 3 := Nat.lt_succ_iff.mp i.isLt
    exact_mod_cast this
  have hstep : 0 ≤ 2 * (env.res.shieldTexture.width : ℚ) + shieldSpacing env := by linarith
  have hlt : ∀ i j : Fin NUM_SHIELDS, i < j →
      ((InitShields env s).shields i).bounds.x + ((InitShields env s).shields i).bounds.width ≤
          ((InitShields env s).shields j).bounds.x ∧
      (4 * (2 * env.res.shieldTexture.width) < SCREEN_WIDTH →
        ((InitShields env s).shields i).bounds.x + ((InitShields env s).shields i).bounds.width <
          ((InitShields env s).shields j).bounds.x) := by
    intro i j hij
    rw [hx i, hx j, hwd i]
    have hij' : (i.val : ℚ) + 1 ≤ (j.val : ℚ) := by
      have : i.val + 1 ≤ j.val := hij
      exact_mod_cast this
    have hm : ((i.val : ℚ) + 1) * (2 * (env.res.shieldTexture.width : ℚ) + shieldSpacing env) ≤
        (j.val : ℚ) * (2 * (env.res.shieldTexture.width : ℚ) + shieldSpacing env) :=
      mul_le_mul_of_nonneg_right hij' hstep
    refine ⟨by linarith, fun hs => ?_⟩
    have hsq : 4 * (2 * (env.res.shieldTexture.width : ℚ)) < 800 := by
      have : ((4 * (2 * env.res.shieldTexture.width) : Int) : ℚ) < ((SCREEN_WIDTH : Int) : ℚ) := by
        exact_mod_cast hs
      simpa [SCREEN_WIDTH] using this
    have hgpos : 0 < shieldSpacing env := by
      rw [hg]
      linarith
    linarith
  refine ⟨hg, hg0, fun i => ⟨hb i, hp i, ?_, ?_⟩, ?_, ?_, ?_, hlt, ?_⟩
  · rw [hx i]
    have := mul_nonneg (hi0 i) hstep
    linarith
  · rw [hx i, hwd i]
    have := mul_le_mul_of_nonneg_right (hi3 i) hstep
    rw [hg] at this ⊢
    linarith
  · rw [hx 0]
    simp
  · intro i j hij
    rw [hx i, hx j, hwd i]
    have : (j.val : ℚ) = (i.val : ℚ) + 1 := by exact_mod_cast hij
    rw [this]
    ring
  · rw [hx 3, hwd 3, hg]
    have : ((3 : Fin NUM_SHIELDS).val : ℚ) = 3 := rfl
    rw [this]
    ring
  · intro i j hij
    rcases lt_or_gt_of_ne hij with h | h
    · have := (hlt i j h).1
      unfold CheckCollisionRecs
      rw [decide_eq_false_iff_not]
      intro hc
      exact absurd hc.1.2 (not_lt.mpr this)
    · have := (hlt j i h).1
      unfold CheckCollisionRecs
      rw [decide_eq_false_iff_not]
      intro hc
      exact absurd hc.1.1 (not_lt.mpr this)

theorem C26_shield_layout_witness :
    ((InitShields sampleEnv sampleState).shields 0).bounds.x = shieldSpacing sampleEnv ∧
    CheckCollisionRecs ((InitShields sampleEnv sampleState).shields 0).bounds
      ((InitShields sampleEnv sampleState).shields 1).bounds = false :=
  have h := C26_shield_layout sampleEnv sampleState (by decide) (by decide)
  ⟨h.2.2.2.1, h.2.2.2.2.2.2.2 0 1 (by decide)⟩

/-- C27: `WorldToShieldTexCoords` returns the clamp to `[0, dim - 1]` of
`x = (wx - shield.x) * maskWidth / bounds.width` and
`y = maskHeight - (wy - shield.y) * maskHeight / bounds.height`, and these values themselves
when they lie in the clamp range.  For a shield with positive bounds and a mask of at least
1 x 1, mask x is non-decreasing in world x, mask y is non-increasing in world y, the top
edge of the shield maps to mask row `maskHeight - 1` and its bottom edge to row 0. -/
theorem C27_texCoords_flip (s : GameState) (i : Fin NUM_SHIELDS)
    (hbw : 0 < (s.shields i).bounds.width) (hbh : 0 < (s.shields i).bounds.height)
    (hw : 1 ≤ (s.shields i).renderTexture.texture.width)
    (hh : 1 ≤ (s.shields i).renderTexture.texture.height) :
    (∀ p : Vector2,
      texLocalX s i p =
        (p.x - (s.shields i).position.x) * ((s.shields i).renderTexture.texture.width : ℚ) /
          (s.shields i).bounds.width ∧
      texLocalY s i p =
        ((s.shields i).renderTexture.texture.height : ℚ) -
          (p.y - (s.shields i).position.y) * ((s.shields i).renderTexture.texture.height : ℚ) /
            (s.shields i).bounds.height ∧
      (WorldToShieldTexCoords s i p).x =
        min (max (texLocalX s i p) 0) (((s.shields i).renderTexture.texture.width : ℚ) - 1) ∧
      (WorldToShieldTexCoords s i p).y =
        min (max (texLocalY s i p) 0) (((s.shields i).renderTexture.texture.height : ℚ) - 1) ∧
      (0 ≤ texLocalX s i p →
        texLocalX s i p ≤ ((s.shields i).renderTexture.texture.width : ℚ) - 1 →
        (WorldToShieldTexCoords s i p).x = texLocalX s i p) ∧
      (0 ≤ texLocalY s i p →
        texLocalY s i p ≤ ((s.shields i).renderTexture.texture.height : ℚ) - 1 →
        (WorldToShieldTexCoords s i p).y = texLocalY s i p)) ∧
    (∀ p q : Vector2, p.x ≤ q.x →
      (WorldToShieldTexCoords s i p).x ≤ (WorldToShieldTexCoords s i q).x) ∧
    (∀ p q : Vector2, p.y ≤ q.y →
      (WorldToShieldTexCoords s i q).y ≤ (WorldToShieldTexCoords s i p).y) ∧
    (∀ p : Vector2, p.y = (s.shields i).position.y →
      (WorldToShieldTexCoords s i p).y = ((s.shields i).renderTexture.texture.height : ℚ) - 1) ∧
    (∀ p : Vector2, p.y = (s.shields i).position.y + (s.shields i).bounds.height →
      (WorldToShieldTexCoords s i p).y = 0) := by
  have hwq : (1 : ℚ) ≤ ((s.shields i).renderTexture.texture.width : ℚ) := by exact_mod_cast hw
  have hhq : (1 : ℚ) ≤ ((s.shields i).renderTexture.texture.height : ℚ) := by exact_mod_cast hh
  have hsx : 0 ≤ ((s.shields i).renderTexture.texture.width : ℚ) / (s.shields i).bounds.width :=
    div_nonneg (by linarith) (le_of_lt hbw)
  have hsy : 0 ≤ ((s.shields i).renderTexture.texture.height : ℚ) / (s.shields i).bounds.height :=
    div_nonneg (by linarith) (le_of_lt hbh)
  have hx : ∀ p : Vector2, (WorldToShieldTexCoords s i p).x =
      min (max (texLocalX s i p) 0) (((s.shields i).renderTexture.texture.width : ℚ) - 1) := by
    intro p
    rw [WorldToShieldTexCoords_eq]
  have hy : ∀ p : Vector2, (WorldToShieldTexCoords s i p).y =
      min (max (texLocalY s i p) 0) (((s.shields i).renderTexture.texture.height : ℚ) - 1) := by
    intro p
    rw [WorldToShieldTexCoords_eq]
  refine ⟨fun p => ⟨?_, ?_, hx p, hy p, fun h0 h1 => ?_, fun h0 h1 => ?_⟩,
    fun p q hpq => ?_, fun p q hpq => ?_, fun p hp => ?_, fun p hp => ?_⟩
  · simp only [texLocalX]
    ring
  · simp only [texLocalY]
    ring
  · rw [hx p, max_eq_left h0, min_eq_left h1]
  · rw [hy p, max_eq_left h0, min_eq_left h1]
  · rw [hx p, hx q]
    have hl : texLocalX s i p ≤ texLocalX s i q := by
      simp only [texLocalX]
      exact mul_le_mul_of_nonneg_right (by linarith) hsx
    exact min_le_min (max_le_max hl le_rfl) le_rfl
  · rw [hy p, hy q]
    have hl : texLocalY s i q ≤ texLocalY s i p := by
      simp only [texLocalY]
      have := mul_le_mul_of_nonneg_right
        (show p.y - (s.shields i).position.y ≤ q.y - (s.shields i).position.y by linarith) hsy
      linarith
    exact min_le_min (max_le_max hl le_rfl) le_rfl
  · have hl : texLocalY s i p = ((s.shields i).renderTexture.texture.height : ℚ) := by
      simp only [texLocalY, hp]
      ring
    rw [hy p, hl, max_eq_left (by linarith), min_eq_right (by linarith)]
  · have hl : texLocalY s i p = 0 := by
      simp only [texLocalY, hp]
      field_simp
    rw [hy p, hl, max_eq_left le_rfl, min_eq_left (by linarith)]

theorem C27_texCoords_flip_witness :
    (WorldToShieldTexCoords sampleState 0 ⟨101, 480⟩).y = 1 ∧
    (WorldToShieldTexCoords sampleState 0 ⟨101, 484⟩).y = 0 :=
  have h := C27_texCoords_flip sampleState 0 (by decide!) (by decide!) (by decide) (by decide)
  ⟨(h.2.2.2.1 ⟨101, 480⟩ rfl).trans (by decide!), h.2.2.2.2 ⟨101, 484⟩ (by decide!)⟩

/-- C28: `DamageShield` is idempotent and order-independent: for every state, shield and
world points `p`, `q`, stamping `p` twice or three times (as the alien-contact rule of
`UpdateGame` does) gives the same state, hence the same mask, as stamping it once, and
stamping `p` then `q` gives the same state as stamping `q` then `p`; the alien-contact rule
is the same loop with a single stamp per overlapped shield. -/
theorem C28_damage_idempotent_commutes (s : GameState) (i : Fin NUM_SHIELDS) (p q : Vector2) :
    DamageShield i p (DamageShield i p s) = DamageShield i p s ∧
    DamageShield i p (DamageShield i p (DamageShield i p s)) = DamageShield i p s ∧
    DamageShield i q (DamageShield i p s) = DamageShield i p (DamageShield i q s) ∧
    (∀ a : Fin NUM_ALIENS, alienVsShields a s =
      (List.finRange NUM_SHIELDS).foldl
        (fun s sh =>
          if (s.shields sh).active ∧
              CheckCollisionRecs (alienRect (s.aliens a)) (s.shields sh).bounds then
            DamageShield sh
              ⟨(s.aliens a).position.x + (s.aliens a).size.x / 2,
                (s.aliens a).position.y + (s.aliens a).size.y⟩ s
          else s)
        s) := by
  refine ⟨DamageShield_idem s i p, ?_, ?_, fun a => ?_⟩
  · rw [DamageShield_idem, DamageShield_idem]
  · cases h : (s.shields i).active
    · rw [DamageShield_inactive s i p h, DamageShield_inactive s i q h,
        DamageShield_inactive s i p h]
    · rw [DamageShield_twice s i p q h, DamageShield_twice s i q p h, damageImage_comm]
  · unfold alienVsShields
    simp only [DamageShield_idem]

/-- C30: on every timer-expired swarm step of `UpdateAliens`, horizontal or descending, the
animation-frame flag of every active alien is negated and that of every inactive alien is
kept, `alienMoveSoundIndex` `i` becomes `(i + 1) % 4` (C remainder), which for `i ≥ 0` is
`(i + 1) mod 4` and lies in 0..3, and `alienMoveTimer` is set to `alienMoveWaitTime`, which
the call does not change. -/
theorem C30_step_bookkeeping (env : Env) (delta : ℚ) (s : GameState)
    (hexp : s.alienMoveTimer - delta ≤ 0) :
    (∀ i,
      ((s.aliens i).active = true →
        ((UpdateAliens env delta s).aliens i).currentFrame = !(s.aliens i).currentFrame) ∧
      ((s.aliens i).active = false →
        ((UpdateAliens env delta s).aliens i).currentFrame = (s.aliens i).currentFrame)) ∧
    (UpdateAliens env delta s).alienMoveSoundIndex = Int.tmod (s.alienMoveSoundIndex + 1) 4 ∧
    (0 ≤ s.alienMoveSoundIndex →
      (UpdateAliens env delta s).alienMoveSoundIndex = (s.alienMoveSoundIndex + 1) % 4 ∧
      0 ≤ (UpdateAliens env delta s).alienMoveSoundIndex ∧
      (UpdateAliens env delta s).alienMoveSoundIndex ≤ 3) ∧
    (UpdateAliens env delta s).alienMoveTimer = s.alienMoveWaitTime ∧
    (UpdateAliens env delta s).alienMoveTimer = (UpdateAliens env delta s).alienMoveWaitTime ∧
    (UpdateAliens env delta s).moveDown = decide (edgeHit s) := by
  obtain ⟨t, rc, bs, hUA⟩ := UpdateAliens_step env delta s hexp
  obtain ⟨hsi, htm, hwt, -, hal⟩ :=
    alienStep_fields { s with alienMoveTimer := s.alienMoveTimer - delta }
  have hmd := alienStep_moveDown { s with alienMoveTimer := s.alienMoveTimer - delta }
  generalize alienStep { s with alienMoveTimer := s.alienMoveTimer - delta } = A
    at hUA hsi htm hwt hal hmd
  have hsi' : (UpdateAliens env delta s).alienMoveSoundIndex =
      Int.tmod (s.alienMoveSoundIndex + 1) 4 := by
    rw [hUA]
    exact hsi
  have htm' : (UpdateAliens env delta s).alienMoveTimer = s.alienMoveWaitTime := by
    rw [hUA]
    exact htm
  have hwt' : (UpdateAliens env delta s).alienMoveWaitTime = s.alienMoveWaitTime := by
    rw [hUA]
    exact hwt
  refine ⟨fun i => ?_, hsi', fun h0 => ?_, htm', by rw [htm', hwt'], ?_⟩
  · have hi : (UpdateAliens env delta s).aliens i =
        movedAlien (decide (edgeHit { s with alienMoveTimer := s.alienMoveTimer - delta }))
          (if edgeHit { s with alienMoveTimer := s.alienMoveTimer - delta } then
            s.alienDirection * -1 else s.alienDirection) (s.aliens i) := by
      rw [hUA]
      exact hal i
    rw [hi]
    constructor
    · intro hact
      unfold movedAlien
      rw [if_pos hact]
      split_ifs <;> rfl
    · intro hact
      unfold movedAlien
      rw [if_neg (by simp [hact])]
  · rw [hsi', Int.tmod_eq_emod (by omega) (by decide)]
    omega
  · rw [hUA]
    exact hmd

theorem C30_step_bookkeeping_witness :
    (UpdateAliens sampleEnv 2 sampleMidState).alienMoveSoundIndex = 1 ∧
    (UpdateAliens sampleEnv 2 sampleMidState).alienMoveTimer = sampleMidState.alienMoveWaitTime :=
  have h := C30_step_bookkeeping sampleEnv 2 sampleMidState (by decide!)
  ⟨h.2.1.trans (by decide), h.2.2.2.1⟩

/-- C33: after `InitAliens`, for every row `r` in 0..4 and column `c` in 0..10 the alien at
index `r * 11 + c` is active with `position = basePosition = (80 + 45 c, 80 + 35 r)` and
animation frame `false`; its tier and points depend on the row alone: row 0 is
`ALIEN_TYPE_3` worth 30, rows 1 and 2 are `ALIEN_TYPE_2` worth 20, rows 3 and 4 are
`ALIEN_TYPE_1` worth 10; `alienDirection` is `+1`. -/
theorem C33_initial_grid (env : Env) (s : GameState) :
    (∀ (r : Fin ALIENS_ROWS) (c : Fin ALIENS_COLS),
      (alienIndex r c).val = r.val * 11 + c.val ∧
      ((InitAliens env s).aliens (alienIndex r c)).active = true ∧
      ((InitAliens env s).aliens (alienIndex r c)).position =
        ⟨80 + 45 * (c.val : ℚ), 80 + 35 * (r.val : ℚ)⟩ ∧
      ((InitAliens env s).aliens (alienIndex r c)).basePosition =
        ⟨80 + 45 * (c.val : ℚ), 80 + 35 * (r.val : ℚ)⟩ ∧
      ((InitAliens env s).aliens (alienIndex r c)).currentFrame = false ∧
      (r.val = 0 →
        ((InitAliens env s).aliens (alienIndex r c)).type = AlienType.ALIEN_TYPE_3 ∧
        ((InitAliens env s).aliens (alienIndex r c)).points = 30) ∧
      (r.val = 1 ∨ r.val = 2 →
        ((InitAliens env s).aliens (alienIndex r c)).type = AlienType.ALIEN_TYPE_2 ∧
        ((InitAliens env s).aliens (alienIndex r c)).points = 20) ∧
      (r.val = 3 ∨ r.val = 4 →
        ((InitAliens env s).aliens (alienIndex r c)).type = AlienType.ALIEN_TYPE_1 ∧
        ((InitAliens env s).aliens (alienIndex r c)).points = 10)) ∧
    (∀ j : Fin NUM_ALIENS, ∃ r c, j = alienIndex r c) ∧
    (InitAliens env s).alienDirection = 1 := by
  obtain ⟨w, t, st, rc, h⟩ := InitAliens_shape env s
  have hal : ∀ j, (InitAliens env s).aliens j =
      initAlien env (alienRow j) (alienCol j) (s.aliens j) := by
    intro j
    rw [h]
  refine ⟨fun r c => ?_, fun j => ⟨alienRow j, alienCol j, (alienIndex_row_col j).symm⟩, by rw [h]⟩
  rw [hal, alienRow_alienIndex, alienCol_alienIndex]
  obtain ⟨f1, f2, f3⟩ := initAlien_fields env r c (s.aliens (alienIndex r c))
  obtain ⟨g1, g2, g3, g4⟩ := initAlien_tier env r c (s.aliens (alienIndex r c))
  have hb : (initAlien env r c (s.aliens (alienIndex r c))).basePosition =
      ⟨80 + 45 * (c.val : ℚ), 80 + 35 * (r.val : ℚ)⟩ := by
    rw [f3, Vector2.mk.injEq]
    exact ⟨by ring, by ring⟩
  refine ⟨rfl, f1, by rw [f2, hb], hb, g1, fun h0 => ?_, fun h12 => ?_, fun h34 => ?_⟩
  · exact ⟨(g2 h0).1, (g2 h0).2.1⟩
  · exact ⟨(g3 h12).1, (g3 h12).2.1⟩
  · exact ⟨(g4 h34).1, (g4 h34).2.1⟩

theorem C33_initial_grid_witness :
    ((InitAliens sampleEnv sampleState).aliens
      (alienIndex ⟨1, by decide⟩ ⟨3, by decide⟩)).points = 20 ∧
    ((InitAliens sampleEnv sampleState).aliens
      (alienIndex ⟨0, by decide⟩ ⟨3, by decide⟩)).points = 30 :=
  ⟨(((C33_initial_grid sampleEnv sampleState).1 ⟨1, by decide⟩
      ⟨3, by decide⟩).2.2.2.2.2.2.1 (Or.inl rfl)).2,
    (((C33_initial_grid sampleEnv sampleState).1 ⟨0, by decide⟩
      ⟨3, by decide⟩).2.2.2.2.2.1 rfl).2⟩

/-- C38: whenever the reschedule of `UpdateAliens` runs (the shoot timer expired with
`aliensAlive ≥ 1`), the product `(draw / 100) * (0.5 + 0.5 * aliensAlive / 55)` of a draw in
50..200 is greater than 0.25, so the new `alienShootTimer` is the product itself: the branch
that raises it to 0.1 is never taken. -/
theorem C38_shoot_floor_unreachable (env : Env) (delta : ℚ) (s : GameState)
    (hexp : s.alienShootTimer - delta ≤ 0) (ha : 1 ≤ s.aliensAlive) :
    (∀ r a : Int, 50 ≤ r → r ≤ 200 → 1 ≤ a →
      (1 / 4 : ℚ) < ((r : ℚ) / 100) * (1 / 2 + 1 / 2 * ((a : ℚ) / 55)) ∧
      ((r : ℚ) / 100) * shootIntervalMultiplier a =
        ((r : ℚ) / 100) * (1 / 2 + 1 / 2 * ((a : ℚ) / 55)) ∧
      ¬ (((r : ℚ) / 100) * shootIntervalMultiplier a < 1 / 10)) ∧
    ∃ (r : Int) (s1 : GameState), r = (GetRandomValue env 50 200 s1).1 ∧ 50 ≤ r ∧ r ≤ 200 ∧
      (UpdateAliens env delta s).alienShootTimer =
        ((r : ℚ) / 100) * (1 / 2 + 1 / 2 * ((s.aliensAlive : ℚ) / 55)) ∧
      (1 / 4 : ℚ) < (UpdateAliens env delta s).alienShootTimer := by
  have hm : ∀ a : Int, shootIntervalMultiplier a = 1 / 2 + 1 / 2 * ((a : ℚ) / 55) := by
    intro a
    simp only [shootIntervalMultiplier, NUM_ALIENS, ALIENS_ROWS, ALIENS_COLS]
    push_cast
    ring
  have hprod : ∀ r a : Int, 50 ≤ r → r ≤ 200 → 1 ≤ a →
      (1 / 4 : ℚ) < ((r : ℚ) / 100) * (1 / 2 + 1 / 2 * ((a : ℚ) / 55)) := by
    intro r a h1 _ h3
    have q1 : (50 : ℚ) ≤ (r : ℚ) := by exact_mod_cast h1
    have q3 : (1 : ℚ) ≤ (a : ℚ) := by exact_mod_cast h3
    have hf : (1 / 2 : ℚ) < 1 / 2 + 1 / 2 * ((a : ℚ) / 55) := by
      have : 0 < (a : ℚ) / 55 := by positivity
      linarith
    have hr : (1 / 2 : ℚ) ≤ (r : ℚ) / 100 := by linarith
    nlinarith
  refine ⟨fun r a h1 h2 h3 => ⟨hprod r a h1 h2 h3, by rw [hm], ?_⟩, ?_⟩
  · rw [hm]
    have := hprod r a h1 h2 h3
    linarith
  · obtain ⟨sA, hUA, hA1, hA2, -, -, -⟩ := UpdateAliens_eq_alienShoot env delta s
    obtain ⟨hf, -, -⟩ := alienShoot_fire env delta sA (by rw [hA1]; exact hexp)
      (by rw [hA2]; omega)
    generalize shooterLoop env NUM_ALIENS { sA with alienShootTimer := sA.alienShootTimer - delta }
      = s1 at hf
    obtain ⟨hr1, hr2⟩ := GetRandomValue_range env 50 200 s1 (by decide)
    rw [hA2, hm] at hf
    have hp := hprod (GetRandomValue env 50 200 s1).1 s.aliensAlive hr1 hr2 ha
    have hval : (UpdateAliens env delta s).alienShootTimer =
        (((GetRandomValue env 50 200 s1).1 : ℚ) / 100) *
          (1 / 2 + 1 / 2 * ((s.aliensAlive : ℚ) / 55)) := by
      rw [hUA, hf]
      exact max_eq_right (by linarith)
    exact ⟨_, s1, rfl, hr1, hr2, hval, by rw [hval]; exact hp⟩

theorem C38_shoot_floor_unreachable_witness :
    (1 / 4 : ℚ) < (UpdateAliens sampleEnv 2 sampleState).alienShootTimer :=
  have h := (C38_shoot_floor_unreachable sampleEnv 2 sampleState (by decide!) (by decide)).2
  h.elim fun _ h1 => h1.elim fun _ h2 => h2.2.2.2.2

/-- C35: if `alienDirection` is `+1` or `-1` and every active alien satisfies `0 ≤ x` and
`x + width ≤ SCREEN_WIDTH` before `UpdateAliens`, then the same holds after it and
`alienDirection` is still `+1` or `-1`, for every `delta`; and in every state the y of no
alien decreases in `UpdateAliens`. -/
theorem C35_swarm_stays_in_field (env : Env) (delta : ℚ) (s : GameState) :
    ((s.alienDirection = 1 ∨ s.alienDirection = -1) →
      (∀ i, (s.aliens i).active = true →
        0 ≤ (s.aliens i).position.x ∧
        (s.aliens i).position.x + (s.aliens i).size.x ≤ (SCREEN_WIDTH : ℚ)) →
      (∀ i, ((UpdateAliens env delta s).aliens i).active = true →
        0 ≤ ((UpdateAliens env delta s).aliens i).position.x ∧
        ((UpdateAliens env delta s).aliens i).position.x +
          ((UpdateAliens env delta s).aliens i).size.x ≤ (SCREEN_WIDTH : ℚ)) ∧
      ((UpdateAliens env delta s).alienDirection = 1 ∨
        (UpdateAliens env delta s).alienDirection = -1)) ∧
    (∀ i, (s.aliens i).position.y ≤ ((UpdateAliens env delta s).aliens i).position.y) := by
  by_cases hrun : s.alienMoveTimer - delta > 0
  · obtain ⟨t, rc, bs, hUA⟩ := UpdateAliens_wait env delta s hrun
    rw [hUA]
    exact ⟨fun hdir hin => ⟨hin, hdir⟩, fun i => le_rfl⟩
  · obtain ⟨t, rc, bs, hUA⟩ := UpdateAliens_step env delta s (not_lt.mp hrun)
    obtain ⟨-, -, -, hdir', hal⟩ :=
      alienStep_fields { s with alienMoveTimer := s.alienMoveTimer - delta }
    generalize alienStep { s with alienMoveTimer := s.alienMoveTimer - delta } = A
      at hUA hdir' hal
    have hali : ∀ i, (UpdateAliens env delta s).aliens i =
        movedAlien (decide (edgeHit { s with alienMoveTimer := s.alienMoveTimer - delta }))
          (if edgeHit { s with alienMoveTimer := s.alienMoveTimer - delta } then
            s.alienDirection * -1 else s.alienDirection) (s.aliens i) := by
      intro i
      rw [hUA]
      exact hal i
    have hd : (UpdateAliens env delta s).alienDirection =
        (if edgeHit { s with alienMoveTimer := s.alienMoveTimer - delta } then
          s.alienDirection * -1 else s.alienDirection) := by
      rw [hUA]
      exact hdir'
    clear hUA hdir' hal
    by_cases he : edgeHit { s with alienMoveTimer := s.alienMoveTimer - delta }
    · rw [if_pos he] at hd
      simp only [if_pos he, decide_eq_true he] at hali
      refine ⟨fun hdir hin => ⟨fun i hact => ?_, ?_⟩, fun i => ?_⟩
      · obtain ⟨f1, f2, -, f4, -⟩ := movedAlien_fields true (s.alienDirection * -1) (s.aliens i)
        rw [hali i] at hact ⊢
        rw [f2] at hact
        rw [f1, f4 hact rfl]
        exact hin i hact
      · rw [hd]
        omega
      · obtain ⟨-, -, f3, f4, -⟩ := movedAlien_fields true (s.alienDirection * -1) (s.aliens i)
        rw [hali i]
        cases hact : (s.aliens i).active
        · rw [f3 hact]
        · rw [f4 hact rfl]
          show (s.aliens i).position.y ≤ (s.aliens i).position.y + 2
          linarith
    · rw [if_neg he] at hd
      simp only [if_neg he, decide_eq_false he] at hali
      have he' : ¬ (((findEdges s.aliens).2 + alienHorizontalMove * (s.alienDirection : ℚ) >
            (SCREEN_WIDTH : ℚ) ∧ s.alienDirection > 0) ∨
          ((findEdges s.aliens).1 + alienHorizontalMove * (s.alienDirection : ℚ) < 0 ∧
            s.alienDirection < 0)) := he
      refine ⟨fun hdir hin => ⟨fun i hact => ?_, ?_⟩, fun i => ?_⟩
      · obtain ⟨f1, f2, -, -, f5⟩ := movedAlien_fields false s.alienDirection (s.aliens i)
        rw [hali i] at hact ⊢
        rw [f2] at hact
        rw [f1, f5 hact rfl]
        obtain ⟨c1, c2⟩ := findEdges_covers s.aliens i hact
        obtain ⟨i1, i2⟩ := hin i hact
        have h800 : (SCREEN_WIDTH : ℚ) = 800 := by norm_num [SCREEN_WIDTH]
        have h3 : alienHorizontalMove = 3 := rfl
        rw [h800] at i2 he' ⊢
        rw [h3] at he'
        rcases hdir with h1 | h1
        · have hq : (s.alienDirection : ℚ) = 1 := by
            rw [h1]
            norm_num
          have hr : ¬ ((findEdges s.aliens).2 + 3 * (s.alienDirection : ℚ) > 800) :=
            fun hc => he' (Or.inl ⟨hc, by omega⟩)
          rw [hq] at hr ⊢
          dsimp only
          constructor <;> linarith
        · have hq : (s.alienDirection : ℚ) = -1 := by
            rw [h1]
            norm_num
          have hl : ¬ ((findEdges s.aliens).1 + 3 * (s.alienDirection : ℚ) < 0) :=
            fun hc => he' (Or.inr ⟨hc, by omega⟩)
          rw [hq] at hl ⊢
          dsimp only
          constructor <;> linarith
      · rw [hd]
        exact hdir
      · obtain ⟨-, -, f3, -, f5⟩ := movedAlien_fields false s.alienDirection (s.aliens i)
        rw [hali i]
        cases hact : (s.aliens i).active
        · rw [f3 hact]
        · rw [f5 hact rfl]

theorem C35_swarm_stays_in_field_witness :
    ((UpdateAliens sampleEnv 2 sampleState).alienDirection = 1 ∨
      (UpdateAliens sampleEnv 2 sampleState).alienDirection = -1) :=
  ((C35_swarm_stays_in_field sampleEnv 2 sampleState).1 (Or.inl rfl)
    (by decide!)).2

/-- C36: `hiScore ≥ score` is an invariant.  `CheckCollisions` preserves it, every award
raises `hiScore` to at least the new score, `hiScore` never decreases in it, and with
non-negative alien points `score` never decreases in it; `InitGame` and the title-screen
restart set `score` to 0 and keep `hiScore`, so they preserve it for `hiScore ≥ 0`; and from
every state with `0 ≤ hiScore` and `score ≤ hiScore` (as at program start, where both are 0)
it holds after every run of `UpdateDrawFrame`. -/
theorem C36_hiScore_invariant (env : Env) (s : GameState) :
    (s.score ≤ s.hiScore → (CheckCollisions env s).score ≤ (CheckCollisions env s).hiScore) ∧
    ((CheckCollisions env s).score ≠ s.score →
      (CheckCollisions env s).score ≤ (CheckCollisions env s).hiScore) ∧
    s.hiScore ≤ (CheckCollisions env s).hiScore ∧
    ((∀ i, 0 ≤ (s.aliens i).points) → s.score ≤ (CheckCollisions env s).score) ∧
    ((InitGame env s).score = 0 ∧ (InitGame env s).hiScore = s.hiScore) ∧
    ((startFromTitle env s).score = 0 ∧ (startFromTitle env s).hiScore = s.hiScore) ∧
    (0 ≤ s.hiScore →
      (InitGame env s).score ≤ (InitGame env s).hiScore ∧
      (startFromTitle env s).score ≤ (startFromTitle env s).hiScore) ∧
    (s.score ≤ s.hiScore → 0 ≤ s.hiScore → ∀ inps : List Input,
      (inps.foldl (fun st inp => UpdateDrawFrame env inp st) s).score ≤
        (inps.foldl (fun st inp => UpdateDrawFrame env inp st) s).hiScore) := by
  obtain ⟨e1, e2⟩ := CheckCollisions_scores_eq env s
  obtain ⟨-, i2, i3, -⟩ := InitGame_flags env s
  obtain ⟨-, t2, t3⟩ := startFromTitle_flags env s
  have hsc := playerShotCollisions_scores env s
  refine ⟨fun h => ?_, fun hne => ?_, ?_, fun hpts => ?_, ⟨i2, i3⟩, ⟨t2, t3⟩, fun h0 => ?_,
    fun h1 h0 inps => ?_⟩
  · rw [e1, e2]
    rcases hsc with ⟨h1, h2⟩ | ⟨h1, -⟩
    · rw [h1, h2]
      exact h
    · rw [h1]
      exact le_max_right _ _
  · rw [e1, e2]
    rcases hsc with ⟨h1, -⟩ | ⟨h1, -⟩
    · exact absurd (e1.trans h1) hne
    · rw [h1]
      exact le_max_right _ _
  · rw [e2]
    rcases hsc with ⟨-, h2⟩ | ⟨h1, -⟩
    · rw [h2]
    · rw [h1]
      exact le_max_left _ _
  · rw [e1]
    rcases hsc with ⟨h1, -⟩ | ⟨-, ⟨i, -, hi⟩ | hu⟩
    · rw [h1]
    · rw [hi]
      have := hpts i
      omega
    · rw [hu]
      simp only [UFO_POINTS]
      omega
  · rw [i2, i3, t2, t3]
    exact ⟨h0, h0⟩
  · have hrun : ∀ (l : List Input) (st : GameState), scoreInv st →
        scoreInv (l.foldl (fun st inp => UpdateDrawFrame env inp st) st) := by
      intro l
      induction l with
      | nil => exact fun st h => h
      | cons a l ih => exact fun st h => ih _ (UpdateDrawFrame_scoreInv env a st h)
    exact (hrun inps s ⟨h1, h0⟩).1

theorem C36_hiScore_invariant_witness :
    (CheckCollisions sampleEnv sampleHitState).score ≤
        (CheckCollisions sampleEnv sampleHitState).hiScore ∧
    sampleHitState.score ≤ (CheckCollisions sampleEnv sampleHitState).score :=
  have h := C36_hiScore_invariant sampleEnv sampleHitState
  ⟨h.1 (by decide), h.2.2.2.1 (by decide)⟩

/-- C37: for every non-game-over state, an `UpdateGame` call in which the pause key is
pressed ends with `gamePaused` false, whether the flag was set or clear before; from the
unpaused state the key press toggles the flag twice and the rest of the frame is skipped
(the state is returned unchanged); an unpaused game stays unpaused in every call, so no
sequence of `UpdateGame` calls from `InitGame` ends a frame with `gamePaused` true. -/
theorem C37_pause_never_engages (env : Env) (inp : Input) (s : GameState) :
    (s.gameOver = false → inp.keyPPressed = true → (UpdateGame env inp s).gamePaused = false) ∧
    (s.gameOver = false → s.gamePaused = false → inp.keyPPressed = true →
      (pauseToggle inp s).gamePaused = true ∧
      (pauseToggle inp (pauseToggle inp s)).gamePaused = false ∧
      UpdateGame env inp s = s) ∧
    (s.gamePaused = false → (UpdateGame env inp s).gamePaused = false) ∧
    (∀ inps : List Input,
      (inps.foldl (fun st i => UpdateGame env i st) (InitGame env s)).gamePaused = false) := by
  refine ⟨(UpdateGame_gamePaused env inp s).1, fun hgo hp hk => ?_,
    (UpdateGame_gamePaused env inp s).2, fun inps => ?_⟩
  · have hp1 : (pauseToggle inp s).gamePaused = true := by
      rw [pauseToggle_pressed inp s hk]
      simp [hp]
    refine ⟨hp1, ?_, ?_⟩
    · rw [pauseToggle_twice inp s hk]
      exact hp
    · rw [UpdateGame_paused env inp s hgo hp1, pauseToggle_twice inp s hk]
  · have hrun : ∀ (l : List Input) (st : GameState), st.gamePaused = false →
        (l.foldl (fun st i => UpdateGame env i st) st).gamePaused = false := by
      intro l
      induction l with
      | nil => exact fun st h => h
      | cons a l ih => exact fun st h => ih _ ((UpdateGame_gamePaused env a st).2 h)
    exact hrun inps _ (InitGame_flags env s).1

theorem C37_pause_never_engages_witness :
    (UpdateGame sampleEnv samplePauseInput samplePausedState).gamePaused = false ∧
    UpdateGame sampleEnv samplePauseInput sampleState = sampleState :=
  ⟨(C37_pause_never_engages sampleEnv samplePauseInput samplePausedState).1 rfl rfl,
    ((C37_pause_never_engages sampleEnv samplePauseInput sampleState).2.1 rfl rfl rfl).2.2⟩

/-- C31: in `CheckCollisions`, when the active player shot overlaps no active alien and does
not hit the UFO: if on every active shield whose bounds the shot rectangle intersects the
mask pixel sampled at the top-centre point of the shot has alpha `≤ 10`, the player-shot
chain changes nothing, the shot is still active after the call, and with no enemy projectile
in flight the call changes no shield; if some such shield samples alpha `> 10`, the
lowest-index one is damaged at that point, the shot is deactivated and no other shield
changes.  Damaged at that point means: every pixel of its mask that passes the distance
test of `DamageShield` against the mapped point gets alpha 0 and the other pixels stay, so
that the sample at that point, above 10 before, reads alpha 0 afterwards. -/
theorem C31_shot_vs_shield_mask (env : Env) (s : GameState)
    (hshot : s.player.shotActive = true)
    (hno : ∀ i, ¬ ((s.aliens i).active = true ∧
      CheckCollisionRecs (shotRect s.player) (alienRect (s.aliens i)) = true))
    (hnu : ¬ (s.ufo.active = true ∧ s.ufo.exploding = false ∧
      CheckCollisionRecs (shotRect s.player) (ufoRect s.ufo) = true)) :
    ((∀ k, (s.shields k).active = true →
        CheckCollisionRecs (shotRect s.player) (s.shields k).bounds = true →
        (shieldPixelAt s k (shotTop (shotRect s.player))).a ≤ 10) →
      playerShotCollisions env s = s ∧
      (CheckCollisions env s).player.shotActive = true ∧
      ((∀ j, (s.alienBullets j).active = false) → (CheckCollisions env s).shields = s.shields)) ∧
    (∀ k0,
      ((s.shields k0).active = true ∧
        CheckCollisionRecs (shotRect s.player) (s.shields k0).bounds = true ∧
        (shieldPixelAt s k0 (shotTop (shotRect s.player))).a > 10) →
      (∀ j, j < k0 → ¬ ((s.shields j).active = true ∧
        CheckCollisionRecs (shotRect s.player) (s.shields j).bounds = true ∧
        (shieldPixelAt s j (shotTop (shotRect s.player))).a > 10)) →
      playerShotCollisions env s = shotImpact env (shotRect s.player) k0 s ∧
      (CheckCollisions env s).player.shotActive = false ∧
      (playerShotCollisions env s).shields k0 =
        (DamageShield k0 (shotTop (shotRect s.player)) s).shields k0 ∧
      (shieldPixelAt (playerShotCollisions env s) k0 (shotTop (shotRect s.player))).a = 0 ∧
      (∀ x y : Nat, (x : Int) < (s.shields k0).renderTexture.texture.width →
        (y : Int) < (s.shields k0).renderTexture.texture.height →
        GetImageColor (LoadImageFromTexture
            ((playerShotCollisions env s).shields k0).renderTexture.texture) x y =
          if withinDamageRadius (WorldToShieldTexCoords s k0 (shotTop (shotRect s.player))) x y =
              true then
            { GetImageColor (LoadImageFromTexture (s.shields k0).renderTexture.texture) x y with
              a := 0 }
          else GetImageColor (LoadImageFromTexture (s.shields k0).renderTexture.texture) x y) ∧
      (∀ j, j ≠ k0 → (playerShotCollisions env s).shields j = s.shields j) ∧
      ((∀ j, (s.alienBullets j).active = false) →
        (CheckCollisions env s).shields k0 =
          (DamageShield k0 (shotTop (shotRect s.player)) s).shields k0 ∧
        (shieldPixelAt (CheckCollisions env s) k0 (shotTop (shotRect s.player))).a = 0 ∧
        ∀ j, j ≠ k0 → (CheckCollisions env s).shields j = s.shields j)) := by
  have hcc : CheckCollisions env s =
      alienShotsVsShields env (alienShotsVsPlayer (playerShotCollisions env s)) := rfl
  have hpsc := playerShotCollisions_shields env s hshot hno hnu
  have hact : (CheckCollisions env s).player.shotActive =
      (playerShotCollisions env s).player.shotActive := by
    obtain ⟨t, bs, h1⟩ := alienShotsVsPlayer_shape (playerShotCollisions env s)
    obtain ⟨bs2, sh, ex, h2⟩ :=
      alienShotsVsShields_shape env (alienShotsVsPlayer (playerShotCollisions env s))
    rw [hcc, h2, h1]
  refine ⟨fun hpass => ?_, fun k0 hk0 hlow => ?_⟩
  · have hnone : (List.finRange NUM_SHIELDS).find? (shotStopsAt s (shotRect s.player)) = none := by
      rw [List.find?_eq_none]
      intro k _ hc
      obtain ⟨⟨c1, c2⟩, c3⟩ := (shotStopsAt_iff s _ k).mp hc
      exact absurd (hpass k c1 c2) (not_le.mpr c3)
    rw [hnone] at hpsc
    have hpsc' : playerShotCollisions env s = s := hpsc
    refine ⟨hpsc', by rw [hact, hpsc']; exact hshot, fun hb => ?_⟩
    rw [hcc, hpsc', enemyPasses_no_bullets env s hb]
  · have hfind : (List.finRange NUM_SHIELDS).find? (shotStopsAt s (shotRect s.player)) =
        some k0 :=
      find?_finRange_lowest _ k0 ((shotStopsAt_iff s _ k0).mpr ⟨⟨hk0.1, hk0.2.1⟩, hk0.2.2⟩)
        (fun j hj => by
          cases hc : shotStopsAt s (shotRect s.player) j
          · rfl
          · obtain ⟨⟨c1, c2⟩, c3⟩ := (shotStopsAt_iff s _ j).mp hc
            exact absurd ⟨c1, c2, c3⟩ (hlow j hj))
    rw [hfind] at hpsc
    have hpsc' : playerShotCollisions env s = shotImpact env (shotRect s.player) k0 s := hpsc
    obtain ⟨f1, f2, f3, f4⟩ := shotImpact_fields env (shotRect s.player) k0 s
    have hsh : (playerShotCollisions env s).shields k0 =
        (DamageShield k0 (shotTop (shotRect s.player)) s).shields k0 := by rw [hpsc', f2]
    have hzero : (shieldPixelAt (playerShotCollisions env s) k0
        (shotTop (shotRect s.player))).a = 0 := by
      rw [shieldPixelAt_congr _ _ k0 _ hsh]
      exact DamageShield_sample_alpha s k0 _ hk0.1
    refine ⟨hpsc', by rw [hact, hpsc']; exact f1, hsh, hzero, fun x y hx hy => ?_,
      fun j hj => by rw [hpsc']; exact f3 j hj, fun hb => ?_⟩
    · rw [hsh, DamageShield_pixel s k0 _ hk0.1 x y hx hy]
      rfl
    have hb' : ∀ j, ((playerShotCollisions env s).alienBullets j).active = false := by
      intro j
      rw [hpsc', f4]
      exact hb j
    have hsame : CheckCollisions env s = playerShotCollisions env s := by
      rw [hcc, enemyPasses_no_bullets env _ hb']
    rw [hsame]
    exact ⟨hsh, hzero, fun j hj => by rw [hpsc']; exact f3 j hj⟩

theorem C31_shot_vs_shield_mask_witness :
    (playerShotCollisions sampleEnv sampleHoleShotState = sampleHoleShotState ∧
      (CheckCollisions sampleEnv sampleHoleShotState).player.shotActive = true) ∧
    (CheckCollisions sampleEnv sampleShieldShotState).player.shotActive = false ∧
    (shieldPixelAt sampleShieldShotState 0
      (shotTop (shotRect sampleShieldShotState.player))).a = 255 ∧
    (shieldPixelAt (playerShotCollisions sampleEnv sampleShieldShotState) 0
      (shotTop (shotRect sampleShieldShotState.player))).a = 0 ∧
    ((playerShotCollisions sampleEnv sampleShieldShotState).shields 0).renderTexture.texture.pixels ≠
      (sampleShieldShotState.shields 0).renderTexture.texture.pixels :=
  have h1 := (C31_shot_vs_shield_mask sampleEnv sampleHoleShotState rfl (by decide!)
    (by decide!)).1 (by decide!)
  have h2 := (C31_shot_vs_shield_mask sampleEnv sampleShieldShotState rfl (by decide!)
    (by decide!)).2 0 (by decide!) (by decide!)
  ⟨⟨h1.1, h1.2.1⟩, h2.2.1, by decide!, h2.2.2.2.1, by decide!⟩

/-- C32: in step 5 of `CheckCollisions`, the loop body for a projectile that is active when
the step reaches it tests the shields in index order: the lowest-index active shield whose
bounds intersect the projectile and whose mask has alpha `> 10` at the bottom-centre point of
the projectile is damaged at that point and the projectile is deactivated, and no other
shield and no other projectile changes; with no such shield the body changes nothing, so the
projectile stays active and every mask is unchanged by it.  Damaged at that point means:
every pixel of the mask that passes the distance test of `DamageShield` against the mapped
point gets alpha 0 and the other pixels stay, so that the sample at that point, above 10
before, reads alpha 0 afterwards.  Step 5 is this body run over the projectile slots in
order, and it skips inactive slots. -/
theorem C32_projectile_vs_shields (env : Env) (s : GameState) (i : Fin MAX_ALIEN_BULLETS)
    (hact : (s.alienBullets i).active = true) :
    (∀ k0,
      ((s.shields k0).active = true ∧
        CheckCollisionRecs (bulletRect (s.alienBullets i)) (s.shields k0).bounds = true ∧
        (shieldPixelAt s k0 (bulletBottom (bulletRect (s.alienBullets i)))).a > 10) →
      (∀ j, j < k0 → ¬ ((s.shields j).active = true ∧
        CheckCollisionRecs (bulletRect (s.alienBullets i)) (s.shields j).bounds = true ∧
        (shieldPixelAt s j (bulletBottom (bulletRect (s.alienBullets i)))).a > 10)) →
      shieldPassStep env s i = bulletImpact env i (bulletRect (s.alienBullets i)) k0 s ∧
      ((shieldPassStep env s i).alienBullets i).active = false ∧
      (∀ j, j ≠ i → (shieldPassStep env s i).alienBullets j = s.alienBullets j) ∧
      (shieldPassStep env s i).shields k0 =
        (DamageShield k0 (bulletBottom (bulletRect (s.alienBullets i))) s).shields k0 ∧
      (shieldPixelAt (shieldPassStep env s i) k0
        (bulletBottom (bulletRect (s.alienBullets i)))).a = 0 ∧
      (∀ x y : Nat, (x : Int) < (s.shields k0).renderTexture.texture.width →
        (y : Int) < (s.shields k0).renderTexture.texture.height →
        GetImageColor (LoadImageFromTexture
            ((shieldPassStep env s i).shields k0).renderTexture.texture) x y =
          if withinDamageRadius
              (WorldToShieldTexCoords s k0 (bulletBottom (bulletRect (s.alienBullets i)))) x y =
              true then
            { GetImageColor (LoadImageFromTexture (s.shields k0).renderTexture.texture) x y with
              a := 0 }
          else GetImageColor (LoadImageFromTexture (s.shields k0).renderTexture.texture) x y) ∧
      (∀ j, j ≠ k0 → (shieldPassStep env s i).shields j = s.shields j)) ∧
    ((∀ k, ¬ ((s.shields k).active = true ∧
        CheckCollisionRecs (bulletRect (s.alienBullets i)) (s.shields k).bounds = true ∧
        (shieldPixelAt s k (bulletBottom (bulletRect (s.alienBullets i)))).a > 10)) →
      shieldPassStep env s i = s) ∧
    alienShotsVsShields env s = (List.finRange MAX_ALIEN_BULLETS).foldl (shieldPassStep env) s ∧
    (∀ (t : GameState) (j : Fin MAX_ALIEN_BULLETS), (t.alienBullets j).active = false →
      shieldPassStep env t j = t) := by
  have hstep : shieldPassStep env s i =
      match (List.finRange NUM_SHIELDS).find? (bulletStopsAt s (bulletRect (s.alienBullets i))) with
      | some k => bulletImpact env i (bulletRect (s.alienBullets i)) k s
      | none => s := by
    unfold shieldPassStep
    rw [if_neg (by simp [hact]), bulletVsShields_eq]
  refine ⟨fun k0 hk0 hlow => ?_, fun hnone => ?_, alienShotsVsShields_eq_foldl env s,
    fun t j hj => shieldPassStep_inactive env t j hj⟩
  · have hfind : (List.finRange NUM_SHIELDS).find?
        (bulletStopsAt s (bulletRect (s.alienBullets i))) = some k0 :=
      find?_finRange_lowest _ k0 ((bulletStopsAt_iff s _ k0).mpr ⟨⟨hk0.1, hk0.2.1⟩, hk0.2.2⟩)
        (fun j hj => by
          cases hc : bulletStopsAt s (bulletRect (s.alienBullets i)) j
          · rfl
          · obtain ⟨⟨c1, c2⟩, c3⟩ := (bulletStopsAt_iff s _ j).mp hc
            exact absurd ⟨c1, c2, c3⟩ (hlow j hj))
    rw [hfind] at hstep
    have hstep' : shieldPassStep env s i =
        bulletImpact env i (bulletRect (s.alienBullets i)) k0 s := hstep
    obtain ⟨f1, f2, f3, f4⟩ := bulletImpact_fields env i (bulletRect (s.alienBullets i)) k0 s
    have hsh : (shieldPassStep env s i).shields k0 =
        (DamageShield k0 (bulletBottom (bulletRect (s.alienBullets i))) s).shields k0 := by
      rw [hstep', f3]
    have hzero : (shieldPixelAt (shieldPassStep env s i) k0
        (bulletBottom (bulletRect (s.alienBullets i)))).a = 0 := by
      rw [shieldPixelAt_congr _ _ k0 _ hsh]
      exact DamageShield_sample_alpha s k0 _ hk0.1
    refine ⟨hstep', by rw [hstep']; exact f1, by rw [hstep']; exact f2, hsh, hzero,
      fun x y hx hy => ?_, by rw [hstep']; exact f4⟩
    rw [hsh, DamageShield_pixel s k0 _ hk0.1 x y hx hy]
    rfl
  · have hfind : (List.finRange NUM_SHIELDS).find?
        (bulletStopsAt s (bulletRect (s.alienBullets i))) = none := by
      rw [List.find?_eq_none]
      intro k _ hc
      obtain ⟨⟨c1, c2⟩, c3⟩ := (bulletStopsAt_iff s _ k).mp hc
      exact hnone k ⟨c1, c2, c3⟩
    rw [hfind] at hstep
    exact hstep

theorem C32_projectile_vs_shields_witness :
    ((shieldPassStep sampleEnv sampleDoubleHitState 0).alienBullets 0).active = false ∧
    (shieldPassStep sampleEnv sampleDoubleHitState 0).shields 1 =
      sampleDoubleHitState.shields 1 ∧
    (shieldPixelAt sampleDoubleHitState 0
      (bulletBottom (bulletRect (sampleDoubleHitState.alienBullets 0)))).a = 255 ∧
    (shieldPixelAt (shieldPassStep sampleEnv sampleDoubleHitState 0) 0
      (bulletBottom (bulletRect (sampleDoubleHitState.alienBullets 0)))).a = 0 ∧
    ((shieldPassStep sampleEnv sampleDoubleHitState 0).shields 0).renderTexture.texture.pixels ≠
      (sampleDoubleHitState.shields 0).renderTexture.texture.pixels :=
  have h := (C32_projectile_vs_shields sampleEnv sampleDoubleHitState 0 (by decide!)).1 0
    (by decide!) (by decide!)
  ⟨h.2.1, h.2.2.2.2.2.2 1 (by decide), by decide!, h.2.2.2.2.1, by decide!⟩

/-- C34 fails on `sampleHalfShotState`: shield 0 is active, its mask is opaque in image row 0
and transparent in image row 1, and the shot rectangle intersects its bounds with its
top-centre point half a unit below the top edge.  `TestPlayerBulletShieldCollision` scales
the point without the vertical flip and the clamp of `WorldToShieldTexCoords`, samples pixel
`(0, 0)` and returns a hit, while the production check samples pixel `(0, 1)`, whose alpha
is 0, and `CheckCollisions` lets the shot pass. -/
theorem C34_test_helper_disagrees :
    (sampleHalfShotState.shields 0).active = true ∧
    CheckCollisionRecs (shotRect sampleHalfShotState.player)
      (sampleHalfShotState.shields 0).bounds = true ∧
    TestPlayerBulletShieldCollision sampleHalfShotState 0
        sampleHalfShotState.player.shotPosition sampleHalfShotState.player.shotSize =
      (true, some ⟨203 / 2, 961 / 2⟩, some WHITE) ∧
    WorldToShieldTexCoords sampleHalfShotState 0 (shotTop (shotRect sampleHalfShotState.player)) =
      ⟨3 / 4, 1⟩ ∧
    shieldPixelAt sampleHalfShotState 0 (shotTop (shotRect sampleHalfShotState.player)) = BLANK ∧
    (CheckCollisions sampleEnv sampleHalfShotState).player.shotActive = true ∧
    ((CheckCollisions sampleEnv sampleHalfShotState).shields 0).renderTexture.texture.pixels =
      (sampleHalfShotState.shields 0).renderTexture.texture.pixels := by
  refine ⟨by decide!, by decide!, by decide!, by decide!, by decide!, by decide!, by decide!⟩

/-- C39: the UFO bonus is awarded at most once per UFO appearance.  `UFO_POINTS` is added
exactly when step 2 of `CheckCollisions` fires (`ufoHit`), which leaves the UFO exploding;
while `ufo.exploding` is set or `ufo.active` is clear, `CheckCollisions` leaves the UFO
unchanged, step 2 does not fire and the score is unchanged or raised by an alien's points;
`UpdateUFO` keeps such a UFO exploding or inactive unless it calls `SpawnUFO`; so in every
run of `UpdateGame` frames in which `SpawnUFO` is not called, at most one frame awards the
bonus, and none does if the run starts with the UFO exploding or inactive. -/
theorem C39_ufo_bonus_once (env : Env) (s : GameState) :
    (ufoSpent s.ufo →
      (CheckCollisions env s).ufo = s.ufo ∧ ¬ ufoHit s ∧
      ((CheckCollisions env s).score = s.score ∨
        ∃ i, (s.aliens i).active = true ∧
          CheckCollisionRecs (shotRect s.player) (alienRect (s.aliens i)) = true ∧
          (CheckCollisions env s).score = s.score + (s.aliens i).points)) ∧
    (ufoHit s →
      (CheckCollisions env s).score = s.score + UFO_POINTS ∧
      ufoSpent (CheckCollisions env s).ufo) ∧
    (∀ delta, ufoSpent s.ufo → ¬ (s.ufo.active = false ∧ s.ufo.spawnTimer - delta ≤ 0) →
      ufoSpent (UpdateUFO env delta s).ufo) ∧
    (∀ inps : List Input, noSpawn env inps s →
      ufoAwards env inps s ≤ 1 ∧ (ufoSpent s.ufo → ufoAwards env inps s = 0)) := by
  refine ⟨fun hs => ?_, fun hh => ?_, fun delta hs hns => UpdateUFO_ufoSpent env delta s hs hns,
    fun inps => ufoAwards_le_one env inps s⟩
  · have hnh : ¬ ufoHit s := by
      intro hh
      rcases hs with hc | hc
      · rw [hh.2.2.2.1] at hc
        exact absurd hc (by decide)
      · rw [hh.2.2.1] at hc
        exact absurd hc (by decide)
    obtain ⟨h1, h2⟩ := CheckCollisions_no_ufoHit env s hnh
    exact ⟨h1, hnh, h2⟩
  · obtain ⟨h1, h2⟩ := CheckCollisions_ufoHit env s hh
    refine ⟨h1, ?_⟩
    rw [h2]
    exact Or.inl rfl

theorem C39_ufo_bonus_once_witness :
    ufoAwards sampleEnv [sampleInput, sampleInput] sampleUfoHitState ≤ 1 ∧
    (CheckCollisions sampleEnv sampleUfoHitState).score = sampleUfoHitState.score + UFO_POINTS :=
  have h := C39_ufo_bonus_once sampleEnv sampleUfoHitState
  ⟨(h.2.2.2 [sampleInput, sampleInput] ⟨by decide!, by decide!, trivial⟩).1,
    (h.2.1 (by decide!)).1⟩

end Invaders
